import Mathlib

/-!
# argocd-js-sdk: request core and resource wrappers

A shallow embedding of the SDK's JavaScript sources.

* `src/api/base-service.js`: `BaseService` (constructor and `_request`).
* `api/application.js`, `api/cluster.js`, ... : one Lean function per wrapper method.

JavaScript values are embedded as `JSVal`; objects are property lists in
insertion order.  The host facilities that the SDK calls but does not define
(the `URL` constructor, `fetch`, `JSON.stringify`) are fields of a `Runtime`
record, so every universally quantified theorem holds for every host.
`URLSearchParams` is embedded concretely, following the URL Standard's
`application/x-www-form-urlencoded` serializer.
-/

set_option autoImplicit false

namespace ArgoSDK

/-! ## JavaScript values -/

/-- JavaScript values handled by the SDK.  `num n` is the Number whose value is the
integer `n` (safe-integer range); strings are sequences of Unicode scalar values. -/
inductive JSVal where
  | undefined
  | null
  | bool (b : Bool)
  | num (n : Int)
  | str (s : String)
  | arr (xs : List JSVal)
  | obj (props : List (String × JSVal))

/-- Own enumerable string-keyed properties of an object, in insertion order (the
placement of integer-like keys before the others is not modelled). -/
abbrev Obj := List (String × JSVal)

namespace JSVal

mutual
/-- Decidable equality of values (structural). -/
def decEq : (a b : JSVal) → Decidable (a = b)
  | undefined, undefined => isTrue rfl
  | null, null => isTrue rfl
  | bool a, bool b =>
    if h : a = b then isTrue (by rw [h]) else isFalse (by intro e; cases e; exact h rfl)
  | num a, num b =>
    if h : a = b then isTrue (by rw [h]) else isFalse (by intro e; cases e; exact h rfl)
  | str a, str b =>
    if h : a = b then isTrue (by rw [h]) else isFalse (by intro e; cases e; exact h rfl)
  | arr a, arr b =>
    match decEqList a b with
    | isTrue h => isTrue (by rw [h])
    | isFalse h => isFalse (by intro e; cases e; exact h rfl)
  | obj a, obj b =>
    match decEqProps a b with
    | isTrue h => isTrue (by rw [h])
    | isFalse h => isFalse (by intro e; cases e; exact h rfl)
  | undefined, null => isFalse nofun
  | undefined, bool _ => isFalse nofun
  | undefined, num _ => isFalse nofun
  | undefined, str _ => isFalse nofun
  | undefined, arr _ => isFalse nofun
  | undefined, obj _ => isFalse nofun
  | null, undefined => isFalse nofun
  | null, bool _ => isFalse nofun
  | null, num _ => isFalse nofun
  | null, str _ => isFalse nofun
  | null, arr _ => isFalse nofun
  | null, obj _ => isFalse nofun
  | bool _, undefined => isFalse nofun
  | bool _, null => isFalse nofun
  | bool _, num _ => isFalse nofun
  | bool _, str _ => isFalse nofun
  | bool _, arr _ => isFalse nofun
  | bool _, obj _ => isFalse nofun
  | num _, undefined => isFalse nofun
  | num _, null => isFalse nofun
  | num _, bool _ => isFalse nofun
  | num _, str _ => isFalse nofun
  | num _, arr _ => isFalse nofun
  | num _, obj _ => isFalse nofun
  | str _, undefined => isFalse nofun
  | str _, null => isFalse nofun
  | str _, bool _ => isFalse nofun
  | str _, num _ => isFalse nofun
  | str _, arr _ => isFalse nofun
  | str _, obj _ => isFalse nofun
  | arr _, undefined => isFalse nofun
  | arr _, null => isFalse nofun
  | arr _, bool _ => isFalse nofun
  | arr _, num _ => isFalse nofun
  | arr _, str _ => isFalse nofun
  | arr _, obj _ => isFalse nofun
  | obj _, undefined => isFalse nofun
  | obj _, null => isFalse nofun
  | obj _, bool _ => isFalse nofun
  | obj _, num _ => isFalse nofun
  | obj _, str _ => isFalse nofun
  | obj _, arr _ => isFalse nofun
termination_by structural a => a
/-- Decidable equality of element lists. -/
def decEqList : (a b : List JSVal) → Decidable (a = b)
  | [], [] => isTrue rfl
  | [], _ :: _ => isFalse nofun
  | _ :: _, [] => isFalse nofun
  | x :: xs, y :: ys =>
    match decEq x y, decEqList xs ys with
    | isTrue h, isTrue t => isTrue (by rw [h, t])
    | isFalse h, _ => isFalse (by intro e; cases e; exact h rfl)
    | _, isFalse t => isFalse (by intro e; cases e; exact t rfl)
termination_by structural a => a
/-- Decidable equality of property lists. -/
def decEqProps : (a b : List (String × JSVal)) → Decidable (a = b)
  | [], [] => isTrue rfl
  | [], _ :: _ => isFalse nofun
  | _ :: _, [] => isFalse nofun
  | (k, x) :: xs, (l, y) :: ys =>
    if hk : k = l then
      match decEq x y, decEqProps xs ys with
      | isTrue h, isTrue t => isTrue (by rw [hk, h, t])
      | isFalse h, _ => isFalse (by intro e; cases e; exact h rfl)
      | _, isFalse t => isFalse (by intro e; cases e; exact t rfl)
    else isFalse (by intro e; cases e; exact hk rfl)
termination_by structural a => a
end

instance : DecidableEq JSVal := decEq

/-- ECMAScript `ToBoolean`: the test performed by `if (v)` and `!v`. -/
def truthy : JSVal → Bool
  | undefined => false
  | null => false
  | bool b => b
  | num n => n != 0
  | str s => s != ""
  | arr _ => true
  | obj _ => true

mutual
/-- ECMAScript `ToString`, as applied by template literals and by the conversion of
`URLSearchParams.append` arguments: an array is the comma-join of its elements. -/
def ToString : JSVal → String
  | undefined => "undefined"
  | null => "null"
  | bool b => if b then "true" else "false"
  | num n => toString n
  | str s => s
  | arr xs => join xs
  | obj _ => "[object Object]"
termination_by structural v => v
/-- The function `Array.prototype.join` with separator `,`: `undefined` and `null`
elements contribute the empty string. -/
def join : List JSVal → String
  | [] => ""
  | x :: rest =>
    (match x with
      | undefined => ""
      | null => ""
      | v => ToString v)
    ++ (match rest with
      | [] => ""
      | _ :: _ => ",")
    ++ join rest
termination_by structural xs => xs
end

end JSVal

/-- Property read `o.k`: the value of the own property `k`, `undefined` when there
is none. -/
def Obj.get (o : Obj) (k : String) : JSVal :=
  match o.lookup k with
  | some v => v
  | none => JSVal.undefined

/-- Property write on an object under construction: an existing key keeps its
position and takes the new value, a new key is appended. -/
def Obj.set : Obj → String → JSVal → Obj
  | [], k, v => [(k, v)]
  | (k0, v0) :: rest, k, v =>
    if k0 = k then (k0, v) :: rest else (k0, v0) :: Obj.set rest k v

/-- Numbers the elements of a list from `i` on, as the index properties of an
array or of a string. -/
def indexed : Nat → List JSVal → Obj
  | _, [] => []
  | i, x :: xs => (toString i, x) :: indexed (i + 1) xs

/-- The own enumerable properties copied by the object spread `...v`: none for
`undefined`, `null`, booleans and numbers; the index properties of an array or a
string (one per character, for strings of the Basic Multilingual Plane). -/
def spreadSource : JSVal → Obj
  | JSVal.obj props => props
  | JSVal.arr xs => indexed 0 xs
  | JSVal.str s => indexed 0 (s.data.map fun c => JSVal.str (String.mk [c]))
  | _ => []

/-- Object spread inside an object literal, `{ ...target, ...v }`: every copied
property is written onto the properties collected so far. -/
def spread (target : Obj) (v : JSVal) : Obj :=
  (spreadSource v).foldl (fun acc kv => Obj.set acc kv.1 kv.2) target

/-! ## Errors and responses -/

/-- Values thrown, or used as rejection reasons. -/
inductive Thrown where
  | Error (message : String)
  | TypeError (message : String)
  | SyntaxError (message : String)
  | value (v : JSVal)
  deriving DecidableEq

/-- Decidable equality of completions of synchronous calls. -/
instance instDecidableEqExcept {ε α : Type} [DecidableEq ε] [DecidableEq α] :
    DecidableEq (Except ε α)
  | Except.ok a, Except.ok b =>
    if h : a = b then isTrue (by rw [h]) else isFalse (by intro e; cases e; exact h rfl)
  | Except.error a, Except.error b =>
    if h : a = b then isTrue (by rw [h]) else isFalse (by intro e; cases e; exact h rfl)
  | Except.ok _, Except.error _ => isFalse nofun
  | Except.error _, Except.ok _ => isFalse nofun

/-- Settled state of a promise. -/
inductive Settled (α : Type) where
  | fulfilled (value : α)
  | rejected (reason : Thrown)
  deriving DecidableEq

/-- Body of a response.  `empty` is a body of zero bytes; `content d` is a non-empty
body, `d` being what decoding it as JSON yields. -/
inductive Body where
  | empty
  | content (decoded : Settled JSVal)
  deriving DecidableEq

/-- The part of a fetch `Response` read by the SDK. -/
structure Response where
  ok : Bool
  status : Nat
  body : Body
  deriving DecidableEq

/-- The method `Response.json()`: the body text parsed as JSON.  The empty text is not
a JSON text, so parsing it throws a `SyntaxError`. -/
def Response.json (r : Response) : Settled JSVal :=
  match r.body with
  | Body.empty => Settled.rejected (Thrown.SyntaxError "Unexpected end of JSON input")
  | Body.content d => d

/-! ## URLSearchParams -/

/-- UTF-8 encoding of a Unicode scalar value, as a list of bytes. -/
def utf8Bytes (c : Char) : List Nat :=
  let n := c.toNat
  if n < 0x80 then [n]
  else if n < 0x800 then [0xC0 + n / 64, 0x80 + n % 64]
  else if n < 0x10000 then [0xE0 + n / 4096, 0x80 + n / 64 % 64, 0x80 + n % 64]
  else [0xF0 + n / 262144, 0x80 + n / 4096 % 64, 0x80 + n / 64 % 64, 0x80 + n % 64]

/-- Upper-case hexadecimal digit of a value below 16. -/
def hexDigit (n : Nat) : Char :=
  if n < 10 then Char.ofNat (48 + n) else Char.ofNat (55 + n)

/-- Percent-encoding of one byte: `%` followed by two upper-case hexadecimal digits. -/
def percentByte (b : Nat) : List Char :=
  ['%', hexDigit (b / 16), hexDigit (b % 16)]

/-- Bytes outside the `application/x-www-form-urlencoded` percent-encode set: ASCII
alphanumerics and `*`, `-`, `.`, `_`. -/
def urlencodedSafe (b : Nat) : Bool :=
  b == 0x2A || b == 0x2D || b == 0x2E || (0x30 ≤ b && b ≤ 0x39) ||
    (0x41 ≤ b && b ≤ 0x5A) || b == 0x5F || (0x61 ≤ b && b ≤ 0x7A)

/-- One byte of a name or value in the `application/x-www-form-urlencoded` serializer:
a space becomes `+`, a safe byte stands for itself, any other byte is percent-encoded. -/
def urlencodedByte (b : Nat) : List Char :=
  if b = 0x20 then ['+']
  else if urlencodedSafe b then [Char.ofNat b]
  else percentByte b

/-- Serialization of a name or value: its UTF-8 bytes, each through `urlencodedByte`. -/
def urlencodedChars : List Char → List Char
  | [] => []
  | c :: cs => ((utf8Bytes c).map urlencodedByte).flatten ++ urlencodedChars cs

/-- Serialization of a name or value, on strings. -/
def urlencoded (s : String) : String :=
  String.mk (urlencodedChars s.data)

/-- The class `URLSearchParams`: an ordered list of name-value pairs. -/
structure URLSearchParams where
  list : List (String × String)
  deriving DecidableEq

/-- The constructor call `new URLSearchParams()`: the empty list. -/
def URLSearchParams.new : URLSearchParams :=
  { list := [] }

/-- The method `append(name, value)`: the value is converted to a string and the pair
is added at the end; existing pairs, also under the same name, are kept. -/
def URLSearchParams.append (q : URLSearchParams) (name : String) (value : JSVal) :
    URLSearchParams :=
  { list := q.list ++ [(name, value.ToString)] }

/-- One serialized pair, `name=value`. -/
def serializePair (kv : String × String) : String :=
  urlencoded kv.1 ++ "=" ++ urlencoded kv.2

/-- The method `toString()`: the serialized pairs joined by `&`. -/
def URLSearchParams.toString (q : URLSearchParams) : String :=
  "&".intercalate (q.list.map serializePair)

/-- The call `v.forEach(x => queryParams.append(name, x))`: on an array, one `append`
per element in order; any other value has no callable `forEach`, and the call throws
a `TypeError`. -/
def forEachAppend (q : URLSearchParams) (name : String) : JSVal → Except Thrown URLSearchParams
  | JSVal.arr xs => Except.ok (xs.foldl (fun acc x => acc.append name x) q)
  | _ => Except.error (Thrown.TypeError ("params." ++ name ++ ".forEach is not a function"))

/-! ## Host runtime -/

/-- The host facilities called by the SDK.  `URL input base` is the `href` of
`new URL(input, base)`, or what the constructor throws; `fetch url init` is the
settled state of the promise returned by `fetch`; `JSON_stringify` is
`JSON.stringify`. -/
structure Runtime where
  URL : String → String → Except Thrown String
  fetch : String → Obj → Settled Response
  JSON_stringify : JSVal → JSVal

/-- Arguments of one invocation of `_request`. -/
structure RequestArgs where
  method : String
  path : String
  options : Option Obj
  deriving DecidableEq

/-- Arguments of one invocation of `fetch`. -/
structure FetchCall where
  url : String
  init : Obj
  deriving DecidableEq

/-- What an asynchronous SDK method did: the invocations of `_request` and of `fetch`
it made, in order, and the settled state of the promise it returned. -/
structure Outcome where
  requests : List RequestArgs
  fetches : List FetchCall
  result : Settled JSVal
  deriving DecidableEq

/-- Client configuration, `{ baseUrl, token }`. -/
structure ClientConfig where
  baseUrl : String
  token : String
  deriving DecidableEq

/-! ## src/api/base-service.js -/

/-- The class `BaseService`: the fields set by its constructor. -/
structure BaseService where
  baseUrl : String
  token : String
  deriving DecidableEq

/-- The constructor of `BaseService`. -/
def BaseService.new (config : ClientConfig) : BaseService :=
  { baseUrl := config.baseUrl, token := config.token }

/-- The default headers literal together with the spread of `options.headers`. -/
def BaseService.headers (self : BaseService) (options : Obj) : Obj :=
  spread
    [("Authorization", JSVal.str ("Bearer " ++ self.token)),
     ("Content-Type", JSVal.str "application/json")]
    (options.get "headers")

/-- The object literal `{ method, headers, ...options }` passed to `fetch`. -/
def BaseService.init (self : BaseService) (method : String) (options : Obj) : Obj :=
  spread
    [("method", JSVal.str method), ("headers", JSVal.obj (self.headers options))]
    (JSVal.obj options)

/-- The method `_request(method, path, options = {})`. -/
def BaseService._request (self : BaseService) (rt : Runtime) (method path : String)
    (options : Option Obj) : Outcome :=
  let args : RequestArgs := { method := method, path := path, options := options }
  let options := options.getD []
  match rt.URL path self.baseUrl with
  | Except.error e => { requests := [args], fetches := [], result := Settled.rejected e }
  | Except.ok url =>
    let init := self.init method options
    let call : FetchCall := { url := url, init := init }
    match rt.fetch url init with
    | Settled.rejected e => { requests := [args], fetches := [call], result := Settled.rejected e }
    | Settled.fulfilled response =>
      if !response.ok then
        { requests := [args], fetches := [call],
          result := Settled.rejected
            (Thrown.Error ("HTTP error! status: " ++ toString response.status)) }
      else
        { requests := [args], fetches := [call], result := response.json }

/-- A parameter default, `x = d` in a parameter list: `d` replaces an argument that
is `undefined` (omitted), and no other. -/
def defaultTo (v d : JSVal) : JSVal :=
  match v with
  | JSVal.undefined => d
  | w => w

/-! ## api/application.js -/

/-- The constructor of `ApplicationService`: the `BaseService` constructor, followed
by the same two assignments again. -/
def ApplicationService.new (config : ClientConfig) : BaseService :=
  let self := BaseService.new config
  let self := { self with baseUrl := config.baseUrl }
  { self with token := config.token }

/-- The method `listApplications`: `GET /api/v1/applications`, parameters `name`, `refresh`, `projects`. -/
def ApplicationService.listApplications (self : BaseService) (rt : Runtime) (params : Option Obj) :
    Outcome :=
  let params := params.getD []
  let queryParams := URLSearchParams.new
  let queryParams :=
    if (Obj.get params "name").truthy then queryParams.append "name" (Obj.get params "name")
    else queryParams
  let queryParams :=
    if (Obj.get params "refresh").truthy then queryParams.append "refresh" (Obj.get params "refresh")
    else queryParams
  let appended :=
    if (Obj.get params "projects").truthy then
      forEachAppend queryParams "projects" (Obj.get params "projects")
    else Except.ok queryParams
  match appended with
  | Except.error e => { requests := [], fetches := [], result := Settled.rejected e }
  | Except.ok queryParams =>
    self._request rt "GET" ("/api/v1/applications?" ++ queryParams.toString) none

/-- The method `getApplication`: `GET /api/v1/applications/<name>`, parameters `refresh`, `project`. -/
def ApplicationService.getApplication (self : BaseService) (rt : Runtime) (name : String) (params : Option Obj) :
    Outcome :=
  let params := params.getD []
  let queryParams := URLSearchParams.new
  let queryParams :=
    if (Obj.get params "refresh").truthy then queryParams.append "refresh" (Obj.get params "refresh")
    else queryParams
  let queryParams :=
    if (Obj.get params "project").truthy then queryParams.append "project" (Obj.get params "project")
    else queryParams
  self._request rt "GET"
    ("/api/v1/applications/" ++ name ++ "?" ++ queryParams.toString) none

/-- The method `createApplication`: `POST /api/v1/applications`, flags `upsert = false`, `validate = true`. -/
def ApplicationService.createApplication (self : BaseService) (rt : Runtime) (application : JSVal) (upsert : JSVal) (validate : JSVal) :
    Outcome :=
  let upsert := defaultTo upsert (JSVal.bool false)
  let validate := defaultTo validate (JSVal.bool true)
  let queryParams := URLSearchParams.new
  let queryParams :=
    if upsert.truthy then queryParams.append "upsert" (JSVal.str "true") else queryParams
  let queryParams :=
    if !validate.truthy then queryParams.append "validate" (JSVal.str "false") else queryParams
  self._request rt "POST"
    ("/api/v1/applications?" ++ queryParams.toString) (some [("body", rt.JSON_stringify application)])

/-- The method `deleteApplication`: `DELETE /api/v1/applications/<name>`, parameters `cascade`, `propagationPolicy`. -/
def ApplicationService.deleteApplication (self : BaseService) (rt : Runtime) (name : String) (params : Option Obj) :
    Outcome :=
  let params := params.getD []
  let queryParams := URLSearchParams.new
  let queryParams :=
    if (Obj.get params "cascade").truthy then queryParams.append "cascade" (JSVal.str "true")
    else queryParams
  let queryParams :=
    if (Obj.get params "propagationPolicy").truthy then queryParams.append "propagationPolicy" (Obj.get params "propagationPolicy")
    else queryParams
  self._request rt "DELETE"
    ("/api/v1/applications/" ++ name ++ "?" ++ queryParams.toString) none

/-- The method `updateApplication`: `PUT /api/v1/applications/<name>`, flag `validate = true`. -/
def ApplicationService.updateApplication (self : BaseService) (rt : Runtime) (name : String) (application : JSVal) (validate : JSVal) :
    Outcome :=
  let validate := defaultTo validate (JSVal.bool true)
  let queryParams := URLSearchParams.new
  let queryParams :=
    if !validate.truthy then queryParams.append "validate" (JSVal.str "false") else queryParams
  self._request rt "PUT"
    ("/api/v1/applications/" ++ name ++ "?" ++ queryParams.toString) (some [("body", rt.JSON_stringify application)])

/-- The method `syncApplication`: `POST /api/v1/applications/<name>/sync`, parameters `dryRun`, `prune`, `strategy`, `resources`. -/
def ApplicationService.syncApplication (self : BaseService) (rt : Runtime) (name : String) (params : Option Obj) :
    Outcome :=
  let params := params.getD []
  let queryParams := URLSearchParams.new
  let queryParams :=
    if (Obj.get params "dryRun").truthy then queryParams.append "dryRun" (JSVal.str "true")
    else queryParams
  let queryParams :=
    if (Obj.get params "prune").truthy then queryParams.append "prune" (JSVal.str "true")
    else queryParams
  let queryParams :=
    if (Obj.get params "strategy").truthy then queryParams.append "strategy" (Obj.get params "strategy")
    else queryParams
  let appended :=
    if (Obj.get params "resources").truthy then
      forEachAppend queryParams "resources" (Obj.get params "resources")
    else Except.ok queryParams
  match appended with
  | Except.error e => { requests := [], fetches := [], result := Settled.rejected e }
  | Except.ok queryParams =>
    self._request rt "POST" ("/api/v1/applications/" ++ name ++ "/sync?" ++ queryParams.toString) none

/-- The method `getApplicationManifests`: `GET /api/v1/applications/<name>/manifests`, parameter `revision`. -/
def ApplicationService.getApplicationManifests (self : BaseService) (rt : Runtime) (name : String) (params : Option Obj) :
    Outcome :=
  let params := params.getD []
  let queryParams := URLSearchParams.new
  let queryParams :=
    if (Obj.get params "revision").truthy then queryParams.append "revision" (Obj.get params "revision")
    else queryParams
  self._request rt "GET"
    ("/api/v1/applications/" ++ name ++ "/manifests?" ++ queryParams.toString) none

/-- The method `getApplicationResource`: `GET /api/v1/applications/<name>/resource`; `params` is required. -/
def ApplicationService.getApplicationResource (self : BaseService) (rt : Runtime) (name : String) (params : Obj) :
    Outcome :=
  let queryParams := URLSearchParams.new
  let queryParams := queryParams.append "namespace" (Obj.get params "namespace")
  let queryParams := queryParams.append "resourceName" (Obj.get params "resourceName")
  let queryParams := queryParams.append "version" (Obj.get params "version")
  let queryParams := queryParams.append "kind" (Obj.get params "kind")
  let queryParams :=
    if (Obj.get params "group").truthy then queryParams.append "group" (Obj.get params "group")
    else queryParams
  self._request rt "GET"
    ("/api/v1/applications/" ++ name ++ "/resource?" ++ queryParams.toString) none

/-- The method `listApplicationEvents`: `GET /api/v1/applications/<name>/events`, parameters `resourceNamespace`, `resourceName`, `resourceUID`. -/
def ApplicationService.listApplicationEvents (self : BaseService) (rt : Runtime) (name : String) (params : Option Obj) :
    Outcome :=
  let params := params.getD []
  let queryParams := URLSearchParams.new
  let queryParams :=
    if (Obj.get params "resourceNamespace").truthy then queryParams.append "resourceNamespace" (Obj.get params "resourceNamespace")
    else queryParams
  let queryParams :=
    if (Obj.get params "resourceName").truthy then queryParams.append "resourceName" (Obj.get params "resourceName")
    else queryParams
  let queryParams :=
    if (Obj.get params "resourceUID").truthy then queryParams.append "resourceUID" (Obj.get params "resourceUID")
    else queryParams
  self._request rt "GET"
    ("/api/v1/applications/" ++ name ++ "/events?" ++ queryParams.toString) none

/-- The method `listApplicationResourceActions`: `GET /api/v1/applications/<name>/resource/actions`; `params` is required. -/
def ApplicationService.listApplicationResourceActions (self : BaseService) (rt : Runtime) (name : String) (params : Obj) :
    Outcome :=
  let queryParams := URLSearchParams.new
  let queryParams := queryParams.append "namespace" (Obj.get params "namespace")
  let queryParams := queryParams.append "resourceName" (Obj.get params "resourceName")
  let queryParams := queryParams.append "version" (Obj.get params "version")
  let queryParams := queryParams.append "kind" (Obj.get params "kind")
  let queryParams :=
    if (Obj.get params "group").truthy then queryParams.append "group" (Obj.get params "group")
    else queryParams
  self._request rt "GET"
    ("/api/v1/applications/" ++ name ++ "/resource/actions?" ++ queryParams.toString) none

/-- The method `runApplicationResourceAction`: `POST /api/v1/applications/<name>/resource/actions`; `params` is required. -/
def ApplicationService.runApplicationResourceAction (self : BaseService) (rt : Runtime) (name : String) (params : Obj) :
    Outcome :=
  let queryParams := URLSearchParams.new
  let queryParams := queryParams.append "namespace" (Obj.get params "namespace")
  let queryParams := queryParams.append "resourceName" (Obj.get params "resourceName")
  let queryParams := queryParams.append "version" (Obj.get params "version")
  let queryParams := queryParams.append "kind" (Obj.get params "kind")
  let queryParams := queryParams.append "action" (Obj.get params "action")
  let queryParams :=
    if (Obj.get params "group").truthy then queryParams.append "group" (Obj.get params "group")
    else queryParams
  self._request rt "POST"
    ("/api/v1/applications/" ++ name ++ "/resource/actions?" ++ queryParams.toString) none

/-! ## api/cluster.js -/

/-- The method `listClusters`: `GET /api/v1/clusters`, parameters `server`, `name`. -/
def ClusterService.listClusters (self : BaseService) (rt : Runtime) (params : Option Obj) :
    Outcome :=
  let params := params.getD []
  let queryParams := URLSearchParams.new
  let queryParams :=
    if (Obj.get params "server").truthy then queryParams.append "server" (Obj.get params "server")
    else queryParams
  let queryParams :=
    if (Obj.get params "name").truthy then queryParams.append "name" (Obj.get params "name")
    else queryParams
  self._request rt "GET"
    ("/api/v1/clusters?" ++ queryParams.toString) none

/-- The method `createCluster`: `POST /api/v1/clusters`, flag `upsert = false`. -/
def ClusterService.createCluster (self : BaseService) (rt : Runtime) (cluster : JSVal) (upsert : JSVal) :
    Outcome :=
  let upsert := defaultTo upsert (JSVal.bool false)
  let queryParams := URLSearchParams.new
  let queryParams :=
    if upsert.truthy then queryParams.append "upsert" (JSVal.str "true") else queryParams
  self._request rt "POST"
    ("/api/v1/clusters?" ++ queryParams.toString) (some [("body", rt.JSON_stringify cluster)])

/-- The method `getCluster`: `GET /api/v1/clusters/<server>`. -/
def ClusterService.getCluster (self : BaseService) (rt : Runtime) (server : String) :
    Outcome :=
  self._request rt "GET"
    ("/api/v1/clusters/" ++ server) none

/-- The method `updateCluster`: `PUT /api/v1/clusters/<server>`, parameter `updatedFields`. -/
def ClusterService.updateCluster (self : BaseService) (rt : Runtime) (server : String) (cluster : JSVal) (params : Option Obj) :
    Outcome :=
  let params := params.getD []
  let queryParams := URLSearchParams.new
  let queryParams :=
    if (Obj.get params "updatedFields").truthy then queryParams.append "updatedFields" (Obj.get params "updatedFields")
    else queryParams
  self._request rt "PUT"
    ("/api/v1/clusters/" ++ server ++ "?" ++ queryParams.toString) (some [("body", rt.JSON_stringify cluster)])

/-- The method `deleteCluster`: `DELETE /api/v1/clusters/<server>`, parameter `name`. -/
def ClusterService.deleteCluster (self : BaseService) (rt : Runtime) (server : String) (params : Option Obj) :
    Outcome :=
  let params := params.getD []
  let queryParams := URLSearchParams.new
  let queryParams :=
    if (Obj.get params "name").truthy then queryParams.append "name" (Obj.get params "name")
    else queryParams
  self._request rt "DELETE"
    ("/api/v1/clusters/" ++ server ++ "?" ++ queryParams.toString) none

/-- The method `rotateAuth`: `POST /api/v1/clusters/<server>/rotate-auth`. -/
def ClusterService.rotateAuth (self : BaseService) (rt : Runtime) (server : String) :
    Outcome :=
  self._request rt "POST"
    ("/api/v1/clusters/" ++ server ++ "/rotate-auth") none

/-- The method `invalidateCache`: `POST /api/v1/clusters/<server>/invalidate-cache`. -/
def ClusterService.invalidateCache (self : BaseService) (rt : Runtime) (server : String) :
    Outcome :=
  self._request rt "POST"
    ("/api/v1/clusters/" ++ server ++ "/invalidate-cache") none

/-! ## api/gpg-key.js -/

/-- The method `listGPGKeys`: `GET /api/v1/gpgkeys`, parameter `keyID`. -/
def GPGKeyService.listGPGKeys (self : BaseService) (rt : Runtime) (params : Option Obj) :
    Outcome :=
  let params := params.getD []
  let queryParams := URLSearchParams.new
  let queryParams :=
    if (Obj.get params "keyID").truthy then queryParams.append "keyID" (Obj.get params "keyID")
    else queryParams
  self._request rt "GET"
    ("/api/v1/gpgkeys?" ++ queryParams.toString) none

/-- The method `createGPGKey`: `POST /api/v1/gpgkeys`. -/
def GPGKeyService.createGPGKey (self : BaseService) (rt : Runtime) (key : JSVal) :
    Outcome :=
  self._request rt "POST"
    ("/api/v1/gpgkeys") (some [("body", rt.JSON_stringify key)])

/-- The method `deleteGPGKey`: `DELETE /api/v1/gpgkeys/<keyID>`. -/
def GPGKeyService.deleteGPGKey (self : BaseService) (rt : Runtime) (keyID : String) :
    Outcome :=
  self._request rt "DELETE"
    ("/api/v1/gpgkeys/" ++ keyID) none

/-- The method `getGPGKey`: `GET /api/v1/gpgkeys/<keyID>`. -/
def GPGKeyService.getGPGKey (self : BaseService) (rt : Runtime) (keyID : String) :
    Outcome :=
  self._request rt "GET"
    ("/api/v1/gpgkeys/" ++ keyID) none

/-! ## api/project.js -/

/-- The method `listProjects`: `GET /api/v1/projects`, parameter `name`. -/
def ProjectService.listProjects (self : BaseService) (rt : Runtime) (params : Option Obj) :
    Outcome :=
  let params := params.getD []
  let queryParams := URLSearchParams.new
  let queryParams :=
    if (Obj.get params "name").truthy then queryParams.append "name" (Obj.get params "name")
    else queryParams
  self._request rt "GET"
    ("/api/v1/projects?" ++ queryParams.toString) none

/-- The method `createProject`: `POST /api/v1/projects`. -/
def ProjectService.createProject (self : BaseService) (rt : Runtime) (project : JSVal) :
    Outcome :=
  self._request rt "POST"
    ("/api/v1/projects") (some [("body", rt.JSON_stringify project)])

/-- The method `getProject`: `GET /api/v1/projects/<name>`. -/
def ProjectService.getProject (self : BaseService) (rt : Runtime) (name : String) :
    Outcome :=
  self._request rt "GET"
    ("/api/v1/projects/" ++ name) none

/-- The method `updateProject`: `PUT /api/v1/projects/<name>`. -/
def ProjectService.updateProject (self : BaseService) (rt : Runtime) (name : String) (project : JSVal) :
    Outcome :=
  self._request rt "PUT"
    ("/api/v1/projects/" ++ name) (some [("body", rt.JSON_stringify project)])

/-- The method `deleteProject`: `DELETE /api/v1/projects/<name>`. -/
def ProjectService.deleteProject (self : BaseService) (rt : Runtime) (name : String) :
    Outcome :=
  self._request rt "DELETE"
    ("/api/v1/projects/" ++ name) none

/-- The method `getDetailedProject`: `GET /api/v1/projects/<name>/detailed`. -/
def ProjectService.getDetailedProject (self : BaseService) (rt : Runtime) (name : String) :
    Outcome :=
  self._request rt "GET"
    ("/api/v1/projects/" ++ name ++ "/detailed") none

/-- The method `getSyncWindowsState`: `GET /api/v1/projects/<name>/syncwindows`. -/
def ProjectService.getSyncWindowsState (self : BaseService) (rt : Runtime) (name : String) :
    Outcome :=
  self._request rt "GET"
    ("/api/v1/projects/" ++ name ++ "/syncwindows") none

/-- The method `getGlobalProjects`: `GET /api/v1/projects/global`. -/
def ProjectService.getGlobalProjects (self : BaseService) (rt : Runtime) :
    Outcome :=
  self._request rt "GET"
    ("/api/v1/projects/global") none

/-- The method `getProjectEvents`: `GET /api/v1/projects/<name>/events`. -/
def ProjectService.getProjectEvents (self : BaseService) (rt : Runtime) (name : String) :
    Outcome :=
  self._request rt "GET"
    ("/api/v1/projects/" ++ name ++ "/events") none

/-! ## src/api/repository.js -/

/-- The method `listRepositories`: `GET /api/v1/repositories`, parameters `repo`, `forceRefresh`. -/
def RepositoryService.listRepositories (self : BaseService) (rt : Runtime) (params : Option Obj) :
    Outcome :=
  let params := params.getD []
  let queryParams := URLSearchParams.new
  let queryParams :=
    if (Obj.get params "repo").truthy then queryParams.append "repo" (Obj.get params "repo")
    else queryParams
  let queryParams :=
    if (Obj.get params "forceRefresh").truthy then queryParams.append "forceRefresh" (JSVal.str "true")
    else queryParams
  self._request rt "GET"
    ("/api/v1/repositories?" ++ queryParams.toString) none

/-- The method `createRepository`: `POST /api/v1/repositories`, flags `upsert = false`, `credsOnly = false`. -/
def RepositoryService.createRepository (self : BaseService) (rt : Runtime) (repository : JSVal) (upsert : JSVal) (credsOnly : JSVal) :
    Outcome :=
  let upsert := defaultTo upsert (JSVal.bool false)
  let credsOnly := defaultTo credsOnly (JSVal.bool false)
  let queryParams := URLSearchParams.new
  let queryParams :=
    if upsert.truthy then queryParams.append "upsert" (JSVal.str "true") else queryParams
  let queryParams :=
    if credsOnly.truthy then queryParams.append "credsOnly" (JSVal.str "true") else queryParams
  self._request rt "POST"
    ("/api/v1/repositories?" ++ queryParams.toString) (some [("body", rt.JSON_stringify repository)])

/-- The method `getRepository`: `GET /api/v1/repositories/<repo>`, flag `forceRefresh = false`. -/
def RepositoryService.getRepository (self : BaseService) (rt : Runtime) (repo : String) (forceRefresh : JSVal) :
    Outcome :=
  let forceRefresh := defaultTo forceRefresh (JSVal.bool false)
  let queryParams := URLSearchParams.new
  let queryParams :=
    if forceRefresh.truthy then queryParams.append "forceRefresh" (JSVal.str "true") else queryParams
  self._request rt "GET"
    ("/api/v1/repositories/" ++ repo ++ "?" ++ queryParams.toString) none

/-- The method `updateRepository`: `PUT /api/v1/repositories/<repo>`. -/
def RepositoryService.updateRepository (self : BaseService) (rt : Runtime) (repo : String) (repository : JSVal) :
    Outcome :=
  self._request rt "PUT"
    ("/api/v1/repositories/" ++ repo) (some [("body", rt.JSON_stringify repository)])

/-- The method `deleteRepository`: `DELETE /api/v1/repositories/<repo>`. -/
def RepositoryService.deleteRepository (self : BaseService) (rt : Runtime) (repo : String) :
    Outcome :=
  self._request rt "DELETE"
    ("/api/v1/repositories/" ++ repo) none

/-- The method `listApps`: `GET /api/v1/repositories/<repo>/apps`, parameter `revision`. -/
def RepositoryService.listApps (self : BaseService) (rt : Runtime) (repo : String) (params : Option Obj) :
    Outcome :=
  let params := params.getD []
  let queryParams := URLSearchParams.new
  let queryParams :=
    if (Obj.get params "revision").truthy then queryParams.append "revision" (Obj.get params "revision")
    else queryParams
  self._request rt "GET"
    ("/api/v1/repositories/" ++ repo ++ "/apps?" ++ queryParams.toString) none

/-- The method `getAppDetails`: `GET /api/v1/repositories/<repo>/appdetails`; `params` is required. -/
def RepositoryService.getAppDetails (self : BaseService) (rt : Runtime) (repo : String) (params : Obj) :
    Outcome :=
  let queryParams := URLSearchParams.new
  let queryParams := queryParams.append "path" (Obj.get params "path")
  let queryParams :=
    if (Obj.get params "revision").truthy then queryParams.append "revision" (Obj.get params "revision")
    else queryParams
  self._request rt "GET"
    ("/api/v1/repositories/" ++ repo ++ "/appdetails?" ++ queryParams.toString) none

/-- The method `getHelmCharts`: `GET /api/v1/repositories/<repo>/helmcharts`. -/
def RepositoryService.getHelmCharts (self : BaseService) (rt : Runtime) (repo : String) :
    Outcome :=
  self._request rt "GET"
    ("/api/v1/repositories/" ++ repo ++ "/helmcharts") none

/-- The method `listRefs`: `GET /api/v1/repositories/<repo>/refs`. -/
def RepositoryService.listRefs (self : BaseService) (rt : Runtime) (repo : String) :
    Outcome :=
  self._request rt "GET"
    ("/api/v1/repositories/" ++ repo ++ "/refs") none

/-! ## src/api/account.js -/

/-- The constructor of `AccountService`: the `BaseService` constructor, followed by
the same two assignments again. -/
def AccountService.new (config : ClientConfig) : BaseService :=
  let self := BaseService.new config
  let self := { self with baseUrl := config.baseUrl }
  { self with token := config.token }

/-- The method `listAccounts`: `GET /api/v1/account`. -/
def AccountService.listAccounts (self : BaseService) (rt : Runtime) :
    Outcome :=
  self._request rt "GET"
    ("/api/v1/account") none

/-- The method `canI`: `GET /api/v1/account/can-i/<resource>/<action>/<subresource>`. -/
def AccountService.canI (self : BaseService) (rt : Runtime) (resource : String) (action : String) (subresource : String) :
    Outcome :=
  self._request rt "GET"
    ("/api/v1/account/can-i/" ++ resource ++ "/" ++ action ++ "/" ++ subresource) none

/-- The method `updatePassword`: `PUT /api/v1/account/password`. -/
def AccountService.updatePassword (self : BaseService) (rt : Runtime) (request : JSVal) :
    Outcome :=
  self._request rt "PUT"
    ("/api/v1/account/password") (some [("body", rt.JSON_stringify request)])

/-- The method `getAccount`: `GET /api/v1/account/<name>`. -/
def AccountService.getAccount (self : BaseService) (rt : Runtime) (name : String) :
    Outcome :=
  self._request rt "GET"
    ("/api/v1/account/" ++ name) none

/-- The method `createToken`: `POST /api/v1/account/<name>/token`. -/
def AccountService.createToken (self : BaseService) (rt : Runtime) (name : String) (request : JSVal) :
    Outcome :=
  self._request rt "POST"
    ("/api/v1/account/" ++ name ++ "/token") (some [("body", rt.JSON_stringify request)])

/-- The method `deleteToken`: `DELETE /api/v1/account/<name>/token/<id>`. -/
def AccountService.deleteToken (self : BaseService) (rt : Runtime) (name : String) (id : String) :
    Outcome :=
  self._request rt "DELETE"
    ("/api/v1/account/" ++ name ++ "/token/" ++ id) none

/-! ## src/api/user.js -/

/-- The method `listUsers`: `GET /api/v1/users`. -/
def UserService.listUsers (self : BaseService) (rt : Runtime) :
    Outcome :=
  self._request rt "GET"
    ("/api/v1/users") none

/-- The method `getUser`: `GET /api/v1/users/<name>`. -/
def UserService.getUser (self : BaseService) (rt : Runtime) (name : String) :
    Outcome :=
  self._request rt "GET"
    ("/api/v1/users/" ++ name) none

/-- The method `createUser`: `POST /api/v1/users`. -/
def UserService.createUser (self : BaseService) (rt : Runtime) (user : JSVal) :
    Outcome :=
  self._request rt "POST"
    ("/api/v1/users") (some [("body", rt.JSON_stringify user)])

/-- The method `updateUser`: `PUT /api/v1/users/<name>`. -/
def UserService.updateUser (self : BaseService) (rt : Runtime) (name : String) (user : JSVal) :
    Outcome :=
  self._request rt "PUT"
    ("/api/v1/users/" ++ name) (some [("body", rt.JSON_stringify user)])

/-- The method `deleteUser`: `DELETE /api/v1/users/<name>`. -/
def UserService.deleteUser (self : BaseService) (rt : Runtime) (name : String) :
    Outcome :=
  self._request rt "DELETE"
    ("/api/v1/users/" ++ name) none

/-! ## src/api/notification.js, src/api/settings.js, src/api/version.js -/

/-- The method `listServices`: `GET /api/v1/notifications/services`. -/
def NotificationService.listServices (self : BaseService) (rt : Runtime) :
    Outcome :=
  self._request rt "GET"
    ("/api/v1/notifications/services") none

/-- The method `listTemplates`: `GET /api/v1/notifications/templates`. -/
def NotificationService.listTemplates (self : BaseService) (rt : Runtime) :
    Outcome :=
  self._request rt "GET"
    ("/api/v1/notifications/templates") none

/-- The method `listTriggers`: `GET /api/v1/notifications/triggers`. -/
def NotificationService.listTriggers (self : BaseService) (rt : Runtime) :
    Outcome :=
  self._request rt "GET"
    ("/api/v1/notifications/triggers") none

/-- The method `getSettings`: `GET /api/v1/settings`. -/
def SettingsService.getSettings (self : BaseService) (rt : Runtime) :
    Outcome :=
  self._request rt "GET"
    ("/api/v1/settings") none

/-- The method `getVersion`: `GET /api/v1/version`. -/
def VersionService.getVersion (self : BaseService) (rt : Runtime) :
    Outcome :=
  self._request rt "GET"
    ("/api/v1/version") none

/-! ## api/session.js -/

/-- The method `createSession`: `POST /api/v1/session`. -/
def SessionService.createSession (self : BaseService) (rt : Runtime) (session : JSVal) :
    Outcome :=
  self._request rt "POST"
    ("/api/v1/session") (some [("body", rt.JSON_stringify session)])

/-- The method `deleteSession`: `DELETE /api/v1/session`. -/
def SessionService.deleteSession (self : BaseService) (rt : Runtime) :
    Outcome :=
  self._request rt "DELETE"
    ("/api/v1/session") none

/-- The method `getUserInfo`: `GET /api/v1/session/userinfo`. -/
def SessionService.getUserInfo (self : BaseService) (rt : Runtime) :
    Outcome :=
  self._request rt "GET"
    ("/api/v1/session/userinfo") none

/-! ## src/api/certificate.js -/

/-- The method `listCertificates`: `GET /api/v1/certificates`, parameters `hostNamePattern`, `certType`, `certSubType`. -/
def CertificateService.listCertificates (self : BaseService) (rt : Runtime) (params : Option Obj) :
    Outcome :=
  let params := params.getD []
  let queryParams := URLSearchParams.new
  let queryParams :=
    if (Obj.get params "hostNamePattern").truthy then queryParams.append "hostNamePattern" (Obj.get params "hostNamePattern")
    else queryParams
  let queryParams :=
    if (Obj.get params "certType").truthy then queryParams.append "certType" (Obj.get params "certType")
    else queryParams
  let queryParams :=
    if (Obj.get params "certSubType").truthy then queryParams.append "certSubType" (Obj.get params "certSubType")
    else queryParams
  self._request rt "GET"
    ("/api/v1/certificates?" ++ queryParams.toString) none

/-- The method `createCertificate`: `POST /api/v1/certificates`. -/
def CertificateService.createCertificate (self : BaseService) (rt : Runtime) (certificate : JSVal) :
    Outcome :=
  self._request rt "POST"
    ("/api/v1/certificates") (some [("body", rt.JSON_stringify certificate)])

/-- The method `deleteCertificate`: `DELETE /api/v1/certificates`; the three arguments are always appended. -/
def CertificateService.deleteCertificate (self : BaseService) (rt : Runtime) (hostNamePattern : JSVal) (certType : JSVal) (certSubType : JSVal) :
    Outcome :=
  let queryParams := URLSearchParams.new
  let queryParams := queryParams.append "hostNamePattern" hostNamePattern
  let queryParams := queryParams.append "certType" certType
  let queryParams := queryParams.append "certSubType" certSubType
  self._request rt "DELETE"
    ("/api/v1/certificates?" ++ queryParams.toString) none

/-! ## argocd.js -/

/-- The class `ArgoCD`: the fields set by its constructor. -/
structure ArgoCD where
  config : ClientConfig
  account : BaseService
  application : BaseService
  deriving DecidableEq

/-- The constructor of `ArgoCD`. -/
def ArgoCD.new (config : ClientConfig) : ArgoCD :=
  { config := config, account := AccountService.new config,
    application := ApplicationService.new config }

/-- The method `_request(method, path, options = {})` of `ArgoCD`. -/
def ArgoCD._request (self : ArgoCD) (rt : Runtime) (method path : String)
    (options : Option Obj) : Outcome :=
  let args : RequestArgs := { method := method, path := path, options := options }
  let options := options.getD []
  match rt.URL path self.config.baseUrl with
  | Except.error e => { requests := [args], fetches := [], result := Settled.rejected e }
  | Except.ok url =>
    let headers :=
      spread
        [("Authorization", JSVal.str ("Bearer " ++ self.config.token)),
         ("Content-Type", JSVal.str "application/json")]
        (Obj.get options "headers")
    let init :=
      spread [("method", JSVal.str method), ("headers", JSVal.obj headers)] (JSVal.obj options)
    let call : FetchCall := { url := url, init := init }
    match rt.fetch url init with
    | Settled.rejected e => { requests := [args], fetches := [call], result := Settled.rejected e }
    | Settled.fulfilled response =>
      if !response.ok then
        { requests := [args], fetches := [call],
          result := Settled.rejected
            (Thrown.Error ("HTTP error! status: " ++ toString response.status)) }
      else
        { requests := [args], fetches := [call], result := response.json }

/-- The facade method `listAccounts`: `GET /api/v1/account`. -/
def ArgoCD.listAccounts (self : ArgoCD) (rt : Runtime) :
    Outcome :=
  self._request rt "GET"
    ("/api/v1/account") none

/-- The facade method `canI`: `GET /api/v1/account/can-i/<resource>/<action>/<subresource>`. -/
def ArgoCD.canI (self : ArgoCD) (rt : Runtime) (resource : String) (action : String) (subresource : String) :
    Outcome :=
  self._request rt "GET"
    ("/api/v1/account/can-i/" ++ resource ++ "/" ++ action ++ "/" ++ subresource) none

/-- The facade method `updatePassword`: `PUT /api/v1/account/password`. -/
def ArgoCD.updatePassword (self : ArgoCD) (rt : Runtime) (request : JSVal) :
    Outcome :=
  self._request rt "PUT"
    ("/api/v1/account/password") (some [("body", rt.JSON_stringify request)])

/-- The facade method `getAccount`: `GET /api/v1/account/<name>`. -/
def ArgoCD.getAccount (self : ArgoCD) (rt : Runtime) (name : String) :
    Outcome :=
  self._request rt "GET"
    ("/api/v1/account/" ++ name) none

/-- The facade method `createToken`: `POST /api/v1/account/<name>/token`. -/
def ArgoCD.createToken (self : ArgoCD) (rt : Runtime) (name : String) (request : JSVal) :
    Outcome :=
  self._request rt "POST"
    ("/api/v1/account/" ++ name ++ "/token") (some [("body", rt.JSON_stringify request)])

/-- The facade method `deleteToken`: `DELETE /api/v1/account/<name>/token/<id>`. -/
def ArgoCD.deleteToken (self : ArgoCD) (rt : Runtime) (name : String) (id : String) :
    Outcome :=
  self._request rt "DELETE"
    ("/api/v1/account/" ++ name ++ "/token/" ++ id) none

/-- The facade method `listApplications`: `GET /api/v1/applications`, parameters `name`, `refresh`, `projects`. -/
def ArgoCD.listApplications (self : ArgoCD) (rt : Runtime) (params : Option Obj) :
    Outcome :=
  let params := params.getD []
  let queryParams := URLSearchParams.new
  let queryParams :=
    if (Obj.get params "name").truthy then queryParams.append "name" (Obj.get params "name")
    else queryParams
  let queryParams :=
    if (Obj.get params "refresh").truthy then queryParams.append "refresh" (Obj.get params "refresh")
    else queryParams
  let appended :=
    if (Obj.get params "projects").truthy then
      forEachAppend queryParams "projects" (Obj.get params "projects")
    else Except.ok queryParams
  match appended with
  | Except.error e => { requests := [], fetches := [], result := Settled.rejected e }
  | Except.ok queryParams =>
    self._request rt "GET" ("/api/v1/applications?" ++ queryParams.toString) none

/-- The facade method `getApplication`: `GET /api/v1/applications/<name>`, parameters `refresh`, `project`. -/
def ArgoCD.getApplication (self : ArgoCD) (rt : Runtime) (name : String) (params : Option Obj) :
    Outcome :=
  let params := params.getD []
  let queryParams := URLSearchParams.new
  let queryParams :=
    if (Obj.get params "refresh").truthy then queryParams.append "refresh" (Obj.get params "refresh")
    else queryParams
  let queryParams :=
    if (Obj.get params "project").truthy then queryParams.append "project" (Obj.get params "project")
    else queryParams
  self._request rt "GET"
    ("/api/v1/applications/" ++ name ++ "?" ++ queryParams.toString) none

/-- The facade method `createApplication`: `POST /api/v1/applications`, flags `upsert = false`, `validate = true`. -/
def ArgoCD.createApplication (self : ArgoCD) (rt : Runtime) (application : JSVal) (upsert : JSVal) (validate : JSVal) :
    Outcome :=
  let upsert := defaultTo upsert (JSVal.bool false)
  let validate := defaultTo validate (JSVal.bool true)
  let queryParams := URLSearchParams.new
  let queryParams :=
    if upsert.truthy then queryParams.append "upsert" (JSVal.str "true") else queryParams
  let queryParams :=
    if !validate.truthy then queryParams.append "validate" (JSVal.str "false") else queryParams
  self._request rt "POST"
    ("/api/v1/applications?" ++ queryParams.toString) (some [("body", rt.JSON_stringify application)])

/-- The facade method `deleteApplication`: `DELETE /api/v1/applications/<name>`, parameters `cascade`, `propagationPolicy`. -/
def ArgoCD.deleteApplication (self : ArgoCD) (rt : Runtime) (name : String) (params : Option Obj) :
    Outcome :=
  let params := params.getD []
  let queryParams := URLSearchParams.new
  let queryParams :=
    if (Obj.get params "cascade").truthy then queryParams.append "cascade" (JSVal.str "true")
    else queryParams
  let queryParams :=
    if (Obj.get params "propagationPolicy").truthy then queryParams.append "propagationPolicy" (Obj.get params "propagationPolicy")
    else queryParams
  self._request rt "DELETE"
    ("/api/v1/applications/" ++ name ++ "?" ++ queryParams.toString) none

/-- The facade method `updateApplication`: `PUT /api/v1/applications/<name>`, flag `validate = true`. -/
def ArgoCD.updateApplication (self : ArgoCD) (rt : Runtime) (name : String) (application : JSVal) (validate : JSVal) :
    Outcome :=
  let validate := defaultTo validate (JSVal.bool true)
  let queryParams := URLSearchParams.new
  let queryParams :=
    if !validate.truthy then queryParams.append "validate" (JSVal.str "false") else queryParams
  self._request rt "PUT"
    ("/api/v1/applications/" ++ name ++ "?" ++ queryParams.toString) (some [("body", rt.JSON_stringify application)])

/-- The facade method `syncApplication`: `POST /api/v1/applications/<name>/sync`, parameters `dryRun`, `prune`, `strategy`, `resources`. -/
def ArgoCD.syncApplication (self : ArgoCD) (rt : Runtime) (name : String) (params : Option Obj) :
    Outcome :=
  let params := params.getD []
  let queryParams := URLSearchParams.new
  let queryParams :=
    if (Obj.get params "dryRun").truthy then queryParams.append "dryRun" (JSVal.str "true")
    else queryParams
  let queryParams :=
    if (Obj.get params "prune").truthy then queryParams.append "prune" (JSVal.str "true")
    else queryParams
  let queryParams :=
    if (Obj.get params "strategy").truthy then queryParams.append "strategy" (Obj.get params "strategy")
    else queryParams
  let appended :=
    if (Obj.get params "resources").truthy then
      forEachAppend queryParams "resources" (Obj.get params "resources")
    else Except.ok queryParams
  match appended with
  | Except.error e => { requests := [], fetches := [], result := Settled.rejected e }
  | Except.ok queryParams =>
    self._request rt "POST" ("/api/v1/applications/" ++ name ++ "/sync?" ++ queryParams.toString) none

/-- The facade method `getApplicationManifests`: `GET /api/v1/applications/<name>/manifests`, parameter `revision`. -/
def ArgoCD.getApplicationManifests (self : ArgoCD) (rt : Runtime) (name : String) (params : Option Obj) :
    Outcome :=
  let params := params.getD []
  let queryParams := URLSearchParams.new
  let queryParams :=
    if (Obj.get params "revision").truthy then queryParams.append "revision" (Obj.get params "revision")
    else queryParams
  self._request rt "GET"
    ("/api/v1/applications/" ++ name ++ "/manifests?" ++ queryParams.toString) none

/-- The facade method `getApplicationResource`: `GET /api/v1/applications/<name>/resource`; `params` is required. -/
def ArgoCD.getApplicationResource (self : ArgoCD) (rt : Runtime) (name : String) (params : Obj) :
    Outcome :=
  let queryParams := URLSearchParams.new
  let queryParams := queryParams.append "namespace" (Obj.get params "namespace")
  let queryParams := queryParams.append "resourceName" (Obj.get params "resourceName")
  let queryParams := queryParams.append "version" (Obj.get params "version")
  let queryParams := queryParams.append "kind" (Obj.get params "kind")
  let queryParams :=
    if (Obj.get params "group").truthy then queryParams.append "group" (Obj.get params "group")
    else queryParams
  self._request rt "GET"
    ("/api/v1/applications/" ++ name ++ "/resource?" ++ queryParams.toString) none

/-- The facade method `listApplicationEvents`: `GET /api/v1/applications/<name>/events`, parameters `resourceNamespace`, `resourceName`, `resourceUID`. -/
def ArgoCD.listApplicationEvents (self : ArgoCD) (rt : Runtime) (name : String) (params : Option Obj) :
    Outcome :=
  let params := params.getD []
  let queryParams := URLSearchParams.new
  let queryParams :=
    if (Obj.get params "resourceNamespace").truthy then queryParams.append "resourceNamespace" (Obj.get params "resourceNamespace")
    else queryParams
  let queryParams :=
    if (Obj.get params "resourceName").truthy then queryParams.append "resourceName" (Obj.get params "resourceName")
    else queryParams
  let queryParams :=
    if (Obj.get params "resourceUID").truthy then queryParams.append "resourceUID" (Obj.get params "resourceUID")
    else queryParams
  self._request rt "GET"
    ("/api/v1/applications/" ++ name ++ "/events?" ++ queryParams.toString) none

/-- The facade method `listApplicationResourceActions`: `GET /api/v1/applications/<name>/resource/actions`; `params` is required. -/
def ArgoCD.listApplicationResourceActions (self : ArgoCD) (rt : Runtime) (name : String) (params : Obj) :
    Outcome :=
  let queryParams := URLSearchParams.new
  let queryParams := queryParams.append "namespace" (Obj.get params "namespace")
  let queryParams := queryParams.append "resourceName" (Obj.get params "resourceName")
  let queryParams := queryParams.append "version" (Obj.get params "version")
  let queryParams := queryParams.append "kind" (Obj.get params "kind")
  let queryParams :=
    if (Obj.get params "group").truthy then queryParams.append "group" (Obj.get params "group")
    else queryParams
  self._request rt "GET"
    ("/api/v1/applications/" ++ name ++ "/resource/actions?" ++ queryParams.toString) none

/-- The facade method `runApplicationResourceAction`: `POST /api/v1/applications/<name>/resource/actions`; `params` is required. -/
def ArgoCD.runApplicationResourceAction (self : ArgoCD) (rt : Runtime) (name : String) (params : Obj) :
    Outcome :=
  let queryParams := URLSearchParams.new
  let queryParams := queryParams.append "namespace" (Obj.get params "namespace")
  let queryParams := queryParams.append "resourceName" (Obj.get params "resourceName")
  let queryParams := queryParams.append "version" (Obj.get params "version")
  let queryParams := queryParams.append "kind" (Obj.get params "kind")
  let queryParams := queryParams.append "action" (Obj.get params "action")
  let queryParams :=
    if (Obj.get params "group").truthy then queryParams.append "group" (Obj.get params "group")
    else queryParams
  self._request rt "POST"
    ("/api/v1/applications/" ++ name ++ "/resource/actions?" ++ queryParams.toString) none

/-! ## The wrapper operations as one type -/

/-- One call of a wrapper method of a service, with its arguments. -/
inductive Op where
  | listApplications (params : Option Obj)
  | getApplication (name : String) (params : Option Obj)
  | createApplication (application : JSVal) (upsert : JSVal) (validate : JSVal)
  | deleteApplication (name : String) (params : Option Obj)
  | updateApplication (name : String) (application : JSVal) (validate : JSVal)
  | syncApplication (name : String) (params : Option Obj)
  | getApplicationManifests (name : String) (params : Option Obj)
  | getApplicationResource (name : String) (params : Obj)
  | listApplicationEvents (name : String) (params : Option Obj)
  | listApplicationResourceActions (name : String) (params : Obj)
  | runApplicationResourceAction (name : String) (params : Obj)
  | listClusters (params : Option Obj)
  | createCluster (cluster : JSVal) (upsert : JSVal)
  | getCluster (server : String)
  | updateCluster (server : String) (cluster : JSVal) (params : Option Obj)
  | deleteCluster (server : String) (params : Option Obj)
  | rotateAuth (server : String)
  | invalidateCache (server : String)
  | listGPGKeys (params : Option Obj)
  | createGPGKey (key : JSVal)
  | deleteGPGKey (keyID : String)
  | getGPGKey (keyID : String)
  | listProjects (params : Option Obj)
  | createProject (project : JSVal)
  | getProject (name : String)
  | updateProject (name : String) (project : JSVal)
  | deleteProject (name : String)
  | getDetailedProject (name : String)
  | getSyncWindowsState (name : String)
  | getGlobalProjects
  | getProjectEvents (name : String)
  | listRepositories (params : Option Obj)
  | createRepository (repository : JSVal) (upsert : JSVal) (credsOnly : JSVal)
  | getRepository (repo : String) (forceRefresh : JSVal)
  | updateRepository (repo : String) (repository : JSVal)
  | deleteRepository (repo : String)
  | listApps (repo : String) (params : Option Obj)
  | getAppDetails (repo : String) (params : Obj)
  | getHelmCharts (repo : String)
  | listRefs (repo : String)
  | listAccounts
  | canI (resource : String) (action : String) (subresource : String)
  | updatePassword (request : JSVal)
  | getAccount (name : String)
  | createToken (name : String) (request : JSVal)
  | deleteToken (name : String) (id : String)
  | listUsers
  | getUser (name : String)
  | createUser (user : JSVal)
  | updateUser (name : String) (user : JSVal)
  | deleteUser (name : String)
  | listServices
  | listTemplates
  | listTriggers
  | getSettings
  | getVersion
  | createSession (session : JSVal)
  | deleteSession
  | getUserInfo
  | listCertificates (params : Option Obj)
  | createCertificate (certificate : JSVal)
  | deleteCertificate (hostNamePattern : JSVal) (certType : JSVal) (certSubType : JSVal)

/-- The service class that defines the method. -/
def Op.service : Op → String
  | Op.listApplications _ => "ApplicationService"
  | Op.getApplication _ _ => "ApplicationService"
  | Op.createApplication _ _ _ => "ApplicationService"
  | Op.deleteApplication _ _ => "ApplicationService"
  | Op.updateApplication _ _ _ => "ApplicationService"
  | Op.syncApplication _ _ => "ApplicationService"
  | Op.getApplicationManifests _ _ => "ApplicationService"
  | Op.getApplicationResource _ _ => "ApplicationService"
  | Op.listApplicationEvents _ _ => "ApplicationService"
  | Op.listApplicationResourceActions _ _ => "ApplicationService"
  | Op.runApplicationResourceAction _ _ => "ApplicationService"
  | Op.listClusters _ => "ClusterService"
  | Op.createCluster _ _ => "ClusterService"
  | Op.getCluster _ => "ClusterService"
  | Op.updateCluster _ _ _ => "ClusterService"
  | Op.deleteCluster _ _ => "ClusterService"
  | Op.rotateAuth _ => "ClusterService"
  | Op.invalidateCache _ => "ClusterService"
  | Op.listGPGKeys _ => "GPGKeyService"
  | Op.createGPGKey _ => "GPGKeyService"
  | Op.deleteGPGKey _ => "GPGKeyService"
  | Op.getGPGKey _ => "GPGKeyService"
  | Op.listProjects _ => "ProjectService"
  | Op.createProject _ => "ProjectService"
  | Op.getProject _ => "ProjectService"
  | Op.updateProject _ _ => "ProjectService"
  | Op.deleteProject _ => "ProjectService"
  | Op.getDetailedProject _ => "ProjectService"
  | Op.getSyncWindowsState _ => "ProjectService"
  | Op.getGlobalProjects => "ProjectService"
  | Op.getProjectEvents _ => "ProjectService"
  | Op.listRepositories _ => "RepositoryService"
  | Op.createRepository _ _ _ => "RepositoryService"
  | Op.getRepository _ _ => "RepositoryService"
  | Op.updateRepository _ _ => "RepositoryService"
  | Op.deleteRepository _ => "RepositoryService"
  | Op.listApps _ _ => "RepositoryService"
  | Op.getAppDetails _ _ => "RepositoryService"
  | Op.getHelmCharts _ => "RepositoryService"
  | Op.listRefs _ => "RepositoryService"
  | Op.listAccounts => "AccountService"
  | Op.canI _ _ _ => "AccountService"
  | Op.updatePassword _ => "AccountService"
  | Op.getAccount _ => "AccountService"
  | Op.createToken _ _ => "AccountService"
  | Op.deleteToken _ _ => "AccountService"
  | Op.listUsers => "UserService"
  | Op.getUser _ => "UserService"
  | Op.createUser _ => "UserService"
  | Op.updateUser _ _ => "UserService"
  | Op.deleteUser _ => "UserService"
  | Op.listServices => "NotificationService"
  | Op.listTemplates => "NotificationService"
  | Op.listTriggers => "NotificationService"
  | Op.getSettings => "SettingsService"
  | Op.getVersion => "VersionService"
  | Op.createSession _ => "SessionService"
  | Op.deleteSession => "SessionService"
  | Op.getUserInfo => "SessionService"
  | Op.listCertificates _ => "CertificateService"
  | Op.createCertificate _ => "CertificateService"
  | Op.deleteCertificate _ _ _ => "CertificateService"

/-- Runs the call on a service instance. -/
def Op.perform (self : BaseService) (rt : Runtime) : Op → Outcome
  | Op.listApplications params => ApplicationService.listApplications self rt params
  | Op.getApplication name params => ApplicationService.getApplication self rt name params
  | Op.createApplication application upsert validate => ApplicationService.createApplication self rt application upsert validate
  | Op.deleteApplication name params => ApplicationService.deleteApplication self rt name params
  | Op.updateApplication name application validate => ApplicationService.updateApplication self rt name application validate
  | Op.syncApplication name params => ApplicationService.syncApplication self rt name params
  | Op.getApplicationManifests name params => ApplicationService.getApplicationManifests self rt name params
  | Op.getApplicationResource name params => ApplicationService.getApplicationResource self rt name params
  | Op.listApplicationEvents name params => ApplicationService.listApplicationEvents self rt name params
  | Op.listApplicationResourceActions name params => ApplicationService.listApplicationResourceActions self rt name params
  | Op.runApplicationResourceAction name params => ApplicationService.runApplicationResourceAction self rt name params
  | Op.listClusters params => ClusterService.listClusters self rt params
  | Op.createCluster cluster upsert => ClusterService.createCluster self rt cluster upsert
  | Op.getCluster server => ClusterService.getCluster self rt server
  | Op.updateCluster server cluster params => ClusterService.updateCluster self rt server cluster params
  | Op.deleteCluster server params => ClusterService.deleteCluster self rt server params
  | Op.rotateAuth server => ClusterService.rotateAuth self rt server
  | Op.invalidateCache server => ClusterService.invalidateCache self rt server
  | Op.listGPGKeys params => GPGKeyService.listGPGKeys self rt params
  | Op.createGPGKey key => GPGKeyService.createGPGKey self rt key
  | Op.deleteGPGKey keyID => GPGKeyService.deleteGPGKey self rt keyID
  | Op.getGPGKey keyID => GPGKeyService.getGPGKey self rt keyID
  | Op.listProjects params => ProjectService.listProjects self rt params
  | Op.createProject project => ProjectService.createProject self rt project
  | Op.getProject name => ProjectService.getProject self rt name
  | Op.updateProject name project => ProjectService.updateProject self rt name project
  | Op.deleteProject name => ProjectService.deleteProject self rt name
  | Op.getDetailedProject name => ProjectService.getDetailedProject self rt name
  | Op.getSyncWindowsState name => ProjectService.getSyncWindowsState self rt name
  | Op.getGlobalProjects => ProjectService.getGlobalProjects self rt
  | Op.getProjectEvents name => ProjectService.getProjectEvents self rt name
  | Op.listRepositories params => RepositoryService.listRepositories self rt params
  | Op.createRepository repository upsert credsOnly => RepositoryService.createRepository self rt repository upsert credsOnly
  | Op.getRepository repo forceRefresh => RepositoryService.getRepository self rt repo forceRefresh
  | Op.updateRepository repo repository => RepositoryService.updateRepository self rt repo repository
  | Op.deleteRepository repo => RepositoryService.deleteRepository self rt repo
  | Op.listApps repo params => RepositoryService.listApps self rt repo params
  | Op.getAppDetails repo params => RepositoryService.getAppDetails self rt repo params
  | Op.getHelmCharts repo => RepositoryService.getHelmCharts self rt repo
  | Op.listRefs repo => RepositoryService.listRefs self rt repo
  | Op.listAccounts => AccountService.listAccounts self rt
  | Op.canI resource action subresource => AccountService.canI self rt resource action subresource
  | Op.updatePassword request => AccountService.updatePassword self rt request
  | Op.getAccount name => AccountService.getAccount self rt name
  | Op.createToken name request => AccountService.createToken self rt name request
  | Op.deleteToken name id => AccountService.deleteToken self rt name id
  | Op.listUsers => UserService.listUsers self rt
  | Op.getUser name => UserService.getUser self rt name
  | Op.createUser user => UserService.createUser self rt user
  | Op.updateUser name user => UserService.updateUser self rt name user
  | Op.deleteUser name => UserService.deleteUser self rt name
  | Op.listServices => NotificationService.listServices self rt
  | Op.listTemplates => NotificationService.listTemplates self rt
  | Op.listTriggers => NotificationService.listTriggers self rt
  | Op.getSettings => SettingsService.getSettings self rt
  | Op.getVersion => VersionService.getVersion self rt
  | Op.createSession session => SessionService.createSession self rt session
  | Op.deleteSession => SessionService.deleteSession self rt
  | Op.getUserInfo => SessionService.getUserInfo self rt
  | Op.listCertificates params => CertificateService.listCertificates self rt params
  | Op.createCertificate certificate => CertificateService.createCertificate self rt certificate
  | Op.deleteCertificate hostNamePattern certType certSubType => CertificateService.deleteCertificate self rt hostNamePattern certType certSubType

/-! ## A concrete host, for evaluating the embedding

The definitions below model the host facilities on the inputs used by the test
suite, following the URL Standard and ECMAScript.  Universally quantified theorems
do not depend on them; they serve the evaluation of the SDK at concrete inputs. -/

/-- C0 control or space: stripped from both ends of a URL parser input. -/
def isC0OrSpace (c : Char) : Bool :=
  c.toNat ≤ 0x20

/-- ASCII tab or newline: removed anywhere from a URL parser input. -/
def isTabOrNewline (c : Char) : Bool :=
  c.toNat == 0x09 || c.toNat == 0x0A || c.toNat == 0x0D

/-- Preprocessing of the URL parser input. -/
def stripInput (cs : List Char) : List Char :=
  ((cs.dropWhile isC0OrSpace).reverse.dropWhile isC0OrSpace).reverse.filter
    (fun c => !isTabOrNewline c)

/-- The C0 control percent-encode set. -/
def inC0ControlSet (n : Nat) : Bool :=
  n < 0x20 || n > 0x7E

/-- The fragment percent-encode set. -/
def inFragmentSet (n : Nat) : Bool :=
  inC0ControlSet n || n == 0x20 || n == 0x22 || n == 0x3C || n == 0x3E || n == 0x60

/-- The query percent-encode set. -/
def inQuerySet (n : Nat) : Bool :=
  inC0ControlSet n || n == 0x20 || n == 0x22 || n == 0x23 || n == 0x3C || n == 0x3E

/-- The special-query percent-encode set. -/
def inSpecialQuerySet (n : Nat) : Bool :=
  inQuerySet n || n == 0x27

/-- The path percent-encode set of the URL Standard. It lists `^` (U+005E); runtimes
differ on that character, and no evaluation below has it in a path. -/
def inPathSet (n : Nat) : Bool :=
  inQuerySet n || n == 0x3F || n == 0x5E || n == 0x60 || n == 0x7B || n == 0x7D

/-- UTF-8 percent-encoding of a code point using a percent-encode set. -/
def percentEncodeChar (inSet : Nat → Bool) (c : Char) : List Char :=
  if inSet c.toNat then ((utf8Bytes c).map percentByte).flatten else [c]

/-- ASCII lower-casing of a character list. -/
def asciiLower (cs : List Char) : List Char :=
  cs.map fun c => if 0x41 ≤ c.toNat ∧ c.toNat ≤ 0x5A then Char.ofNat (c.toNat + 0x20) else c

/-- A single-dot URL path segment. -/
def isSingleDot (seg : List Char) : Bool :=
  let s := asciiLower seg
  s == ".".data || s == "%2e".data

/-- A double-dot URL path segment. -/
def isDoubleDot (seg : List Char) : Bool :=
  let s := asciiLower seg
  s == "..".data || s == ".%2e".data || s == "%2e.".data || s == "%2e%2e".data

/-- End of a path segment in the path state of a special URL; `slash` tells whether
the segment was ended by `/` or `\`. -/
def endSegment (path : List (List Char)) (buffer : List Char) (slash : Bool) :
    List (List Char) :=
  if isDoubleDot buffer then
    if slash then path.dropLast else path.dropLast ++ [[]]
  else if isSingleDot buffer then
    if slash then path else path ++ [[]]
  else path ++ [buffer]

/-- The path state of the URL parser for a special scheme: returns the path segments
and the rest of the input, which is empty or starts at `?` or `#`. -/
def pathState : List Char → List (List Char) → List Char → List (List Char) × List Char
  | [], path, buffer => (endSegment path buffer false, [])
  | c :: cs, path, buffer =>
    if c = '/' ∨ c = '\\' then pathState cs (endSegment path buffer true) []
    else if c = '?' ∨ c = '#' then (endSegment path buffer false, c :: cs)
    else pathState cs path (buffer ++ percentEncodeChar inPathSet c)

/-- Serialization of what follows the path: the query (from `?` up to `#`) and the
fragment (after `#`), percent-encoded with the special-query and fragment sets. -/
def queryAndFragment : List Char → List Char
  | [] => []
  | '?' :: cs =>
    let query := cs.takeWhile (fun c => c != '#')
    let rest := cs.dropWhile (fun c => c != '#')
    '?' :: (query.map (percentEncodeChar inSpecialQuerySet)).flatten
      ++ (match rest with
        | [] => []
        | _ :: frag => '#' :: (frag.map (percentEncodeChar inFragmentSet)).flatten)
  | _ :: frag => '#' :: (frag.map (percentEncodeChar inFragmentSet)).flatten

/-- Splits a character list at every occurrence of a separator. -/
def splitAt (sep : Char) : List Char → List (List Char)
  | [] => [[]]
  | c :: cs =>
    if c = sep then [] :: splitAt sep cs
    else
      match splitAt sep cs with
      | [] => [[c]]
      | l :: ls => (c :: l) :: ls

/-- Host names of the modelled fragment: lower-case ASCII letters, digits, `-` and `.`,
no label starting with `xn--`, the last label starting with a letter.  On these the
host parser of the URL Standard is the identity. -/
def plainHost (host : List Char) : Bool :=
  let labels := splitAt '.' host
  host.all (fun c =>
      (0x61 ≤ c.toNat && c.toNat ≤ 0x7A) || (0x30 ≤ c.toNat && c.toNat ≤ 0x39) ||
        c == '-' || c == '.')
    && labels.all (fun l => l.take 4 != "xn--".data)
    && (match labels.getLast? with
      | some (c :: _) => 0x61 ≤ c.toNat && c.toNat ≤ 0x7A
      | _ => false)

/-- Value of a list of decimal digits. -/
def decimalValue (cs : List Char) : Nat :=
  cs.foldl (fun acc c => 10 * acc + (c.toNat - 0x30)) 0

/-- Serialized origin `scheme://host[:port]` of a base URL of the modelled fragment:
scheme `http` or `https` in lower case followed by `//`, a plain host, an optional
decimal port (a default port is dropped), no credentials; what follows the authority
is not read here. -/
def originOf (base : List Char) : Option (List Char) :=
  let input := stripInput base
  let scheme : Option (List Char × Nat × List Char) :=
    if "https://".data.isPrefixOf input then some ("https".data, 443, input.drop 8)
    else if "http://".data.isPrefixOf input then some ("http".data, 80, input.drop 7)
    else none
  match scheme with
  | none => none
  | some (name, dfltPort, rest) =>
    let authority := rest.takeWhile (fun c => c != '/' && c != '\\' && c != '?' && c != '#')
    let host := authority.takeWhile (fun c => c != ':')
    let port := (authority.dropWhile (fun c => c != ':')).drop 1
    if plainHost host && port.all (fun c => 0x30 ≤ c.toNat && c.toNat ≤ 0x39)
        && decimalValue port ≤ 65535 then
      if port.isEmpty || decimalValue port == dfltPort then some (name ++ "://".data ++ host)
      else some (name ++ "://".data ++ host ++ ':' :: (toString (decimalValue port)).data)
    else none

/-- The `href` of `new URL(input, base)` on the modelled fragment of the URL Standard:
`base` as in `originOf`, `input` starting (after preprocessing) with a single `/`.
The path is parsed by the path state (dot segments removed, code points of the path
set percent-encoded), then query and fragment.  Any other pair of arguments is
outside the fragment and is reported like an invalid URL, also where the real
constructor accepts it (an IPv4 or IPv6 address, an upper-case host name, credentials):
`URL_href` is meant for the inputs evaluated in this file, and statements about every
base URL are made on `resolve` instead. -/
def URL_href (input base : String) : Except Thrown String :=
  match originOf base.data, stripInput input.data with
  | some origin, '/' :: rest =>
    match rest with
    | '/' :: _ => Except.error (Thrown.TypeError "Invalid URL")
    | '\\' :: _ => Except.error (Thrown.TypeError "Invalid URL")
    | _ =>
      let parsed := pathState rest [] []
      Except.ok (String.mk
        (origin ++ (parsed.1.map (fun seg => '/' :: seg)).flatten ++ queryAndFragment parsed.2))
  | _, _ => Except.error (Thrown.TypeError "Invalid URL")

/-- Lower-case hexadecimal digit of a value below 16. -/
def hexLower (n : Nat) : Char :=
  if n < 10 then Char.ofNat (48 + n) else Char.ofNat (87 + n)

/-- The abstract operation `QuoteJSONString`, one character: quotation mark, reverse
solidus and control characters are escaped. -/
def quoteChar (c : Char) : List Char :=
  let n := c.toNat
  if n = 0x22 then ['\\', '"']
  else if n = 0x5C then ['\\', '\\']
  else if n = 0x08 then ['\\', 'b']
  else if n = 0x09 then ['\\', 't']
  else if n = 0x0A then ['\\', 'n']
  else if n = 0x0C then ['\\', 'f']
  else if n = 0x0D then ['\\', 'r']
  else if n < 0x20 then ['\\', 'u', '0', '0', hexLower (n / 16), hexLower (n % 16)]
  else [c]

/-- The abstract operation `QuoteJSONString`. -/
def quoteJSON (s : String) : String :=
  String.mk ('"' :: (s.data.map quoteChar).flatten ++ ['"'])

mutual
/-- The text produced by `JSON.stringify(v)` without indentation, `none` when the
result is `undefined`. -/
def stringifyText : JSVal → Option String
  | JSVal.undefined => none
  | JSVal.null => some "null"
  | JSVal.bool b => some (if b then "true" else "false")
  | JSVal.num n => some (toString n)
  | JSVal.str s => some (quoteJSON s)
  | JSVal.arr xs => some ("[" ++ ",".intercalate (stringifyElems xs) ++ "]")
  | JSVal.obj props => some ("\x7b" ++ ",".intercalate (stringifyProps props) ++ "\x7d")
termination_by structural v => v
/-- Array elements: an `undefined` element is written `null`. -/
def stringifyElems : List JSVal → List String
  | [] => []
  | x :: rest =>
    (match stringifyText x with
      | none => "null"
      | some t => t) :: stringifyElems rest
termination_by structural xs => xs
/-- Object members: a property whose value is `undefined` is left out. -/
def stringifyProps : List (String × JSVal) → List String
  | [] => []
  | (k, x) :: rest =>
    match stringifyText x with
    | none => stringifyProps rest
    | some t => (quoteJSON k ++ ":" ++ t) :: stringifyProps rest
termination_by structural props => props
end

/-- The function `JSON.stringify` with one argument. -/
def JSON_stringify (v : JSVal) : JSVal :=
  match stringifyText v with
  | none => JSVal.undefined
  | some t => JSVal.str t

/-- A host with the modelled `URL` and `JSON.stringify` and the given `fetch`. -/
def hostWith (fetch : String → Obj → Settled Response) : Runtime :=
  { URL := URL_href, fetch := fetch, JSON_stringify := JSON_stringify }

/-- The Jest mock `fetch.mockResolvedValue(response)`: every call resolves with
`response`. -/
def mockResolvedValue (response : Response) : String → Obj → Settled Response :=
  fun _ _ => Settled.fulfilled response

/-- The Jest mock `fetch.mockRejectedValue(reason)`: every call rejects with `reason`. -/
def mockRejectedValue (reason : Thrown) : String → Obj → Settled Response :=
  fun _ _ => Settled.rejected reason

/-- The configuration used by the test suite. -/
def testConfig : ClientConfig :=
  { baseUrl := "https://argocd.example.com", token := "test-token" }

/-- The Jest mock response `{ ok, status, json: () => Promise.resolve(v) }`. -/
def jsonResponse (ok : Bool) (status : Nat) (v : JSVal) : Response :=
  { ok := ok, status := status, body := Body.content (Settled.fulfilled v) }

/-- The default headers built by `_request`. -/
def defaultHeaders (token : String) : JSVal :=
  JSVal.obj
    [("Authorization", JSVal.str ("Bearer " ++ token)),
     ("Content-Type", JSVal.str "application/json")]

/-- The entry of an optional parameter `k` tested by `if (params.k)`: one pair
`(k, String(params.k))` when the value of `params.k` is truthy, nothing otherwise. -/
def presentEntry (params : Obj) (k : String) : List (String × String) :=
  if (Obj.get params k).truthy then [(k, (Obj.get params k).ToString)] else []

/-- The entry of an optional flag `k` tested by `if (params.k)` and sent as the
literal `'true'`: the pair `(k, "true")` when `params.k` is truthy, nothing otherwise. -/
def flagEntry (params : Obj) (k : String) : List (String × String) :=
  if (Obj.get params k).truthy then [(k, "true")] else []

/-- The entries of a list-valued parameter: one pair per element, in order. -/
def listEntries (k : String) (xs : List JSVal) : List (String × String) :=
  xs.map fun x => (k, x.ToString)

/-- The entry of a parameter that is always appended: `(k, String(params.k))`. -/
def requiredEntry (params : Obj) (k : String) : List (String × String) :=
  [(k, (Obj.get params k).ToString)]

/-- The non-empty pieces of a query string between its `&` separators. -/
def components (qs : String) : List String :=
  ((splitAt '&' qs.data).filter (fun piece => !piece.isEmpty)).map String.mk

/-- The entry of a positional flag tested by `if (flag)` and sent as the literal
`'true'`: the pair `(k, "true")` when the argument is truthy, nothing otherwise. -/
def positionalFlag (k : String) (v : JSVal) : List (String × String) :=
  if v.truthy then [(k, "true")] else []

/-- The query string has an entry `k=v`: one of its pieces between `&` is the
serialization of the pair `(k, v)`. -/
def hasEntry (qs k v : String) : Prop :=
  serializePair (k, v) ∈ components qs

/-- An optional boolean argument as passed by the caller: `none` is an omitted
argument (`undefined`), `some b` the boolean `b`. -/
def optionalBool : Option Bool → JSVal
  | none => JSVal.undefined
  | some b => JSVal.bool b

/-! ## The wrapper operations: method, body and path template -/

/-- The name of the method called. -/
def Op.name : Op → String
  | Op.listApplications _ => "listApplications"
  | Op.getApplication _ _ => "getApplication"
  | Op.createApplication _ _ _ => "createApplication"
  | Op.deleteApplication _ _ => "deleteApplication"
  | Op.updateApplication _ _ _ => "updateApplication"
  | Op.syncApplication _ _ => "syncApplication"
  | Op.getApplicationManifests _ _ => "getApplicationManifests"
  | Op.getApplicationResource _ _ => "getApplicationResource"
  | Op.listApplicationEvents _ _ => "listApplicationEvents"
  | Op.listApplicationResourceActions _ _ => "listApplicationResourceActions"
  | Op.runApplicationResourceAction _ _ => "runApplicationResourceAction"
  | Op.listClusters _ => "listClusters"
  | Op.createCluster _ _ => "createCluster"
  | Op.getCluster _ => "getCluster"
  | Op.updateCluster _ _ _ => "updateCluster"
  | Op.deleteCluster _ _ => "deleteCluster"
  | Op.rotateAuth _ => "rotateAuth"
  | Op.invalidateCache _ => "invalidateCache"
  | Op.listGPGKeys _ => "listGPGKeys"
  | Op.createGPGKey _ => "createGPGKey"
  | Op.deleteGPGKey _ => "deleteGPGKey"
  | Op.getGPGKey _ => "getGPGKey"
  | Op.listProjects _ => "listProjects"
  | Op.createProject _ => "createProject"
  | Op.getProject _ => "getProject"
  | Op.updateProject _ _ => "updateProject"
  | Op.deleteProject _ => "deleteProject"
  | Op.getDetailedProject _ => "getDetailedProject"
  | Op.getSyncWindowsState _ => "getSyncWindowsState"
  | Op.getGlobalProjects => "getGlobalProjects"
  | Op.getProjectEvents _ => "getProjectEvents"
  | Op.listRepositories _ => "listRepositories"
  | Op.createRepository _ _ _ => "createRepository"
  | Op.getRepository _ _ => "getRepository"
  | Op.updateRepository _ _ => "updateRepository"
  | Op.deleteRepository _ => "deleteRepository"
  | Op.listApps _ _ => "listApps"
  | Op.getAppDetails _ _ => "getAppDetails"
  | Op.getHelmCharts _ => "getHelmCharts"
  | Op.listRefs _ => "listRefs"
  | Op.listAccounts => "listAccounts"
  | Op.canI _ _ _ => "canI"
  | Op.updatePassword _ => "updatePassword"
  | Op.getAccount _ => "getAccount"
  | Op.createToken _ _ => "createToken"
  | Op.deleteToken _ _ => "deleteToken"
  | Op.listUsers => "listUsers"
  | Op.getUser _ => "getUser"
  | Op.createUser _ => "createUser"
  | Op.updateUser _ _ => "updateUser"
  | Op.deleteUser _ => "deleteUser"
  | Op.listServices => "listServices"
  | Op.listTemplates => "listTemplates"
  | Op.listTriggers => "listTriggers"
  | Op.getSettings => "getSettings"
  | Op.getVersion => "getVersion"
  | Op.createSession _ => "createSession"
  | Op.deleteSession => "deleteSession"
  | Op.getUserInfo => "getUserInfo"
  | Op.listCertificates _ => "listCertificates"
  | Op.createCertificate _ => "createCertificate"
  | Op.deleteCertificate _ _ _ => "deleteCertificate"

/-- The HTTP method that the wrapper passes to `_request`. -/
def Op.method : Op → String
  | Op.listApplications _ => "GET"
  | Op.getApplication _ _ => "GET"
  | Op.createApplication _ _ _ => "POST"
  | Op.deleteApplication _ _ => "DELETE"
  | Op.updateApplication _ _ _ => "PUT"
  | Op.syncApplication _ _ => "POST"
  | Op.getApplicationManifests _ _ => "GET"
  | Op.getApplicationResource _ _ => "GET"
  | Op.listApplicationEvents _ _ => "GET"
  | Op.listApplicationResourceActions _ _ => "GET"
  | Op.runApplicationResourceAction _ _ => "POST"
  | Op.listClusters _ => "GET"
  | Op.createCluster _ _ => "POST"
  | Op.getCluster _ => "GET"
  | Op.updateCluster _ _ _ => "PUT"
  | Op.deleteCluster _ _ => "DELETE"
  | Op.rotateAuth _ => "POST"
  | Op.invalidateCache _ => "POST"
  | Op.listGPGKeys _ => "GET"
  | Op.createGPGKey _ => "POST"
  | Op.deleteGPGKey _ => "DELETE"
  | Op.getGPGKey _ => "GET"
  | Op.listProjects _ => "GET"
  | Op.createProject _ => "POST"
  | Op.getProject _ => "GET"
  | Op.updateProject _ _ => "PUT"
  | Op.deleteProject _ => "DELETE"
  | Op.getDetailedProject _ => "GET"
  | Op.getSyncWindowsState _ => "GET"
  | Op.getGlobalProjects => "GET"
  | Op.getProjectEvents _ => "GET"
  | Op.listRepositories _ => "GET"
  | Op.createRepository _ _ _ => "POST"
  | Op.getRepository _ _ => "GET"
  | Op.updateRepository _ _ => "PUT"
  | Op.deleteRepository _ => "DELETE"
  | Op.listApps _ _ => "GET"
  | Op.getAppDetails _ _ => "GET"
  | Op.getHelmCharts _ => "GET"
  | Op.listRefs _ => "GET"
  | Op.listAccounts => "GET"
  | Op.canI _ _ _ => "GET"
  | Op.updatePassword _ => "PUT"
  | Op.getAccount _ => "GET"
  | Op.createToken _ _ => "POST"
  | Op.deleteToken _ _ => "DELETE"
  | Op.listUsers => "GET"
  | Op.getUser _ => "GET"
  | Op.createUser _ => "POST"
  | Op.updateUser _ _ => "PUT"
  | Op.deleteUser _ => "DELETE"
  | Op.listServices => "GET"
  | Op.listTemplates => "GET"
  | Op.listTriggers => "GET"
  | Op.getSettings => "GET"
  | Op.getVersion => "GET"
  | Op.createSession _ => "POST"
  | Op.deleteSession => "DELETE"
  | Op.getUserInfo => "GET"
  | Op.listCertificates _ => "GET"
  | Op.createCertificate _ => "POST"
  | Op.deleteCertificate _ _ _ => "DELETE"

/-- The object that a create or update operation serializes as its body; `none` for
the operations that pass no options to `_request`. -/
def Op.bodyArg : Op → Option JSVal
  | Op.listApplications _ => none
  | Op.getApplication _ _ => none
  | Op.createApplication application _ _ => some application
  | Op.deleteApplication _ _ => none
  | Op.updateApplication _ application _ => some application
  | Op.syncApplication _ _ => none
  | Op.getApplicationManifests _ _ => none
  | Op.getApplicationResource _ _ => none
  | Op.listApplicationEvents _ _ => none
  | Op.listApplicationResourceActions _ _ => none
  | Op.runApplicationResourceAction _ _ => none
  | Op.listClusters _ => none
  | Op.createCluster cluster _ => some cluster
  | Op.getCluster _ => none
  | Op.updateCluster _ cluster _ => some cluster
  | Op.deleteCluster _ _ => none
  | Op.rotateAuth _ => none
  | Op.invalidateCache _ => none
  | Op.listGPGKeys _ => none
  | Op.createGPGKey key => some key
  | Op.deleteGPGKey _ => none
  | Op.getGPGKey _ => none
  | Op.listProjects _ => none
  | Op.createProject project => some project
  | Op.getProject _ => none
  | Op.updateProject _ project => some project
  | Op.deleteProject _ => none
  | Op.getDetailedProject _ => none
  | Op.getSyncWindowsState _ => none
  | Op.getGlobalProjects => none
  | Op.getProjectEvents _ => none
  | Op.listRepositories _ => none
  | Op.createRepository repository _ _ => some repository
  | Op.getRepository _ _ => none
  | Op.updateRepository _ repository => some repository
  | Op.deleteRepository _ => none
  | Op.listApps _ _ => none
  | Op.getAppDetails _ _ => none
  | Op.getHelmCharts _ => none
  | Op.listRefs _ => none
  | Op.listAccounts => none
  | Op.canI _ _ _ => none
  | Op.updatePassword request => some request
  | Op.getAccount _ => none
  | Op.createToken _ request => some request
  | Op.deleteToken _ _ => none
  | Op.listUsers => none
  | Op.getUser _ => none
  | Op.createUser user => some user
  | Op.updateUser _ user => some user
  | Op.deleteUser _ => none
  | Op.listServices => none
  | Op.listTemplates => none
  | Op.listTriggers => none
  | Op.getSettings => none
  | Op.getVersion => none
  | Op.createSession session => some session
  | Op.deleteSession => none
  | Op.getUserInfo => none
  | Op.listCertificates _ => none
  | Op.createCertificate certificate => some certificate
  | Op.deleteCertificate _ _ _ => none

/-- The caller-supplied identifiers that the wrapper inserts into the path, in the
order of the path template. -/
def Op.identifiers : Op → List String
  | Op.listApplications _ => []
  | Op.getApplication name _ => [name]
  | Op.createApplication _ _ _ => []
  | Op.deleteApplication name _ => [name]
  | Op.updateApplication name _ _ => [name]
  | Op.syncApplication name _ => [name]
  | Op.getApplicationManifests name _ => [name]
  | Op.getApplicationResource name _ => [name]
  | Op.listApplicationEvents name _ => [name]
  | Op.listApplicationResourceActions name _ => [name]
  | Op.runApplicationResourceAction name _ => [name]
  | Op.listClusters _ => []
  | Op.createCluster _ _ => []
  | Op.getCluster server => [server]
  | Op.updateCluster server _ _ => [server]
  | Op.deleteCluster server _ => [server]
  | Op.rotateAuth server => [server]
  | Op.invalidateCache server => [server]
  | Op.listGPGKeys _ => []
  | Op.createGPGKey _ => []
  | Op.deleteGPGKey keyID => [keyID]
  | Op.getGPGKey keyID => [keyID]
  | Op.listProjects _ => []
  | Op.createProject _ => []
  | Op.getProject name => [name]
  | Op.updateProject name _ => [name]
  | Op.deleteProject name => [name]
  | Op.getDetailedProject name => [name]
  | Op.getSyncWindowsState name => [name]
  | Op.getGlobalProjects => []
  | Op.getProjectEvents name => [name]
  | Op.listRepositories _ => []
  | Op.createRepository _ _ _ => []
  | Op.getRepository repo _ => [repo]
  | Op.updateRepository repo _ => [repo]
  | Op.deleteRepository repo => [repo]
  | Op.listApps repo _ => [repo]
  | Op.getAppDetails repo _ => [repo]
  | Op.getHelmCharts repo => [repo]
  | Op.listRefs repo => [repo]
  | Op.listAccounts => []
  | Op.canI resource action subresource => [resource, action, subresource]
  | Op.updatePassword _ => []
  | Op.getAccount name => [name]
  | Op.createToken name _ => [name]
  | Op.deleteToken name id => [name, id]
  | Op.listUsers => []
  | Op.getUser name => [name]
  | Op.createUser _ => []
  | Op.updateUser name _ => [name]
  | Op.deleteUser name => [name]
  | Op.listServices => []
  | Op.listTemplates => []
  | Op.listTriggers => []
  | Op.getSettings => []
  | Op.getVersion => []
  | Op.createSession _ => []
  | Op.deleteSession => []
  | Op.getUserInfo => []
  | Op.listCertificates _ => []
  | Op.createCertificate _ => []
  | Op.deleteCertificate _ _ _ => []

/-- The literal pieces of the path template of the wrapper, in order: the piece
before the first identifier, then the piece after each identifier (a final `?` when
the wrapper appends a query string). -/
def Op.pieces : Op → List String
  | Op.listApplications _ => ["/api/v1/applications?"]
  | Op.getApplication _ _ => ["/api/v1/applications/", "?"]
  | Op.createApplication _ _ _ => ["/api/v1/applications?"]
  | Op.deleteApplication _ _ => ["/api/v1/applications/", "?"]
  | Op.updateApplication _ _ _ => ["/api/v1/applications/", "?"]
  | Op.syncApplication _ _ => ["/api/v1/applications/", "/sync?"]
  | Op.getApplicationManifests _ _ => ["/api/v1/applications/", "/manifests?"]
  | Op.getApplicationResource _ _ => ["/api/v1/applications/", "/resource?"]
  | Op.listApplicationEvents _ _ => ["/api/v1/applications/", "/events?"]
  | Op.listApplicationResourceActions _ _ => ["/api/v1/applications/", "/resource/actions?"]
  | Op.runApplicationResourceAction _ _ => ["/api/v1/applications/", "/resource/actions?"]
  | Op.listClusters _ => ["/api/v1/clusters?"]
  | Op.createCluster _ _ => ["/api/v1/clusters?"]
  | Op.getCluster _ => ["/api/v1/clusters/"]
  | Op.updateCluster _ _ _ => ["/api/v1/clusters/", "?"]
  | Op.deleteCluster _ _ => ["/api/v1/clusters/", "?"]
  | Op.rotateAuth _ => ["/api/v1/clusters/", "/rotate-auth"]
  | Op.invalidateCache _ => ["/api/v1/clusters/", "/invalidate-cache"]
  | Op.listGPGKeys _ => ["/api/v1/gpgkeys?"]
  | Op.createGPGKey _ => ["/api/v1/gpgkeys"]
  | Op.deleteGPGKey _ => ["/api/v1/gpgkeys/"]
  | Op.getGPGKey _ => ["/api/v1/gpgkeys/"]
  | Op.listProjects _ => ["/api/v1/projects?"]
  | Op.createProject _ => ["/api/v1/projects"]
  | Op.getProject _ => ["/api/v1/projects/"]
  | Op.updateProject _ _ => ["/api/v1/projects/"]
  | Op.deleteProject _ => ["/api/v1/projects/"]
  | Op.getDetailedProject _ => ["/api/v1/projects/", "/detailed"]
  | Op.getSyncWindowsState _ => ["/api/v1/projects/", "/syncwindows"]
  | Op.getGlobalProjects => ["/api/v1/projects/global"]
  | Op.getProjectEvents _ => ["/api/v1/projects/", "/events"]
  | Op.listRepositories _ => ["/api/v1/repositories?"]
  | Op.createRepository _ _ _ => ["/api/v1/repositories?"]
  | Op.getRepository _ _ => ["/api/v1/repositories/", "?"]
  | Op.updateRepository _ _ => ["/api/v1/repositories/"]
  | Op.deleteRepository _ => ["/api/v1/repositories/"]
  | Op.listApps _ _ => ["/api/v1/repositories/", "/apps?"]
  | Op.getAppDetails _ _ => ["/api/v1/repositories/", "/appdetails?"]
  | Op.getHelmCharts _ => ["/api/v1/repositories/", "/helmcharts"]
  | Op.listRefs _ => ["/api/v1/repositories/", "/refs"]
  | Op.listAccounts => ["/api/v1/account"]
  | Op.canI _ _ _ => ["/api/v1/account/can-i/", "/", "/"]
  | Op.updatePassword _ => ["/api/v1/account/password"]
  | Op.getAccount _ => ["/api/v1/account/"]
  | Op.createToken _ _ => ["/api/v1/account/", "/token"]
  | Op.deleteToken _ _ => ["/api/v1/account/", "/token/"]
  | Op.listUsers => ["/api/v1/users"]
  | Op.getUser _ => ["/api/v1/users/"]
  | Op.createUser _ => ["/api/v1/users"]
  | Op.updateUser _ _ => ["/api/v1/users/"]
  | Op.deleteUser _ => ["/api/v1/users/"]
  | Op.listServices => ["/api/v1/notifications/services"]
  | Op.listTemplates => ["/api/v1/notifications/templates"]
  | Op.listTriggers => ["/api/v1/notifications/triggers"]
  | Op.getSettings => ["/api/v1/settings"]
  | Op.getVersion => ["/api/v1/version"]
  | Op.createSession _ => ["/api/v1/session"]
  | Op.deleteSession => ["/api/v1/session"]
  | Op.getUserInfo => ["/api/v1/session/userinfo"]
  | Op.listCertificates _ => ["/api/v1/certificates?"]
  | Op.createCertificate _ => ["/api/v1/certificates"]
  | Op.deleteCertificate _ _ _ => ["/api/v1/certificates?"]

/-- A path template filled in, from an accumulated start: each identifier is followed
by the next literal piece, if there is one. -/
def weaveFrom (acc : String) : List String → List String → String
  | _, [] => acc
  | [], i :: ids => weaveFrom (acc ++ i) [] ids
  | p :: pieces, i :: ids => weaveFrom (acc ++ i ++ p) pieces ids

/-- A path template filled in: `p0 ++ id1 ++ p1 ++ id2 ++ p2 ++ ...`. -/
def weave : List String → List String → String
  | [], ids => weaveFrom "" [] ids
  | p :: pieces, ids => weaveFrom p pieces ids

/-- The path of the operation up to the query string: its template filled in with
its identifiers. -/
def Op.stem (op : Op) : String :=
  weave op.pieces op.identifiers

/-- The options that the wrapper passes to `_request`: none, or
`{ body: JSON.stringify(o) }`. -/
def Op.options (rt : Runtime) (op : Op) : Option Obj :=
  op.bodyArg.map fun o => [("body", rt.JSON_stringify o)]

/-- The header `name` of the `init` object of a `fetch` call. -/
def headerOf (init : Obj) (name : String) : JSVal :=
  match Obj.get init "headers" with
  | JSVal.obj headers => Obj.get headers name
  | _ => JSVal.undefined

/-! ## Inputs that the URL parser leaves unchanged -/

/-- The base URL is a bare origin in serialized form: it is the origin that the URL
parser serializes for it (scheme `http` or `https` in lower case, `://`, a plain
host name, and a port only when it is not the default one and has no leading zero). -/
def isBareOrigin (base : String) : Bool :=
  originOf base.data == some base.data

/-- The segment is neither a single-dot nor a double-dot segment. -/
def notDotSegment (buffer : List Char) : Bool :=
  !isSingleDot buffer && !isDoubleDot buffer

/-- The query and fragment are left unchanged by the URL parser: no character of the
query is in the special-query percent-encode set, none of the fragment is in the
fragment percent-encode set. -/
def stableTail : List Char → Bool
  | [] => true
  | '?' :: cs =>
    (cs.takeWhile (fun c => c != '#')).all (fun c => !inSpecialQuerySet c.toNat) &&
      (match cs.dropWhile (fun c => c != '#') with
        | [] => true
        | _ :: frag => frag.all (fun c => !inFragmentSet c.toNat))
  | _ :: frag => frag.all (fun c => !inFragmentSet c.toNat)

/-- What follows the leading `/` of a path is left unchanged by the path state of the
URL parser, `buffer` being the segment read so far: no segment is a dot segment, there
is no `\`, and no character of a segment is in the path percent-encode set. -/
def stablePath : List Char → List Char → Bool
  | [], buffer => notDotSegment buffer
  | c :: cs, buffer =>
    if c = '/' then notDotSegment buffer && stablePath cs []
    else if c = '?' ∨ c = '#' then notDotSegment buffer && stableTail (c :: cs)
    else c != '\\' && !inPathSet c.toNat && stablePath cs (buffer ++ [c])

/-- The path starts with a single `/` and is left unchanged by the URL parser. -/
def stableInput (path : String) : Bool :=
  match path.data with
  | '/' :: rest => rest.head? != some '/' && stablePath rest []
  | _ => false

/-! ## Resource roots of the services -/

/-- The resource root of a service: what follows `/api/v1/` at the start of every
path of the service. -/
def resourceRoot (service : String) : String :=
  if service = "ApplicationService" then "applications"
  else if service = "ClusterService" then "clusters"
  else if service = "ProjectService" then "projects"
  else if service = "RepositoryService" then "repositories"
  else if service = "CertificateService" then "certificates"
  else if service = "GPGKeyService" then "gpgkeys"
  else if service = "NotificationService" then "notifications/"
  else if service = "SessionService" then "session"
  else if service = "SettingsService" then "settings"
  else if service = "UserService" then "users"
  else if service = "VersionService" then "version"
  else if service = "AccountService" then "account"
  else ""

/-! ## Characters of a serialized origin -/

/-- A character that can follow `://` in a serialized origin of the modelled fragment:
a lower-case letter, a digit, `-`, `.` or the `:` before the port. -/
def isAuthorityChar (c : Char) : Bool :=
  (0x61 ≤ c.toNat && c.toNat ≤ 0x7A) || (0x30 ≤ c.toNat && c.toNat ≤ 0x39) ||
    c == '-' || c == '.' || c == ':'

/-! ## Operations that reach the request core -/

/-- The statement `if (v) v.forEach(...)` completes: `v` is falsy, so that `forEach` is
not called, or `v` is an array. Any other value has no callable `forEach`. -/
def forEachCompletes : JSVal → Bool
  | JSVal.arr _ => true
  | v => !v.truthy

/-- The operation builds its path without throwing: its list parameter, `projects` for
`listApplications` and `resources` for `syncApplication`, is falsy or an array. The
other operations have no statement that can throw before `_request` is called. -/
def Op.reachesRequest : Op → Bool
  | Op.listApplications params => forEachCompletes (Obj.get (params.getD []) "projects")
  | Op.syncApplication _ params => forEachCompletes (Obj.get (params.getD []) "resources")
  | _ => true

/-! ## The URL constructor on any host

For an input that starts with a single `/`, the URL parser takes the scheme and the
authority (credentials, host and port) of the result from the base URL, and the path,
query and fragment from the input. What the parser does with the text of the scheme
and of the authority, and how it serializes the path, is left to the host here, so that
statements hold for every host name, address and port that the host accepts. -/

/-- The parts of the URL parser that are left to the host: whether a scheme is special;
the serialization `scheme://authority` of a scheme and an authority as written in the
base URL, if they are valid; the serialization of the path, query and fragment of an
input that starts with `/`; and the constructor on the pairs of arguments that are not
described here. -/
structure URLHost where
  isSpecial : List Char → Bool
  authority : List Char → List Char → Option (List Char)
  path : List Char → List Char → List Char
  other : List Char → List Char → Except Thrown String

/-- The character ends the authority of a URL: `/`, `?`, `#`, and `\` when the scheme
is special. -/
def endsAuthority (special : Bool) (c : Char) : Bool :=
  c == '/' || c == '?' || c == '#' || (special && c == '\\')

/-- The `href` of `new URL(input, base)`. When the base is `scheme://authority...` with
a scheme other than `file` and the input starts with a single `/`, the result is the
serialization of the scheme and authority of the base followed by the serialized path,
query and fragment of the input: the authority is read up to the first character that
ends it, and nothing after it is used. The constructor throws when the host rejects the
scheme or the authority. -/
def resolve (host : URLHost) (input base : String) : Except Thrown String :=
  let b := stripInput base.data
  let i := stripInput input.data
  let scheme := b.takeWhile (fun c => c != ':')
  match b.dropWhile (fun c => c != ':'), i with
  | ':' :: '/' :: '/' :: rest, '/' :: tail =>
    if asciiLower scheme == "file".data || rest.head? == some '/' || rest.head? == some '\\'
        || tail.head? == some '/' || tail.head? == some '\\' then host.other i b
    else
      match host.authority scheme
          (rest.takeWhile (fun c => !endsAuthority (host.isSpecial scheme) c)) with
      | none => Except.error (Thrown.TypeError "Invalid URL")
      | some origin => Except.ok (String.mk (origin ++ host.path scheme i))
  | _, _ => host.other i b

/-- The text is `scheme://authority` and nothing more: it has no control character and
no space, a scheme other than `file`, and after `://` a non-empty authority without
`/`, `\`, `?` and `#`. -/
def isOriginText (origin : String) : Bool :=
  match origin.data.dropWhile (fun c => c != ':') with
  | ':' :: '/' :: '/' :: rest =>
    origin.data.all (fun c => !isC0OrSpace c) && !rest.isEmpty &&
      rest.all (fun c => c != '/' && c != '\\' && c != '?' && c != '#') &&
      asciiLower (origin.data.takeWhile (fun c => c != ':')) != "file".data
  | _ => false

/-- The scheme of a base URL `scheme://authority...`, as written. -/
def schemeText (base : String) : List Char :=
  (stripInput base.data).takeWhile (fun c => c != ':')

/-- The authority of a base URL `scheme://authority...`, as written. -/
def authorityText (host : URLHost) (base : String) : List Char :=
  (((stripInput base.data).dropWhile (fun c => c != ':')).drop 3).takeWhile
    (fun c => !endsAuthority (host.isSpecial (schemeText base)) c)

/-- The modelled fragment of the URL Standard as a host: the schemes `http` and `https`
with a plain host name and an optional port, the path state of special schemes. -/
def modelledURL : URLHost :=
  { isSpecial := fun scheme =>
      [ "http".data, "https".data, "ws".data, "wss".data, "ftp".data,
        "file".data ].contains (asciiLower scheme),
    authority := fun scheme authority => originOf (scheme ++ "://".data ++ authority),
    path := fun _ input =>
      let parsed := pathState (input.drop 1) [] []
      (parsed.1.map (fun seg => '/' :: seg)).flatten ++ queryAndFragment parsed.2,
    other := fun _ _ => Except.error (Thrown.TypeError "Invalid URL") }

/-- A host with the given URL parser parts, `fetch` and the modelled `JSON.stringify`. -/
def hostOn (host : URLHost) (fetch : String → Obj → Settled Response) : Runtime :=
  { URL := resolve host, fetch := fetch, JSON_stringify := JSON_stringify }

/-! ## The methods as programs

The classes are embedded a second time, as the statements of their constructors and
method bodies, with an interpreter that carries the fields of the instance `this`
through every statement. An assignment to a field of `this` is a statement of this
language, so that what a call does to the instance is computed from the body of the
method. -/

/-- The operands of the statements: a string literal, a parameter or constant, a
property `x.k` of one, a field `this.k`, a negation `!x`, `queryParams.toString()` and
`JSON.stringify(x)`. -/
inductive Atom where
  | str (s : String)
  | var (x : String)
  | prop (x k : String)
  | thisProp (k : String)
  | notVar (x : String)
  | queryString
  | stringify (x : String)
  deriving DecidableEq

/-- A piece of a template literal: text, or a substitution. -/
inductive Piece where
  | text (s : String)
  | hole (a : Atom)
  deriving DecidableEq

/-- The value of a property in an object literal: an operand or a template literal. -/
inductive Value where
  | atom (a : Atom)
  | template (pieces : List Piece)
  deriving DecidableEq

/-- An object literal: its properties in order, followed by an optional spread `...e`. -/
structure ObjectLit where
  props : List (String × Value)
  rest : Option Atom
  deriving DecidableEq

/-- The statements of the constructor of `BaseService` and of `_request`, and the
statements that build a query string in the wrappers. -/
inductive Stmt where
  | newQuery
  | append (k : String) (v : Atom)
  | ifAppend (c : Atom) (k : String) (v : Atom)
  | ifForEach (c : Atom) (xs : Atom) (k : String)
  | assignThis (k : String) (v : Atom)
  | constURL (x : String) (input base : Atom)
  | constObject (x : String) (o : ObjectLit)
  | awaitFetch (x : String) (url : String) (init : ObjectLit)
  | throwUnlessOk (x : String)
  | returnJson (x : String)
  deriving DecidableEq

/-- The statements of a method of a service: those of `Stmt`, the call `super(arg)` of
a constructor, and `return this._request(method, path)` with the optional third
argument `{ body: JSON.stringify(x) }`. -/
inductive Top where
  | stmt (s : Stmt)
  | superCall (arg : String)
  | returnRequest (method : String) (path : List Piece) (body : Option String)
  deriving DecidableEq

/-- A method: its parameters, each with its default value if it has one, and its body. -/
structure Method where
  params : List (String × Option JSVal)
  body : List Top

/-- The state of an invocation: the fields of `this`, the parameters and constants, the
`queryParams` object, the response awaited, and the calls to `_request` and to `fetch`
made so far. -/
structure Machine where
  this : Obj
  vars : Obj
  query : URLSearchParams
  response : Option (String × Response)
  requests : List RequestArgs
  fetches : List FetchCall

/-- What a statement does: execution continues in a new state, or the method is left,
by `return` or by `throw`, with the promise of the method settled. -/
inductive Step where
  | next (m : Machine)
  | done (m : Machine) (result : Settled JSVal)

/-- The state in which a statement leaves the invocation. -/
def Step.machine : Step → Machine
  | Step.next m => m
  | Step.done m _ => m

/-- An argument as passed by the caller: `none` is an omitted argument (`undefined`). -/
def optionalObj : Option Obj → JSVal
  | none => JSVal.undefined
  | some o => JSVal.obj o

/-- The value of an operand. Reading a property of `undefined` or `null` throws; own
properties are read from objects only. -/
def evalAtom (rt : Runtime) (m : Machine) : Atom → Except Thrown JSVal
  | Atom.str s => Except.ok (JSVal.str s)
  | Atom.var x => Except.ok (Obj.get m.vars x)
  | Atom.prop x k =>
    match Obj.get m.vars x with
    | JSVal.undefined =>
      Except.error (Thrown.TypeError
        ("Cannot read properties of undefined (reading '" ++ k ++ "')"))
    | JSVal.null =>
      Except.error (Thrown.TypeError
        ("Cannot read properties of null (reading '" ++ k ++ "')"))
    | JSVal.obj props => Except.ok (Obj.get props k)
    | _ => Except.ok JSVal.undefined
  | Atom.thisProp k => Except.ok (Obj.get m.this k)
  | Atom.notVar x => Except.ok (JSVal.bool (!(Obj.get m.vars x).truthy))
  | Atom.queryString => Except.ok (JSVal.str m.query.toString)
  | Atom.stringify x => Except.ok (rt.JSON_stringify (Obj.get m.vars x))

/-- The string of a piece of a template literal. -/
def evalPiece (rt : Runtime) (m : Machine) : Piece → Except Thrown String
  | Piece.text s => Except.ok s
  | Piece.hole a =>
    match evalAtom rt m a with
    | Except.ok v => Except.ok v.ToString
    | Except.error e => Except.error e

/-- The string of a template literal: its pieces, concatenated from left to right. -/
def evalTemplate (rt : Runtime) (m : Machine) : List Piece → Except Thrown String
  | [] => Except.ok ""
  | p :: rest =>
    rest.foldl
      (fun acc q =>
        match acc, evalPiece rt m q with
        | Except.ok a, Except.ok b => Except.ok (a ++ b)
        | Except.error e, _ => Except.error e
        | Except.ok _, Except.error e => Except.error e)
      (evalPiece rt m p)

/-- The value of a property of an object literal. -/
def evalValue (rt : Runtime) (m : Machine) : Value → Except Thrown JSVal
  | Value.atom a => evalAtom rt m a
  | Value.template pieces =>
    match evalTemplate rt m pieces with
    | Except.ok s => Except.ok (JSVal.str s)
    | Except.error e => Except.error e

/-- The properties of an object literal, written one after the other onto `target`. -/
def evalProps (rt : Runtime) (m : Machine) (target : Obj) :
    List (String × Value) → Except Thrown Obj
  | [] => Except.ok target
  | (k, v) :: rest =>
    match evalValue rt m v with
    | Except.ok w => evalProps rt m (Obj.set target k w) rest
    | Except.error e => Except.error e

/-- The object denoted by an object literal. -/
def evalObject (rt : Runtime) (m : Machine) (o : ObjectLit) : Except Thrown Obj :=
  match evalProps rt m [] o.props with
  | Except.error e => Except.error e
  | Except.ok props =>
    match o.rest with
    | none => Except.ok props
    | some a =>
      match evalAtom rt m a with
      | Except.ok v => Except.ok (spread props v)
      | Except.error e => Except.error e

/-- The method is left by `throw e`. -/
def throwIn (m : Machine) (e : Thrown) : Step :=
  Step.done m (Settled.rejected e)

/-- Execution of one statement. -/
def Stmt.exec (rt : Runtime) (m : Machine) : Stmt → Step
  | Stmt.newQuery => Step.next { m with query := URLSearchParams.new }
  | Stmt.append k v =>
    match evalAtom rt m v with
    | Except.ok w => Step.next { m with query := m.query.append k w }
    | Except.error e => throwIn m e
  | Stmt.ifAppend c k v =>
    match evalAtom rt m c with
    | Except.error e => throwIn m e
    | Except.ok cv =>
      match evalAtom rt m v with
      | Except.ok w =>
        Step.next { m with query := if cv.truthy then m.query.append k w else m.query }
      | Except.error e => if cv.truthy then throwIn m e else Step.next m
  | Stmt.ifForEach c xs k =>
    match evalAtom rt m c with
    | Except.error e => throwIn m e
    | Except.ok cv =>
      match evalAtom rt m xs with
      | Except.error e => if cv.truthy then throwIn m e else Step.next m
      | Except.ok xv =>
        match (if cv.truthy then forEachAppend m.query k xv else Except.ok m.query) with
        | Except.ok q => Step.next { m with query := q }
        | Except.error e => throwIn m e
  | Stmt.assignThis k v =>
    match evalAtom rt m v with
    | Except.ok w => Step.next { m with this := Obj.set m.this k w }
    | Except.error e => throwIn m e
  | Stmt.constURL x input base =>
    match evalAtom rt m input, evalAtom rt m base with
    | Except.ok i, Except.ok b =>
      match rt.URL i.ToString b.ToString with
      | Except.ok url => Step.next { m with vars := Obj.set m.vars x (JSVal.str url) }
      | Except.error e => throwIn m e
    | Except.error e, _ => throwIn m e
    | Except.ok _, Except.error e => throwIn m e
  | Stmt.constObject x o =>
    match evalObject rt m o with
    | Except.ok props => Step.next { m with vars := Obj.set m.vars x (JSVal.obj props) }
    | Except.error e => throwIn m e
  | Stmt.awaitFetch x url init =>
    match evalObject rt m init with
    | Except.error e => throwIn m e
    | Except.ok i =>
      match rt.fetch (Obj.get m.vars url).ToString i with
      | Settled.rejected e =>
        throwIn { m with fetches := m.fetches ++
          [{ url := (Obj.get m.vars url).ToString, init := i }] } e
      | Settled.fulfilled r =>
        Step.next { m with
          response := some (x, r),
          fetches := m.fetches ++ [{ url := (Obj.get m.vars url).ToString, init := i }] }
  | Stmt.throwUnlessOk x =>
    match m.response with
    | some (y, r) =>
      if y = x then
        if !r.ok then throwIn m (Thrown.Error ("HTTP error! status: " ++ toString r.status))
        else Step.next m
      else throwIn m (Thrown.Error (x ++ " is not defined"))
    | none => throwIn m (Thrown.Error (x ++ " is not defined"))
  | Stmt.returnJson x =>
    match m.response with
    | some (y, r) =>
      if y = x then Step.done m r.json
      else throwIn m (Thrown.Error (x ++ " is not defined"))
    | none => throwIn m (Thrown.Error (x ++ " is not defined"))

/-- Execution of a list of statements; a body that ends without `return` returns
`undefined`. -/
def execBody (rt : Runtime) : List Stmt → Machine → Machine × Settled JSVal
  | [], m => (m, Settled.fulfilled JSVal.undefined)
  | s :: rest, m =>
    match s.exec rt m with
    | Step.next m2 => execBody rt rest m2
    | Step.done m2 r => (m2, r)

/-- The body of the constructor of `BaseService` (base-service.js, lines 12 to 15). -/
def baseConstructor : List Stmt :=
  [Stmt.assignThis "baseUrl" (Atom.prop "config" "baseUrl"),
   Stmt.assignThis "token" (Atom.prop "config" "token")]

/-- The body of `_request(method, path, options = {})` (base-service.js, lines 25 to
44). -/
def requestBody : List Stmt :=
  [Stmt.constURL "url" (Atom.var "path") (Atom.thisProp "baseUrl"),
   Stmt.constObject "headers"
     { props :=
         [("Authorization",
            Value.template [Piece.text "Bearer ", Piece.hole (Atom.thisProp "token")]),
          ("Content-Type", Value.atom (Atom.str "application/json"))],
       rest := some (Atom.prop "options" "headers") },
   Stmt.awaitFetch "response" "url"
     { props :=
         [("method", Value.atom (Atom.var "method")),
          ("headers", Value.atom (Atom.var "headers"))],
       rest := some (Atom.var "options") },
   Stmt.throwUnlessOk "response",
   Stmt.returnJson "response"]

/-- The call `this._request(method, path, options)` made in the state `m`: the body of
`_request` runs on the same instance, with its own parameters; the call is recorded. -/
def invokeRequest (rt : Runtime) (m : Machine) (method path : String)
    (options : Option Obj) : Machine × Settled JSVal :=
  let callee : Machine :=
    { this := m.this,
      vars :=
        [("method", JSVal.str method), ("path", JSVal.str path),
         ("options", defaultTo (optionalObj options) (JSVal.obj []))],
      query := m.query,
      response := none,
      requests := m.requests ++ [{ method := method, path := path, options := options }],
      fetches := m.fetches }
  let r := execBody rt requestBody callee
  ({ r.1 with vars := m.vars, response := m.response }, r.2)

/-- Execution of one statement of a method of a service. -/
def Top.exec (rt : Runtime) (m : Machine) : Top → Step
  | Top.stmt s => s.exec rt m
  | Top.superCall arg =>
    let r := execBody rt baseConstructor { m with vars := [("config", Obj.get m.vars arg)] }
    match r.2 with
    | Settled.rejected e => throwIn { r.1 with vars := m.vars } e
    | Settled.fulfilled _ => Step.next { r.1 with vars := m.vars }
  | Top.returnRequest method path body =>
    match evalTemplate rt m path with
    | Except.error e => throwIn m e
    | Except.ok p =>
      let r := invokeRequest rt m method p
        (body.map fun x => [("body", rt.JSON_stringify (Obj.get m.vars x))])
      Step.done r.1 r.2

/-- Execution of the body of a method of a service. -/
def execTop (rt : Runtime) : List Top → Machine → Machine × Settled JSVal
  | [], m => (m, Settled.fulfilled JSVal.undefined)
  | s :: rest, m =>
    match s.exec rt m with
    | Step.next m2 => execTop rt rest m2
    | Step.done m2 r => (m2, r)

/-- The parameters of a method bound to the arguments of a call: a missing argument is
`undefined`, and a default replaces `undefined`. -/
def bindParams : List (String × Option JSVal) → List JSVal → Obj
  | [], _ => []
  | (x, d) :: ps, args =>
    (x, match d with
        | some v => defaultTo (args.headD JSVal.undefined) v
        | none => args.headD JSVal.undefined) :: bindParams ps (args.drop 1)

/-- The call of a method on the instance with fields `this`: the state when the method
is left, and the settled state of its promise. -/
def invoke (rt : Runtime) (method : Method) (this : Obj) (args : List JSVal) :
    Machine × Settled JSVal :=
  execTop rt method.body
    { this := this, vars := bindParams method.params args, query := URLSearchParams.new,
      response := none, requests := [], fetches := [] }

/-- The calls made by an invocation and its result. -/
def outcomeOf (r : Machine × Settled JSVal) : Outcome :=
  { requests := r.1.requests, fetches := r.1.fetches, result := r.2 }

/-- The constructor of `BaseService`, inherited by the services that define none. -/
def baseServiceClass : Method :=
  { params := [("config", none)], body := baseConstructor.map Top.stmt }

/-- The constructor of `ApplicationService` and of `AccountService`: `super(config)`,
then both fields are assigned again (application.js and account.js, lines 15 to 19). -/
def derivedServiceClass : Method :=
  { params := [("config", none)],
    body :=
      [Top.superCall "config",
       Top.stmt (Stmt.assignThis "baseUrl" (Atom.prop "config" "baseUrl")),
       Top.stmt (Stmt.assignThis "token" (Atom.prop "config" "token"))] }

/-- The expression `new C(config)`: the constructor runs on a new object, whose fields
are the instance. -/
def construct (rt : Runtime) (constructor : Method) (config : JSVal) : Obj :=
  (invoke rt constructor [] [config]).1.this

/-- The configuration object `{ baseUrl, token }`. -/
def ClientConfig.toJS (config : ClientConfig) : JSVal :=
  JSVal.obj [("baseUrl", JSVal.str config.baseUrl), ("token", JSVal.str config.token)]

/-- The fields of a service instance. -/
def BaseService.fields (self : BaseService) : Obj :=
  [("baseUrl", JSVal.str self.baseUrl), ("token", JSVal.str self.token)]

/-- The statement assigns to a field of `this`. -/
def Stmt.assigns : Stmt → Bool
  | Stmt.assignThis _ _ => true
  | _ => false

/-- The statement of a method assigns to a field of `this`, itself or in the
constructor that it calls. -/
def Top.assigns : Top → Bool
  | Top.stmt s => s.assigns
  | Top.superCall _ => true
  | Top.returnRequest _ _ _ => false

/-- A call made on a service instance: a wrapper method, or `_request` itself. -/
inductive Call where
  | wrapper (op : Op)
  | request (method path : String) (options : Option Obj)

/-- The program of each wrapper method: its parameters with their defaults, and the
statements of its body in source order. -/
def Op.program : Op → Method
  | Op.listApplications _ =>
    { params := [("params", some (JSVal.obj []))],
      body :=
        [Top.stmt Stmt.newQuery,
         Top.stmt (Stmt.ifAppend (Atom.prop "params" "name") "name" (Atom.prop "params" "name")),
         Top.stmt (Stmt.ifAppend (Atom.prop "params" "refresh") "refresh" (Atom.prop "params" "refresh")),
         Top.stmt (Stmt.ifForEach (Atom.prop "params" "projects") (Atom.prop "params" "projects") "projects"),
         Top.returnRequest "GET" [Piece.text "/api/v1/applications?", Piece.hole Atom.queryString] none] }
  | Op.getApplication _ _ =>
    { params := [("name", none), ("params", some (JSVal.obj []))],
      body :=
        [Top.stmt Stmt.newQuery,
         Top.stmt (Stmt.ifAppend (Atom.prop "params" "refresh") "refresh" (Atom.prop "params" "refresh")),
         Top.stmt (Stmt.ifAppend (Atom.prop "params" "project") "project" (Atom.prop "params" "project")),
         Top.returnRequest "GET" [Piece.text "/api/v1/applications/", Piece.hole (Atom.var "name"), Piece.text "?", Piece.hole Atom.queryString] none] }
  | Op.createApplication _ _ _ =>
    { params := [("application", none), ("upsert", some (JSVal.bool false)), ("validate", some (JSVal.bool true))],
      body :=
        [Top.stmt Stmt.newQuery,
         Top.stmt (Stmt.ifAppend (Atom.var "upsert") "upsert" (Atom.str "true")),
         Top.stmt (Stmt.ifAppend (Atom.notVar "validate") "validate" (Atom.str "false")),
         Top.returnRequest "POST" [Piece.text "/api/v1/applications?", Piece.hole Atom.queryString] (some "application")] }
  | Op.deleteApplication _ _ =>
    { params := [("name", none), ("params", some (JSVal.obj []))],
      body :=
        [Top.stmt Stmt.newQuery,
         Top.stmt (Stmt.ifAppend (Atom.prop "params" "cascade") "cascade" (Atom.str "true")),
         Top.stmt (Stmt.ifAppend (Atom.prop "params" "propagationPolicy") "propagationPolicy" (Atom.prop "params" "propagationPolicy")),
         Top.returnRequest "DELETE" [Piece.text "/api/v1/applications/", Piece.hole (Atom.var "name"), Piece.text "?", Piece.hole Atom.queryString] none] }
  | Op.updateApplication _ _ _ =>
    { params := [("name", none), ("application", none), ("validate", some (JSVal.bool true))],
      body :=
        [Top.stmt Stmt.newQuery,
         Top.stmt (Stmt.ifAppend (Atom.notVar "validate") "validate" (Atom.str "false")),
         Top.returnRequest "PUT" [Piece.text "/api/v1/applications/", Piece.hole (Atom.var "name"), Piece.text "?", Piece.hole Atom.queryString] (some "application")] }
  | Op.syncApplication _ _ =>
    { params := [("name", none), ("params", some (JSVal.obj []))],
      body :=
        [Top.stmt Stmt.newQuery,
         Top.stmt (Stmt.ifAppend (Atom.prop "params" "dryRun") "dryRun" (Atom.str "true")),
         Top.stmt (Stmt.ifAppend (Atom.prop "params" "prune") "prune" (Atom.str "true")),
         Top.stmt (Stmt.ifAppend (Atom.prop "params" "strategy") "strategy" (Atom.prop "params" "strategy")),
         Top.stmt (Stmt.ifForEach (Atom.prop "params" "resources") (Atom.prop "params" "resources") "resources"),
         Top.returnRequest "POST" [Piece.text "/api/v1/applications/", Piece.hole (Atom.var "name"), Piece.text "/sync?", Piece.hole Atom.queryString] none] }
  | Op.getApplicationManifests _ _ =>
    { params := [("name", none), ("params", some (JSVal.obj []))],
      body :=
        [Top.stmt Stmt.newQuery,
         Top.stmt (Stmt.ifAppend (Atom.prop "params" "revision") "revision" (Atom.prop "params" "revision")),
         Top.returnRequest "GET" [Piece.text "/api/v1/applications/", Piece.hole (Atom.var "name"), Piece.text "/manifests?", Piece.hole Atom.queryString] none] }
  | Op.getApplicationResource _ _ =>
    { params := [("name", none), ("params", none)],
      body :=
        [Top.stmt Stmt.newQuery,
         Top.stmt (Stmt.append "namespace" (Atom.prop "params" "namespace")),
         Top.stmt (Stmt.append "resourceName" (Atom.prop "params" "resourceName")),
         Top.stmt (Stmt.append "version" (Atom.prop "params" "version")),
         Top.stmt (Stmt.append "kind" (Atom.prop "params" "kind")),
         Top.stmt (Stmt.ifAppend (Atom.prop "params" "group") "group" (Atom.prop "params" "group")),
         Top.returnRequest "GET" [Piece.text "/api/v1/applications/", Piece.hole (Atom.var "name"), Piece.text "/resource?", Piece.hole Atom.queryString] none] }
  | Op.listApplicationEvents _ _ =>
    { params := [("name", none), ("params", some (JSVal.obj []))],
      body :=
        [Top.stmt Stmt.newQuery,
         Top.stmt (Stmt.ifAppend (Atom.prop "params" "resourceNamespace") "resourceNamespace" (Atom.prop "params" "resourceNamespace")),
         Top.stmt (Stmt.ifAppend (Atom.prop "params" "resourceName") "resourceName" (Atom.prop "params" "resourceName")),
         Top.stmt (Stmt.ifAppend (Atom.prop "params" "resourceUID") "resourceUID" (Atom.prop "params" "resourceUID")),
         Top.returnRequest "GET" [Piece.text "/api/v1/applications/", Piece.hole (Atom.var "name"), Piece.text "/events?", Piece.hole Atom.queryString] none] }
  | Op.listApplicationResourceActions _ _ =>
    { params := [("name", none), ("params", none)],
      body :=
        [Top.stmt Stmt.newQuery,
         Top.stmt (Stmt.append "namespace" (Atom.prop "params" "namespace")),
         Top.stmt (Stmt.append "resourceName" (Atom.prop "params" "resourceName")),
         Top.stmt (Stmt.append "version" (Atom.prop "params" "version")),
         Top.stmt (Stmt.append "kind" (Atom.prop "params" "kind")),
         Top.stmt (Stmt.ifAppend (Atom.prop "params" "group") "group" (Atom.prop "params" "group")),
         Top.returnRequest "GET" [Piece.text "/api/v1/applications/", Piece.hole (Atom.var "name"), Piece.text "/resource/actions?", Piece.hole Atom.queryString] none] }
  | Op.runApplicationResourceAction _ _ =>
    { params := [("name", none), ("params", none)],
      body :=
        [Top.stmt Stmt.newQuery,
         Top.stmt (Stmt.append "namespace" (Atom.prop "params" "namespace")),
         Top.stmt (Stmt.append "resourceName" (Atom.prop "params" "resourceName")),
         Top.stmt (Stmt.append "version" (Atom.prop "params" "version")),
         Top.stmt (Stmt.append "kind" (Atom.prop "params" "kind")),
         Top.stmt (Stmt.append "action" (Atom.prop "params" "action")),
         Top.stmt (Stmt.ifAppend (Atom.prop "params" "group") "group" (Atom.prop "params" "group")),
         Top.returnRequest "POST" [Piece.text "/api/v1/applications/", Piece.hole (Atom.var "name"), Piece.text "/resource/actions?", Piece.hole Atom.queryString] none] }
  | Op.listClusters _ =>
    { params := [("params", some (JSVal.obj []))],
      body :=
        [Top.stmt Stmt.newQuery,
         Top.stmt (Stmt.ifAppend (Atom.prop "params" "server") "server" (Atom.prop "params" "server")),
         Top.stmt (Stmt.ifAppend (Atom.prop "params" "name") "name" (Atom.prop "params" "name")),
         Top.returnRequest "GET" [Piece.text "/api/v1/clusters?", Piece.hole Atom.queryString] none] }
  | Op.createCluster _ _ =>
    { params := [("cluster", none), ("upsert", some (JSVal.bool false))],
      body :=
        [Top.stmt Stmt.newQuery,
         Top.stmt (Stmt.ifAppend (Atom.var "upsert") "upsert" (Atom.str "true")),
         Top.returnRequest "POST" [Piece.text "/api/v1/clusters?", Piece.hole Atom.queryString] (some "cluster")] }
  | Op.getCluster _ =>
    { params := [("server", none)],
      body :=
        [Top.returnRequest "GET" [Piece.text "/api/v1/clusters/", Piece.hole (Atom.var "server")] none] }
  | Op.updateCluster _ _ _ =>
    { params := [("server", none), ("cluster", none), ("params", some (JSVal.obj []))],
      body :=
        [Top.stmt Stmt.newQuery,
         Top.stmt (Stmt.ifAppend (Atom.prop "params" "updatedFields") "updatedFields" (Atom.prop "params" "updatedFields")),
         Top.returnRequest "PUT" [Piece.text "/api/v1/clusters/", Piece.hole (Atom.var "server"), Piece.text "?", Piece.hole Atom.queryString] (some "cluster")] }
  | Op.deleteCluster _ _ =>
    { params := [("server", none), ("params", some (JSVal.obj []))],
      body :=
        [Top.stmt Stmt.newQuery,
         Top.stmt (Stmt.ifAppend (Atom.prop "params" "name") "name" (Atom.prop "params" "name")),
         Top.returnRequest "DELETE" [Piece.text "/api/v1/clusters/", Piece.hole (Atom.var "server"), Piece.text "?", Piece.hole Atom.queryString] none] }
  | Op.rotateAuth _ =>
    { params := [("server", none)],
      body :=
        [Top.returnRequest "POST" [Piece.text "/api/v1/clusters/", Piece.hole (Atom.var "server"), Piece.text "/rotate-auth"] none] }
  | Op.invalidateCache _ =>
    { params := [("server", none)],
      body :=
        [Top.returnRequest "POST" [Piece.text "/api/v1/clusters/", Piece.hole (Atom.var "server"), Piece.text "/invalidate-cache"] none] }
  | Op.listGPGKeys _ =>
    { params := [("params", some (JSVal.obj []))],
      body :=
        [Top.stmt Stmt.newQuery,
         Top.stmt (Stmt.ifAppend (Atom.prop "params" "keyID") "keyID" (Atom.prop "params" "keyID")),
         Top.returnRequest "GET" [Piece.text "/api/v1/gpgkeys?", Piece.hole Atom.queryString] none] }
  | Op.createGPGKey _ =>
    { params := [("key", none)],
      body :=
        [Top.returnRequest "POST" [Piece.text "/api/v1/gpgkeys"] (some "key")] }
  | Op.deleteGPGKey _ =>
    { params := [("keyID", none)],
      body :=
        [Top.returnRequest "DELETE" [Piece.text "/api/v1/gpgkeys/", Piece.hole (Atom.var "keyID")] none] }
  | Op.getGPGKey _ =>
    { params := [("keyID", none)],
      body :=
        [Top.returnRequest "GET" [Piece.text "/api/v1/gpgkeys/", Piece.hole (Atom.var "keyID")] none] }
  | Op.listProjects _ =>
    { params := [("params", some (JSVal.obj []))],
      body :=
        [Top.stmt Stmt.newQuery,
         Top.stmt (Stmt.ifAppend (Atom.prop "params" "name") "name" (Atom.prop "params" "name")),
         Top.returnRequest "GET" [Piece.text "/api/v1/projects?", Piece.hole Atom.queryString] none] }
  | Op.createProject _ =>
    { params := [("project", none)],
      body :=
        [Top.returnRequest "POST" [Piece.text "/api/v1/projects"] (some "project")] }
  | Op.getProject _ =>
    { params := [("name", none)],
      body :=
        [Top.returnRequest "GET" [Piece.text "/api/v1/projects/", Piece.hole (Atom.var "name")] none] }
  | Op.updateProject _ _ =>
    { params := [("name", none), ("project", none)],
      body :=
        [Top.returnRequest "PUT" [Piece.text "/api/v1/projects/", Piece.hole (Atom.var "name")] (some "project")] }
  | Op.deleteProject _ =>
    { params := [("name", none)],
      body :=
        [Top.returnRequest "DELETE" [Piece.text "/api/v1/projects/", Piece.hole (Atom.var "name")] none] }
  | Op.getDetailedProject _ =>
    { params := [("name", none)],
      body :=
        [Top.returnRequest "GET" [Piece.text "/api/v1/projects/", Piece.hole (Atom.var "name"), Piece.text "/detailed"] none] }
  | Op.getSyncWindowsState _ =>
    { params := [("name", none)],
      body :=
        [Top.returnRequest "GET" [Piece.text "/api/v1/projects/", Piece.hole (Atom.var "name"), Piece.text "/syncwindows"] none] }
  | Op.getGlobalProjects =>
    { params := [],
      body :=
        [Top.returnRequest "GET" [Piece.text "/api/v1/projects/global"] none] }
  | Op.getProjectEvents _ =>
    { params := [("name", none)],
      body :=
        [Top.returnRequest "GET" [Piece.text "/api/v1/projects/", Piece.hole (Atom.var "name"), Piece.text "/events"] none] }
  | Op.listRepositories _ =>
    { params := [("params", some (JSVal.obj []))],
      body :=
        [Top.stmt Stmt.newQuery,
         Top.stmt (Stmt.ifAppend (Atom.prop "params" "repo") "repo" (Atom.prop "params" "repo")),
         Top.stmt (Stmt.ifAppend (Atom.prop "params" "forceRefresh") "forceRefresh" (Atom.str "true")),
         Top.returnRequest "GET" [Piece.text "/api/v1/repositories?", Piece.hole Atom.queryString] none] }
  | Op.createRepository _ _ _ =>
    { params := [("repository", none), ("upsert", some (JSVal.bool false)), ("credsOnly", some (JSVal.bool false))],
      body :=
        [Top.stmt Stmt.newQuery,
         Top.stmt (Stmt.ifAppend (Atom.var "upsert") "upsert" (Atom.str "true")),
         Top.stmt (Stmt.ifAppend (Atom.var "credsOnly") "credsOnly" (Atom.str "true")),
         Top.returnRequest "POST" [Piece.text "/api/v1/repositories?", Piece.hole Atom.queryString] (some "repository")] }
  | Op.getRepository _ _ =>
    { params := [("repo", none), ("forceRefresh", some (JSVal.bool false))],
      body :=
        [Top.stmt Stmt.newQuery,
         Top.stmt (Stmt.ifAppend (Atom.var "forceRefresh") "forceRefresh" (Atom.str "true")),
         Top.returnRequest "GET" [Piece.text "/api/v1/repositories/", Piece.hole (Atom.var "repo"), Piece.text "?", Piece.hole Atom.queryString] none] }
  | Op.updateRepository _ _ =>
    { params := [("repo", none), ("repository", none)],
      body :=
        [Top.returnRequest "PUT" [Piece.text "/api/v1/repositories/", Piece.hole (Atom.var "repo")] (some "repository")] }
  | Op.deleteRepository _ =>
    { params := [("repo", none)],
      body :=
        [Top.returnRequest "DELETE" [Piece.text "/api/v1/repositories/", Piece.hole (Atom.var "repo")] none] }
  | Op.listApps _ _ =>
    { params := [("repo", none), ("params", some (JSVal.obj []))],
      body :=
        [Top.stmt Stmt.newQuery,
         Top.stmt (Stmt.ifAppend (Atom.prop "params" "revision") "revision" (Atom.prop "params" "revision")),
         Top.returnRequest "GET" [Piece.text "/api/v1/repositories/", Piece.hole (Atom.var "repo"), Piece.text "/apps?", Piece.hole Atom.queryString] none] }
  | Op.getAppDetails _ _ =>
    { params := [("repo", none), ("params", none)],
      body :=
        [Top.stmt Stmt.newQuery,
         Top.stmt (Stmt.append "path" (Atom.prop "params" "path")),
         Top.stmt (Stmt.ifAppend (Atom.prop "params" "revision") "revision" (Atom.prop "params" "revision")),
         Top.returnRequest "GET" [Piece.text "/api/v1/repositories/", Piece.hole (Atom.var "repo"), Piece.text "/appdetails?", Piece.hole Atom.queryString] none] }
  | Op.getHelmCharts _ =>
    { params := [("repo", none)],
      body :=
        [Top.returnRequest "GET" [Piece.text "/api/v1/repositories/", Piece.hole (Atom.var "repo"), Piece.text "/helmcharts"] none] }
  | Op.listRefs _ =>
    { params := [("repo", none)],
      body :=
        [Top.returnRequest "GET" [Piece.text "/api/v1/repositories/", Piece.hole (Atom.var "repo"), Piece.text "/refs"] none] }
  | Op.listAccounts =>
    { params := [],
      body :=
        [Top.returnRequest "GET" [Piece.text "/api/v1/account"] none] }
  | Op.canI _ _ _ =>
    { params := [("resource", none), ("action", none), ("subresource", none)],
      body :=
        [Top.returnRequest "GET" [Piece.text "/api/v1/account/can-i/", Piece.hole (Atom.var "resource"), Piece.text "/", Piece.hole (Atom.var "action"), Piece.text "/", Piece.hole (Atom.var "subresource")] none] }
  | Op.updatePassword _ =>
    { params := [("request", none)],
      body :=
        [Top.returnRequest "PUT" [Piece.text "/api/v1/account/password"] (some "request")] }
  | Op.getAccount _ =>
    { params := [("name", none)],
      body :=
        [Top.returnRequest "GET" [Piece.text "/api/v1/account/", Piece.hole (Atom.var "name")] none] }
  | Op.createToken _ _ =>
    { params := [("name", none), ("request", none)],
      body :=
        [Top.returnRequest "POST" [Piece.text "/api/v1/account/", Piece.hole (Atom.var "name"), Piece.text "/token"] (some "request")] }
  | Op.deleteToken _ _ =>
    { params := [("name", none), ("id", none)],
      body :=
        [Top.returnRequest "DELETE" [Piece.text "/api/v1/account/", Piece.hole (Atom.var "name"), Piece.text "/token/", Piece.hole (Atom.var "id")] none] }
  | Op.listUsers =>
    { params := [],
      body :=
        [Top.returnRequest "GET" [Piece.text "/api/v1/users"] none] }
  | Op.getUser _ =>
    { params := [("name", none)],
      body :=
        [Top.returnRequest "GET" [Piece.text "/api/v1/users/", Piece.hole (Atom.var "name")] none] }
  | Op.createUser _ =>
    { params := [("user", none)],
      body :=
        [Top.returnRequest "POST" [Piece.text "/api/v1/users"] (some "user")] }
  | Op.updateUser _ _ =>
    { params := [("name", none), ("user", none)],
      body :=
        [Top.returnRequest "PUT" [Piece.text "/api/v1/users/", Piece.hole (Atom.var "name")] (some "user")] }
  | Op.deleteUser _ =>
    { params := [("name", none)],
      body :=
        [Top.returnRequest "DELETE" [Piece.text "/api/v1/users/", Piece.hole (Atom.var "name")] none] }
  | Op.listServices =>
    { params := [],
      body :=
        [Top.returnRequest "GET" [Piece.text "/api/v1/notifications/services"] none] }
  | Op.listTemplates =>
    { params := [],
      body :=
        [Top.returnRequest "GET" [Piece.text "/api/v1/notifications/templates"] none] }
  | Op.listTriggers =>
    { params := [],
      body :=
        [Top.returnRequest "GET" [Piece.text "/api/v1/notifications/triggers"] none] }
  | Op.getSettings =>
    { params := [],
      body :=
        [Top.returnRequest "GET" [Piece.text "/api/v1/settings"] none] }
  | Op.getVersion =>
    { params := [],
      body :=
        [Top.returnRequest "GET" [Piece.text "/api/v1/version"] none] }
  | Op.createSession _ =>
    { params := [("session", none)],
      body :=
        [Top.returnRequest "POST" [Piece.text "/api/v1/session"] (some "session")] }
  | Op.deleteSession =>
    { params := [],
      body :=
        [Top.returnRequest "DELETE" [Piece.text "/api/v1/session"] none] }
  | Op.getUserInfo =>
    { params := [],
      body :=
        [Top.returnRequest "GET" [Piece.text "/api/v1/session/userinfo"] none] }
  | Op.listCertificates _ =>
    { params := [("params", some (JSVal.obj []))],
      body :=
        [Top.stmt Stmt.newQuery,
         Top.stmt (Stmt.ifAppend (Atom.prop "params" "hostNamePattern") "hostNamePattern" (Atom.prop "params" "hostNamePattern")),
         Top.stmt (Stmt.ifAppend (Atom.prop "params" "certType") "certType" (Atom.prop "params" "certType")),
         Top.stmt (Stmt.ifAppend (Atom.prop "params" "certSubType") "certSubType" (Atom.prop "params" "certSubType")),
         Top.returnRequest "GET" [Piece.text "/api/v1/certificates?", Piece.hole Atom.queryString] none] }
  | Op.createCertificate _ =>
    { params := [("certificate", none)],
      body :=
        [Top.returnRequest "POST" [Piece.text "/api/v1/certificates"] (some "certificate")] }
  | Op.deleteCertificate _ _ _ =>
    { params := [("hostNamePattern", none), ("certType", none), ("certSubType", none)],
      body :=
        [Top.stmt Stmt.newQuery,
         Top.stmt (Stmt.append "hostNamePattern" (Atom.var "hostNamePattern")),
         Top.stmt (Stmt.append "certType" (Atom.var "certType")),
         Top.stmt (Stmt.append "certSubType" (Atom.var "certSubType")),
         Top.returnRequest "DELETE" [Piece.text "/api/v1/certificates?", Piece.hole Atom.queryString] none] }

/-- The arguments of a call, as JavaScript values in the order of the parameters. -/
def Op.arguments : Op → List JSVal
  | Op.listApplications params => [optionalObj params]
  | Op.getApplication name params => [JSVal.str name, optionalObj params]
  | Op.createApplication application upsert validate => [application, upsert, validate]
  | Op.deleteApplication name params => [JSVal.str name, optionalObj params]
  | Op.updateApplication name application validate => [JSVal.str name, application, validate]
  | Op.syncApplication name params => [JSVal.str name, optionalObj params]
  | Op.getApplicationManifests name params => [JSVal.str name, optionalObj params]
  | Op.getApplicationResource name params => [JSVal.str name, JSVal.obj params]
  | Op.listApplicationEvents name params => [JSVal.str name, optionalObj params]
  | Op.listApplicationResourceActions name params => [JSVal.str name, JSVal.obj params]
  | Op.runApplicationResourceAction name params => [JSVal.str name, JSVal.obj params]
  | Op.listClusters params => [optionalObj params]
  | Op.createCluster cluster upsert => [cluster, upsert]
  | Op.getCluster server => [JSVal.str server]
  | Op.updateCluster server cluster params => [JSVal.str server, cluster, optionalObj params]
  | Op.deleteCluster server params => [JSVal.str server, optionalObj params]
  | Op.rotateAuth server => [JSVal.str server]
  | Op.invalidateCache server => [JSVal.str server]
  | Op.listGPGKeys params => [optionalObj params]
  | Op.createGPGKey key => [key]
  | Op.deleteGPGKey keyID => [JSVal.str keyID]
  | Op.getGPGKey keyID => [JSVal.str keyID]
  | Op.listProjects params => [optionalObj params]
  | Op.createProject project => [project]
  | Op.getProject name => [JSVal.str name]
  | Op.updateProject name project => [JSVal.str name, project]
  | Op.deleteProject name => [JSVal.str name]
  | Op.getDetailedProject name => [JSVal.str name]
  | Op.getSyncWindowsState name => [JSVal.str name]
  | Op.getGlobalProjects => []
  | Op.getProjectEvents name => [JSVal.str name]
  | Op.listRepositories params => [optionalObj params]
  | Op.createRepository repository upsert credsOnly => [repository, upsert, credsOnly]
  | Op.getRepository repo forceRefresh => [JSVal.str repo, forceRefresh]
  | Op.updateRepository repo repository => [JSVal.str repo, repository]
  | Op.deleteRepository repo => [JSVal.str repo]
  | Op.listApps repo params => [JSVal.str repo, optionalObj params]
  | Op.getAppDetails repo params => [JSVal.str repo, JSVal.obj params]
  | Op.getHelmCharts repo => [JSVal.str repo]
  | Op.listRefs repo => [JSVal.str repo]
  | Op.listAccounts => []
  | Op.canI resource action subresource => [JSVal.str resource, JSVal.str action, JSVal.str subresource]
  | Op.updatePassword request => [request]
  | Op.getAccount name => [JSVal.str name]
  | Op.createToken name request => [JSVal.str name, request]
  | Op.deleteToken name id => [JSVal.str name, JSVal.str id]
  | Op.listUsers => []
  | Op.getUser name => [JSVal.str name]
  | Op.createUser user => [user]
  | Op.updateUser name user => [JSVal.str name, user]
  | Op.deleteUser name => [JSVal.str name]
  | Op.listServices => []
  | Op.listTemplates => []
  | Op.listTriggers => []
  | Op.getSettings => []
  | Op.getVersion => []
  | Op.createSession session => [session]
  | Op.deleteSession => []
  | Op.getUserInfo => []
  | Op.listCertificates params => [optionalObj params]
  | Op.createCertificate certificate => [certificate]
  | Op.deleteCertificate hostNamePattern certType certSubType => [hostNamePattern, certType, certSubType]

/-- One call on the instance with fields `this`: the fields after the call, and what
the call did. -/
def Call.run (rt : Runtime) (this : Obj) : Call → Obj × Outcome
  | Call.wrapper op =>
    let r := invoke rt op.program this op.arguments
    (r.1.this, outcomeOf r)
  | Call.request method path options =>
    let r := invokeRequest rt
      { this := this, vars := [], query := URLSearchParams.new, response := none,
        requests := [], fetches := [] } method path options
    (r.1.this, outcomeOf r)

/-- A sequence of calls on one instance, each against the host as it is at that time
and on the fields left by the call before: the fields after the last call, and the
outcomes in order. -/
def runCalls (this : Obj) : List (Runtime × Call) → Obj × List Outcome
  | [] => (this, [])
  | (rt, call) :: rest =>
    let first := call.run rt this
    let others := runCalls first.1 rest
    (others.1, first.2 :: others.2)

/-! ## Lemmas on the request core -/

/-- The `init` object when `options` is absent or empty: method and default headers. -/
theorem init_nil (self : BaseService) (method : String) :
    self.init method [] =
      [("method", JSVal.str method),
       ("headers", JSVal.obj
          [("Authorization", JSVal.str ("Bearer " ++ self.token)),
           ("Content-Type", JSVal.str "application/json")])] := by
  rfl

/-- The `init` object when `options` is `{ body }`: the body is added after the
method and the default headers. -/
theorem init_body (self : BaseService) (method : String) (b : JSVal) :
    self.init method [("body", b)] =
      [("method", JSVal.str method),
       ("headers", JSVal.obj
          [("Authorization", JSVal.str ("Bearer " ++ self.token)),
           ("Content-Type", JSVal.str "application/json")]),
       ("body", b)] := by
  rfl

/-- The `init` object when `options` is `{ headers: h }`: the spread of `options`
writes `h` over the merged headers. -/
theorem init_headers (self : BaseService) (method : String) (h : JSVal) :
    self.init method [("headers", h)] =
      [("method", JSVal.str method), ("headers", h)] := by
  rfl

/-- Every call of `_request` records itself as its only invocation. -/
theorem request_requests (self : BaseService) (rt : Runtime) (method path : String)
    (options : Option Obj) :
    (self._request rt method path options).requests =
      [{ method := method, path := path, options := options }] := by
  unfold BaseService._request
  cases rt.URL path self.baseUrl with
  | error e => rfl
  | ok url =>
    dsimp only
    cases rt.fetch url (self.init method (options.getD [])) with
    | rejected e => rfl
    | fulfilled response => cases hok : response.ok <;> simp [hok]

/-- A call of `_request` whose URL is constructed invokes `fetch` exactly once, with
that URL and the `init` object. -/
theorem request_fetches (self : BaseService) (rt : Runtime) (method path : String)
    (options : Option Obj) (url : String) (hu : rt.URL path self.baseUrl = Except.ok url) :
    (self._request rt method path options).fetches =
      [{ url := url, init := self.init method (options.getD []) }] := by
  unfold BaseService._request
  rw [hu]
  dsimp only
  cases rt.fetch url (self.init method (options.getD [])) with
  | rejected e => rfl
  | fulfilled response => cases hok : response.ok <;> simp [hok]

/-- The result of `_request` once `fetch` has resolved: the status error for a
response that is not ok, the decoded body otherwise. -/
theorem request_result (self : BaseService) (rt : Runtime) (method path : String)
    (options : Option Obj) (url : String) (response : Response)
    (hu : rt.URL path self.baseUrl = Except.ok url)
    (hf : rt.fetch url (self.init method (options.getD [])) = Settled.fulfilled response) :
    (self._request rt method path options).result =
      if response.ok then response.json
      else Settled.rejected
        (Thrown.Error ("HTTP error! status: " ++ toString response.status)) := by
  unfold BaseService._request
  rw [hu]
  dsimp only
  rw [hf]
  cases hok : response.ok <;> simp [hok]

/-- Every wrapper either calls `_request` without options, or calls it with the
options `{ body: JSON.stringify(o) }`, and returns what that call returns, or throws
before making any request. -/
theorem perform_shape (self : BaseService) (rt : Runtime) (op : Op) :
    (∃ m p, op.perform self rt = self._request rt m p none) ∨
      (∃ m p o, op.perform self rt =
        self._request rt m p (some [("body", rt.JSON_stringify o)])) ∨
      (∃ e, op.perform self rt =
        { requests := [], fetches := [], result := Settled.rejected e }) := by
  cases op
  case listApplications params =>
    simp only [Op.perform, ApplicationService.listApplications]
    split
    · right; right; exact ⟨_, rfl⟩
    · left; exact ⟨_, _, rfl⟩
  case syncApplication name params =>
    simp only [Op.perform, ApplicationService.syncApplication]
    split
    · right; right; exact ⟨_, rfl⟩
    · left; exact ⟨_, _, rfl⟩
  all_goals
    first
    | exact Or.inl ⟨_, _, rfl⟩
    | exact Or.inr (Or.inl ⟨_, _, _, rfl⟩)

/-- Every wrapper either hands its arguments to `_request` and returns what that call
returns, or throws before making any request. -/
theorem perform_cases (self : BaseService) (rt : Runtime) (op : Op) :
    (∃ m p o, op.perform self rt = self._request rt m p o) ∨
      (∃ e, op.perform self rt =
        { requests := [], fetches := [], result := Settled.rejected e }) := by
  rcases perform_shape self rt op with ⟨m, p, hp⟩ | ⟨m, p, o, hp⟩ | ⟨e, hp⟩
  · exact Or.inl ⟨m, p, none, hp⟩
  · exact Or.inl ⟨m, p, _, hp⟩
  · exact Or.inr ⟨e, hp⟩

/-- A call of `_request` that invoked `fetch` constructed its URL first, and passed
the `init` object. -/
theorem request_fetches_inv (self : BaseService) (rt : Runtime) (method path : String)
    (options : Option Obj) (call : FetchCall)
    (h : (self._request rt method path options).fetches = [call]) :
    rt.URL path self.baseUrl = Except.ok call.url ∧
      call.init = self.init method (options.getD []) := by
  cases hu : rt.URL path self.baseUrl with
  | error e =>
    unfold BaseService._request at h
    rw [hu] at h
    simp at h
  | ok url =>
    rw [request_fetches self rt method path options url hu] at h
    simp only [List.cons.injEq, and_true] at h
    subst h
    exact ⟨rfl, rfl⟩

/-! ## Lemmas on query construction -/

/-- The statement `if (params.k) queryParams.append(k, params.k)`. -/
theorem append_if_present (q : URLSearchParams) (params : Obj) (k : String) :
    (if (Obj.get params k).truthy = true then q.append k (Obj.get params k) else q) =
      { list := q.list ++ presentEntry params k } := by
  unfold presentEntry URLSearchParams.append
  split <;> simp

/-- The statement `if (params.k) queryParams.append(k, 'true')`. -/
theorem append_if_flag (q : URLSearchParams) (params : Obj) (k : String) :
    (if (Obj.get params k).truthy = true then q.append k (JSVal.str "true") else q) =
      { list := q.list ++ flagEntry params k } := by
  unfold flagEntry URLSearchParams.append
  split <;> simp [JSVal.ToString]

/-- The statement `queryParams.append(k, params.k)`. -/
theorem append_required (q : URLSearchParams) (params : Obj) (k : String) :
    q.append k (Obj.get params k) = { list := q.list ++ requiredEntry params k } := by
  rfl

/-- The loop `xs.forEach(x => queryParams.append(k, x))`. -/
theorem foldl_append (k : String) (xs : List JSVal) (q : URLSearchParams) :
    xs.foldl (fun acc x => acc.append k x) q = { list := q.list ++ listEntries k xs } := by
  induction xs generalizing q with
  | nil => simp [listEntries]
  | cons x rest ih =>
    rw [List.foldl_cons, ih]
    simp [listEntries, URLSearchParams.append]

/-- The statement `if (params.k) params.k.forEach(...)` on an array. -/
theorem forEach_array (q : URLSearchParams) (params : Obj) (k : String) (xs : List JSVal)
    (h : Obj.get params k = JSVal.arr xs) :
    (if (Obj.get params k).truthy = true then forEachAppend q k (Obj.get params k)
      else Except.ok q) = Except.ok { list := q.list ++ listEntries k xs } := by
  rw [h]
  simp [JSVal.truthy, forEachAppend, foldl_append]

/-- The statement `if (params.k) params.k.forEach(...)` on a falsy value. -/
theorem forEach_falsy (q : URLSearchParams) (params : Obj) (k : String)
    (h : (Obj.get params k).truthy = false) :
    (if (Obj.get params k).truthy = true then forEachAppend q k (Obj.get params k)
      else Except.ok q) = Except.ok q := by
  simp [h]

/-- The code of `Char.ofNat n` is `n`, or `0` when `n` is not a scalar value. -/
theorem toNat_ofNat_or (n : Nat) : (Char.ofNat n).toNat = n ∨ (Char.ofNat n).toNat = 0 := by
  unfold Char.ofNat
  split
  · left; rfl
  · right; rfl

/-- A hexadecimal digit is neither `&` nor `=`. -/
theorem hexDigit_ne (n : Nat) : (hexDigit n).toNat ≠ 38 ∧ (hexDigit n).toNat ≠ 61 := by
  unfold hexDigit
  split
  · rcases toNat_ofNat_or (48 + n) with h | h <;> rw [h] <;> omega
  · rcases toNat_ofNat_or (55 + n) with h | h <;> rw [h] <;> omega

/-- No character produced for a byte by the serializer is `&` or `=`. -/
theorem urlencodedByte_ne (b : Nat) (x : Char) (hx : x ∈ urlencodedByte b) :
    x.toNat ≠ 38 ∧ x.toNat ≠ 61 := by
  unfold urlencodedByte at hx
  split at hx
  · simp at hx; subst hx; decide
  · split at hx
    · rename_i hs
      simp at hx; subst hx
      simp [urlencodedSafe] at hs
      rcases toNat_ofNat_or b with h | h <;> rw [h] <;> omega
    · simp [percentByte] at hx
      rcases hx with rfl | rfl | rfl
      · decide
      · exact hexDigit_ne _
      · exact hexDigit_ne _

/-- No character of a serialized name or value is `&` or `=`. -/
theorem urlencodedChars_ne (cs : List Char) (x : Char) (hx : x ∈ urlencodedChars cs) :
    x.toNat ≠ 38 ∧ x.toNat ≠ 61 := by
  induction cs with
  | nil => simp [urlencodedChars] at hx
  | cons c rest ih =>
    simp only [urlencodedChars, List.mem_append, List.mem_flatten, List.mem_map] at hx
    rcases hx with ⟨l, ⟨b, _, rfl⟩, hxl⟩ | hx
    · exact urlencodedByte_ne b x hxl
    · exact ih hx

/-- A serialized pair contains no `&`. -/
theorem serializePair_no_amp (kv : String × String) : '&' ∉ (serializePair kv).data := by
  intro h
  simp only [serializePair, urlencoded, String.data_append, List.mem_append] at h
  rcases h with (h | h) | h
  · exact (urlencodedChars_ne _ _ h).1 (by decide)
  · simp at h
  · exact (urlencodedChars_ne _ _ h).1 (by decide)

/-- A serialized pair is not empty. -/
theorem serializePair_ne_nil (kv : String × String) : (serializePair kv).data ≠ [] := by
  simp [serializePair, String.data_append]

/-- Splitting a list without the separator gives the list itself. -/
theorem splitAt_not_mem (sep : Char) (l : List Char) (h : sep ∉ l) : splitAt sep l = [l] := by
  induction l with
  | nil => rfl
  | cons c rest ih =>
    simp only [List.mem_cons, not_or] at h
    have hc : ¬ c = sep := fun e => h.1 e.symm
    simp [splitAt, hc, ih h.2]

/-- Splitting at the first separator. -/
theorem splitAt_append (sep : Char) (l r : List Char) (h : sep ∉ l) :
    splitAt sep (l ++ sep :: r) = l :: splitAt sep r := by
  induction l with
  | nil => simp [splitAt]
  | cons c rest ih =>
    simp only [List.mem_cons, not_or] at h
    have hc : ¬ c = sep := fun e => h.1 e.symm
    simp [splitAt, hc, ih h.2]

/-- The characters of `String.intercalate.go`. -/
theorem intercalate_go_data (acc sep : String) (l : List String) :
    (String.intercalate.go acc sep l).data =
      acc.data ++ (l.map fun s => sep.data ++ s.data).flatten := by
  induction l generalizing acc with
  | nil => simp [String.intercalate.go]
  | cons a rest ih =>
    simp [String.intercalate.go, ih, String.data_append, List.append_assoc]

/-- Splitting a joined list of pieces that contain no separator gives the pieces. -/
theorem splitAt_joined (a : List Char) (l : List (List Char))
    (ha : '&' ∉ a) (hl : ∀ s ∈ l, '&' ∉ s) :
    splitAt '&' (a ++ (l.map fun s => '&' :: s).flatten) = a :: l := by
  induction l generalizing a with
  | nil => simpa using splitAt_not_mem '&' a ha
  | cons b rest ih =>
    simp only [List.map_cons, List.flatten_cons, List.cons_append]
    rw [splitAt_append '&' a _ ha, ih b (hl b (by simp)) (fun s hs => hl s (by simp [hs]))]

/-- The pieces of a serialized query are the serialized pairs, one per entry and in
order. -/
theorem components_toString (q : URLSearchParams) :
    components q.toString = q.list.map serializePair := by
  unfold components URLSearchParams.toString
  cases hq : q.list with
  | nil => rfl
  | cons kv rest =>
    simp only [List.map_cons, String.intercalate]
    rw [intercalate_go_data]
    have hsplit := splitAt_joined (serializePair kv).data
      ((rest.map serializePair).map String.data) (serializePair_no_amp kv)
      (by
        intro s hs
        simp only [List.mem_map] at hs
        rcases hs with ⟨t, ⟨kv2, _, rfl⟩, rfl⟩
        exact serializePair_no_amp kv2)
    have hmap : (List.map (fun s => "&".data ++ s.data) (List.map serializePair rest)) =
        (List.map (fun s => '&' :: s) ((rest.map serializePair).map String.data)) := by
      simp [List.map_map]
    rw [hmap, hsplit]
    simp only [List.filter_cons, List.map_cons]
    have hne : ∀ s ∈ (rest.map serializePair).map String.data, (!s.isEmpty) = true := by
      intro s hs
      simp only [List.mem_map] at hs
      rcases hs with ⟨t, ⟨kv2, _, rfl⟩, rfl⟩
      have := serializePair_ne_nil kv2
      cases h : (serializePair kv2).data with
      | nil => exact absurd h this
      | cons _ _ => rfl
    have hne0 : (!(serializePair kv).data.isEmpty) = true := by
      have := serializePair_ne_nil kv
      cases h : (serializePair kv).data with
      | nil => exact absurd h this
      | cons _ _ => rfl
    rw [if_pos hne0, List.filter_eq_self.mpr hne]
    simp [List.map_map]

/-- Writing a key that the object does not have appends it. -/
theorem set_fresh (t : Obj) (k : String) (v : JSVal) (h : k ∉ t.map Prod.fst) :
    Obj.set t k v = t ++ [(k, v)] := by
  induction t with
  | nil => rfl
  | cons kv rest ih =>
    obtain ⟨k0, v0⟩ := kv
    simp only [List.map_cons, List.mem_cons, not_or] at h
    have hk : ¬ k0 = k := fun e => h.1 e.symm
    simp [Obj.set, hk, ih h.2]

/-- Spreading an object whose keys are pairwise distinct and new to the target appends
its properties. -/
theorem spread_fresh (ps t : Obj) (hnd : (ps.map Prod.fst).Nodup)
    (hd : ∀ k ∈ ps.map Prod.fst, k ∉ t.map Prod.fst) :
    spread t (JSVal.obj ps) = t ++ ps := by
  unfold spread spreadSource
  induction ps generalizing t with
  | nil => simp
  | cons kv rest ih =>
    obtain ⟨k, v⟩ := kv
    simp only [List.map_cons, List.nodup_cons] at hnd
    simp only [List.foldl_cons]
    rw [set_fresh t k v (hd k (by simp))]
    rw [ih (t ++ [(k, v)]) hnd.2]
    · simp
    · intro k2 hk2
      simp only [List.map_append, List.map_cons, List.map_nil, List.mem_append,
        List.mem_singleton, not_or]
      refine ⟨hd k2 (by simp [hk2]), ?_⟩
      intro e
      subst e
      exact hnd.1 hk2

/-- Reading a key that the object does not have gives `undefined`. -/
theorem get_fresh (o : Obj) (k : String) (h : k ∉ o.map Prod.fst) :
    Obj.get o k = JSVal.undefined := by
  unfold Obj.get
  induction o with
  | nil => rfl
  | cons kv rest ih =>
    obtain ⟨k0, v0⟩ := kv
    simp only [List.map_cons, List.mem_cons, not_or] at h
    have hk : (k == k0) = false := by simpa using h.1
    simp only [List.lookup, hk]
    exact ih h.2

/-- The `init` object when `options` has pairwise distinct keys, none of them `method`
or `headers`: method and default headers, followed by the properties of `options`. -/
theorem init_fresh (self : BaseService) (method : String) (options : Obj)
    (hnd : (options.map Prod.fst).Nodup) (hh : "headers" ∉ options.map Prod.fst)
    (hm : "method" ∉ options.map Prod.fst) :
    self.init method options =
      [("method", JSVal.str method), ("headers", defaultHeaders self.token)] ++ options := by
  unfold BaseService.init BaseService.headers
  rw [get_fresh options "headers" hh]
  rw [spread_fresh options _ hnd]
  · rfl
  · intro k hk
    simp only [List.map_cons, List.map_nil, List.mem_cons, List.mem_singleton,
      List.not_mem_nil, or_false, not_or]
    exact ⟨fun e => hm (e ▸ hk), fun e => hh (e ▸ hk)⟩

/-- Entries of an optional parameter have its key. -/
theorem presentEntry_filter_ne (params : Obj) (k k2 : String) (h : (k == k2) = false) :
    (presentEntry params k).filter (fun e => e.1 == k2) = [] := by
  unfold presentEntry
  split <;> simp [h]

/-- Entries of an optional flag have its key. -/
theorem flagEntry_filter_ne (params : Obj) (k k2 : String) (h : (k == k2) = false) :
    (flagEntry params k).filter (fun e => e.1 == k2) = [] := by
  unfold flagEntry
  split <;> simp [h]

/-- All entries of a list-valued parameter are under its key. -/
theorem listEntries_filter (k : String) (xs : List JSVal) :
    (listEntries k xs).filter (fun e => e.1 == k) = listEntries k xs := by
  unfold listEntries
  rw [List.filter_eq_self]
  intro e he
  simp only [List.mem_map] at he
  rcases he with ⟨x, _, rfl⟩
  simp

/-- Reading the key that was just written gives the written value. -/
theorem get_set_same (t : Obj) (k : String) (v : JSVal) : Obj.get (Obj.set t k v) k = v := by
  induction t with
  | nil => simp [Obj.set, Obj.get, List.lookup]
  | cons kv rest ih =>
    obtain ⟨k0, v0⟩ := kv
    by_cases hk : k0 = k
    · subst hk
      simp [Obj.set, Obj.get, List.lookup]
    · have hk2 : (k == k0) = false := by
        simpa using fun e : k = k0 => hk e.symm
      simp only [Obj.set, hk, if_false]
      unfold Obj.get at ih ⊢
      simp only [List.lookup, hk2]
      exact ih

/-- Writing a key does not change the value read at another key. -/
theorem get_set_other (t : Obj) (k k2 : String) (v : JSVal) (h : k2 ≠ k) :
    Obj.get (Obj.set t k v) k2 = Obj.get t k2 := by
  induction t with
  | nil =>
    have hk : (k2 == k) = false := by simpa using h
    simp [Obj.set, Obj.get, List.lookup, hk]
  | cons kv rest ih =>
    obtain ⟨k0, v0⟩ := kv
    by_cases hk : k0 = k
    · subst hk
      have hk2 : (k2 == k0) = false := by simpa using h
      simp [Obj.set, Obj.get, List.lookup, hk2]
    · simp only [Obj.set, hk, if_false]
      unfold Obj.get at ih ⊢
      by_cases hk3 : k2 = k0
      · subst hk3
        simp [List.lookup]
      · have hk4 : (k2 == k0) = false := by simpa using hk3
        simp only [List.lookup, hk4]
        exact ih

/-- Properties written in sequence leave the other keys as they were. -/
theorem get_foldl_fresh (ps t : Obj) (k : String) (h : k ∉ ps.map Prod.fst) :
    Obj.get (ps.foldl (fun acc kv => Obj.set acc kv.1 kv.2) t) k = Obj.get t k := by
  induction ps generalizing t with
  | nil => rfl
  | cons kv rest ih =>
    simp only [List.map_cons, List.mem_cons, not_or] at h
    rw [List.foldl_cons, ih _ h.2, get_set_other _ _ _ _ h.1]

/-- After the spread of an object with pairwise distinct keys, each of its keys reads
the value it has in that object. -/
theorem get_spread_mem (ps t : Obj) (k : String) (v : JSVal)
    (hnd : (ps.map Prod.fst).Nodup) (hm : (k, v) ∈ ps) :
    Obj.get (spread t (JSVal.obj ps)) k = v := by
  unfold spread spreadSource
  induction ps generalizing t with
  | nil => simp at hm
  | cons kv rest ih =>
    simp only [List.map_cons, List.nodup_cons] at hnd
    rw [List.foldl_cons]
    rcases List.mem_cons.mp hm with e | hm2
    · subst e
      rw [get_foldl_fresh rest _ k hnd.1, get_set_same]
    · exact ih _ hnd.2 hm2

/-- The statement `if (params.k) params.k.forEach(...)` on a truthy value that is not
an array: the call throws. -/
theorem forEach_not_array (q : URLSearchParams) (params : Obj) (k : String)
    (ht : (Obj.get params k).truthy = true) (hn : ∀ xs, Obj.get params k ≠ JSVal.arr xs) :
    (if (Obj.get params k).truthy = true then forEachAppend q k (Obj.get params k)
      else Except.ok q) =
      Except.error (Thrown.TypeError ("params." ++ k ++ ".forEach is not a function")) := by
  rw [if_pos ht]
  cases hv : Obj.get params k with
  | arr xs => exact absurd hv (hn xs)
  | undefined => rfl
  | null => rfl
  | bool b => rfl
  | num n => rfl
  | str s => rfl
  | obj props => rfl

/-! ## Request core: claims C1 to C6 -/

/-- C1, the code as written: when `options` is `{ headers: h }`, the spread
`...options` in the argument of `fetch` writes `h` over the merged headers, so
`fetch` receives `h` alone and the defaults `Authorization` and `Content-Type` are
sent only if `h` itself has them; the same holds whatever else `options` carries. -/
theorem C1_caller_headers_replace_merged (self : BaseService) (rt : Runtime)
    (method path : String) (h : JSVal) (url : String)
    (hu : rt.URL path self.baseUrl = Except.ok url) :
    (self._request rt method path (some [("headers", h)])).fetches =
        [{ url := url, init := [("method", JSVal.str method), ("headers", h)] }] ∧
      (∀ options : Obj, (options.map Prod.fst).Nodup → ("headers", h) ∈ options →
        ∃ init : Obj,
          (self._request rt method path (some options)).fetches =
            [{ url := url, init := init }] ∧
          Obj.get init "headers" = h) := by
  constructor
  · rw [request_fetches self rt method path _ url hu]
    rfl
  · intro options hnd hm
    refine ⟨self.init method options, request_fetches self rt method path _ url hu, ?_⟩
    unfold BaseService.init
    exact get_spread_mem options _ "headers" h hnd hm

/-- C1 at the failing input: with `options = { headers: { 'X-Custom': 'a' } }` the
request carries no `Authorization` header. -/
theorem C1_caller_headers_replace_merged_witness :
    ((BaseService.new testConfig)._request
        (hostWith (mockResolvedValue (jsonResponse true 200 JSVal.null)))
        "GET" "/api/v1/test"
        (some [("headers", JSVal.obj [("X-Custom", JSVal.str "a")])])).fetches =
      [{ url := "https://argocd.example.com/api/v1/test",
         init := [("method", JSVal.str "GET"),
                  ("headers", JSVal.obj [("X-Custom", JSVal.str "a")])] }] :=
  (C1_caller_headers_replace_merged _ _ _ _ _ _ (by decide)).1

/-- C2, the code at the input of the test `should handle errors correctly`: a response
with status 404 and body `{"message": "Not found"}` is rejected with the message
`HTTP error! status: 404`; the body is not read and the message is not the
`Request failed with status code 404: Not found` of the test. -/
theorem C2_not_found_message :
    ((BaseService.new testConfig)._request
        (hostWith (mockResolvedValue
          (jsonResponse false 404 (JSVal.obj [("message", JSVal.str "Not found")]))))
        "GET" "/api/v1/test" none).result =
      Settled.rejected (Thrown.Error "HTTP error! status: 404") := by
  decide

/-- C3: once `fetch` has resolved with a response whose body decodes when it is ok,
`_request` is rejected if and only if the response is not ok; the rejection is
`Error("HTTP error! status: <status>")` with the status in decimal; an ok response
gives the decoded value and so not that error; and `fetch` was invoked exactly once. -/
theorem C3_fails_iff_not_ok (self : BaseService) (rt : Runtime) (method path : String)
    (options : Option Obj) (url : String) (response : Response) (v : JSVal)
    (hu : rt.URL path self.baseUrl = Except.ok url)
    (hf : rt.fetch url (self.init method (options.getD [])) = Settled.fulfilled response)
    (hj : response.ok = true → response.json = Settled.fulfilled v) :
    ((∃ e, (self._request rt method path options).result = Settled.rejected e) ↔
        response.ok = false) ∧
      (response.ok = false →
        (self._request rt method path options).result =
          Settled.rejected
            (Thrown.Error ("HTTP error! status: " ++ Nat.repr response.status))) ∧
      (response.ok = true →
        (self._request rt method path options).result = Settled.fulfilled v) ∧
      (self._request rt method path options).fetches =
        [{ url := url, init := self.init method (options.getD []) }] := by
  have hr := request_result self rt method path options url response hu hf
  refine ⟨?_, ?_, ?_, request_fetches self rt method path options url hu⟩
  · cases hok : response.ok
    · simp [hr, hok]
    · simp [hr, hok, hj hok]
  · intro hok
    rw [hr, hok]
    rfl
  · intro hok
    rw [hr, hok]
    simpa using hj hok

/-- C3 at a concrete input: status 503 gives `HTTP error! status: 503`, after one call
of `fetch`. -/
theorem C3_fails_iff_not_ok_witness :
    ((∃ e, ((BaseService.new testConfig)._request
          (hostWith (mockResolvedValue (jsonResponse false 503 JSVal.null)))
          "GET" "/api/v1/test" none).result = Settled.rejected e) ↔
        (jsonResponse false 503 JSVal.null).ok = false) ∧
      ((jsonResponse false 503 JSVal.null).ok = false →
        ((BaseService.new testConfig)._request
          (hostWith (mockResolvedValue (jsonResponse false 503 JSVal.null)))
          "GET" "/api/v1/test" none).result =
          Settled.rejected
            (Thrown.Error ("HTTP error! status: " ++
              Nat.repr (jsonResponse false 503 JSVal.null).status))) ∧
      ((jsonResponse false 503 JSVal.null).ok = true →
        ((BaseService.new testConfig)._request
          (hostWith (mockResolvedValue (jsonResponse false 503 JSVal.null)))
          "GET" "/api/v1/test" none).result = Settled.fulfilled JSVal.null) ∧
      ((BaseService.new testConfig)._request
          (hostWith (mockResolvedValue (jsonResponse false 503 JSVal.null)))
          "GET" "/api/v1/test" none).fetches =
        [{ url := "https://argocd.example.com/api/v1/test",
           init := (BaseService.new testConfig).init "GET" ((none : Option Obj).getD []) }] :=
  C3_fails_iff_not_ok (BaseService.new testConfig)
    (hostWith (mockResolvedValue (jsonResponse false 503 JSVal.null)))
    "GET" "/api/v1/test" none "https://argocd.example.com/api/v1/test"
    (jsonResponse false 503 JSVal.null) JSVal.null (by decide) (by decide) (by decide)

/-- C4: for a response that is ok and whose body decodes to `v`, `_request` returns
`v`; every wrapper operation whose `fetch` call got that response returns `v` too;
and a wrapper that called `_request` returns exactly what that call returned. -/
theorem C4_ok_response_returned (self : BaseService) (rt : Runtime) (response : Response)
    (v : JSVal) (hok : response.ok = true) (hj : response.json = Settled.fulfilled v) :
    (∀ (method path : String) (options : Option Obj) (url : String),
        rt.URL path self.baseUrl = Except.ok url →
        rt.fetch url (self.init method (options.getD [])) = Settled.fulfilled response →
        (self._request rt method path options).result = Settled.fulfilled v) ∧
      (∀ (op : Op) (call : FetchCall),
        (op.perform self rt).fetches = [call] →
        rt.fetch call.url call.init = Settled.fulfilled response →
        (op.perform self rt).result = Settled.fulfilled v) ∧
      (∀ (op : Op) (a : RequestArgs),
        (op.perform self rt).requests = [a] →
        op.perform self rt = self._request rt a.method a.path a.options) := by
  have core : ∀ (method path : String) (options : Option Obj) (url : String),
      rt.URL path self.baseUrl = Except.ok url →
      rt.fetch url (self.init method (options.getD [])) = Settled.fulfilled response →
      (self._request rt method path options).result = Settled.fulfilled v := by
    intro method path options url hu hf
    rw [request_result self rt method path options url response hu hf, hok]
    simpa using hj
  refine ⟨core, ?_, ?_⟩
  · intro op call hc hf
    rcases perform_cases self rt op with ⟨m, p, o, hp⟩ | ⟨e, hp⟩
    · rw [hp] at hc ⊢
      obtain ⟨hu, hi⟩ := request_fetches_inv self rt m p o call hc
      rw [hi] at hf
      exact core m p o call.url hu hf
    · rw [hp] at hc
      simp at hc
  · intro op a ha
    rcases perform_cases self rt op with ⟨m, p, o, hp⟩ | ⟨e, hp⟩
    · rw [hp] at ha ⊢
      rw [request_requests] at ha
      simp only [List.cons.injEq, and_true] at ha
      subst ha
      rfl
    · rw [hp] at ha
      simp at ha

/-- C4 at the input of the test `should list applications with default parameters`:
`listApplications()` against a status-200 response with body `{"items": []}`
returns `{"items": []}`. -/
theorem C4_ok_response_returned_witness :
    (ApplicationService.listApplications (ApplicationService.new testConfig)
        (hostWith (mockResolvedValue
          (jsonResponse true 200 (JSVal.obj [("items", JSVal.arr [])]))))
        none).result =
      Settled.fulfilled (JSVal.obj [("items", JSVal.arr [])]) :=
  (C4_ok_response_returned (ApplicationService.new testConfig)
      (hostWith (mockResolvedValue
        (jsonResponse true 200 (JSVal.obj [("items", JSVal.arr [])]))))
      (jsonResponse true 200 (JSVal.obj [("items", JSVal.arr [])]))
      (JSVal.obj [("items", JSVal.arr [])]) (by decide) (by decide)).2.1
    (Op.listApplications none)
    { url := "https://argocd.example.com/api/v1/applications?",
      init := [("method", JSVal.str "GET"), ("headers", defaultHeaders "test-token")] }
    (by decide) (by decide)

/-- C5, the code at `deleteSession()` answered with status 204 and an empty body: the
call `_request('DELETE', '/api/v1/session')` fails with the `SyntaxError` of JSON
decoding, where the claim, and the `Empty response` promised by the documentation of
`deleteSession`, require that no error is raised and an empty value is returned. -/
theorem C5_empty_body_rejects :
    ((BaseService.new testConfig)._request
        (hostWith (mockResolvedValue { ok := true, status := 204, body := Body.empty }))
        "DELETE" "/api/v1/session" none).result =
      Settled.rejected (Thrown.SyntaxError "Unexpected end of JSON input") := by
  decide

/-- C6: when `options` carries no headers (it is absent, `{}` or `{ body }`), the
`init` object passed to `fetch` is exactly `{ method, headers }` with the two default
headers, followed by `body` copied as supplied when there is one and by nothing
otherwise; more generally, options without the keys `headers` and `method` are copied
after these two; and every wrapper operation calls `_request` with such options: none,
or `{ body: JSON.stringify(o) }`. -/
theorem C6_init_without_caller_headers (self : BaseService) (rt : Runtime)
    (method path url : String) (hu : rt.URL path self.baseUrl = Except.ok url) :
    (self._request rt method path none).fetches =
        [{ url := url,
           init := [("method", JSVal.str method), ("headers", defaultHeaders self.token)] }] ∧
      (self._request rt method path (some [])).fetches =
        [{ url := url,
           init := [("method", JSVal.str method), ("headers", defaultHeaders self.token)] }] ∧
      (∀ b : JSVal, (self._request rt method path (some [("body", b)])).fetches =
        [{ url := url,
           init := [("method", JSVal.str method), ("headers", defaultHeaders self.token),
                    ("body", b)] }]) ∧
      (∀ options : Obj, (options.map Prod.fst).Nodup →
        "headers" ∉ options.map Prod.fst → "method" ∉ options.map Prod.fst →
        (self._request rt method path (some options)).fetches =
          [{ url := url,
             init := [("method", JSVal.str method), ("headers", defaultHeaders self.token)]
               ++ options }]) ∧
      (∀ (op : Op) (a : RequestArgs), a ∈ (op.perform self rt).requests →
        a.options = none ∨ ∃ o, a.options = some [("body", rt.JSON_stringify o)]) := by
  refine ⟨?_, ?_, ?_, ?_, ?_⟩
  · rw [request_fetches self rt method path _ url hu]
    rfl
  · rw [request_fetches self rt method path _ url hu]
    rfl
  · intro b
    rw [request_fetches self rt method path _ url hu]
    rfl
  · intro options hnd hh hm
    rw [request_fetches self rt method path _ url hu]
    simp only [Option.getD_some]
    rw [init_fresh self method options hnd hh hm]
  · intro op a ha
    rcases perform_shape self rt op with ⟨m, p, hp⟩ | ⟨m, p, o, hp⟩ | ⟨e, hp⟩
    · rw [hp, request_requests] at ha
      simp only [List.mem_singleton] at ha
      subst ha
      exact Or.inl rfl
    · rw [hp, request_requests] at ha
      simp only [List.mem_singleton] at ha
      subst ha
      exact Or.inr ⟨o, rfl⟩
    · rw [hp] at ha
      simp at ha

/-- C6 at the input of the test `should make a POST request with body`. -/
theorem C6_init_without_caller_headers_witness :
    ((BaseService.new testConfig)._request
        (hostWith (mockResolvedValue
          (jsonResponse true 200 (JSVal.obj [("message", JSVal.str "success")]))))
        "POST" "/api/v1/test"
        (some [("body", JSON_stringify (JSVal.obj [("test", JSVal.str "data")]))])).fetches =
      [{ url := "https://argocd.example.com/api/v1/test",
         init := [("method", JSVal.str "POST"), ("headers", defaultHeaders "test-token"),
                  ("body", JSVal.str "\x7b\"test\":\"data\"\x7d")] }] :=
  (C6_init_without_caller_headers (BaseService.new testConfig)
      (hostWith (mockResolvedValue
        (jsonResponse true 200 (JSVal.obj [("message", JSVal.str "success")]))))
      "POST" "/api/v1/test" "https://argocd.example.com/api/v1/test" (by decide)).2.2.1
    (JSON_stringify (JSVal.obj [("test", JSVal.str "data")]))

/-! ## Resource wrappers: claims C7 to C10 -/

/-- C7: for booleans `upsert` and `validate`, `createApplication` calls `_request`
with method `POST`, the path `/api/v1/applications?` followed by `upsert=true` exactly
when `upsert` is true and by `validate=false` exactly when `validate` is false (in
that order, joined by `&`), and the body `JSON.stringify(application)`; the `fetch`
call carries that method and body. -/
theorem C7_createApplication_query (self : BaseService) (rt : Runtime)
    (application : JSVal) (upsert validate : Bool) :
    (ApplicationService.createApplication self rt application
        (JSVal.bool upsert) (JSVal.bool validate)).requests =
      [{ method := "POST",
         path := "/api/v1/applications?" ++
           "&".intercalate
             ((if upsert then ["upsert=true"] else []) ++
              (if validate then [] else ["validate=false"])),
         options := some [("body", rt.JSON_stringify application)] }] ∧
      (∀ url : String,
        rt.URL ("/api/v1/applications?" ++
            "&".intercalate
              ((if upsert then ["upsert=true"] else []) ++
               (if validate then [] else ["validate=false"]))) self.baseUrl =
          Except.ok url →
        (ApplicationService.createApplication self rt application
            (JSVal.bool upsert) (JSVal.bool validate)).fetches =
          [{ url := url,
             init := [("method", JSVal.str "POST"), ("headers", defaultHeaders self.token),
                      ("body", rt.JSON_stringify application)] }]) := by
  unfold ApplicationService.createApplication
  constructor
  · rw [request_requests]
    cases upsert <;> cases validate <;> rfl
  · intro url hu
    have hq : ∀ u v : Bool,
        "/api/v1/applications?" ++
            (if (!(defaultTo (JSVal.bool v) (JSVal.bool true)).truthy) = true then
              (if (defaultTo (JSVal.bool u) (JSVal.bool false)).truthy = true then
                URLSearchParams.new.append "upsert" (JSVal.str "true")
              else URLSearchParams.new).append "validate" (JSVal.str "false")
            else
              (if (defaultTo (JSVal.bool u) (JSVal.bool false)).truthy = true then
                URLSearchParams.new.append "upsert" (JSVal.str "true")
              else URLSearchParams.new)).toString =
          "/api/v1/applications?" ++
            "&".intercalate
              ((if u then ["upsert=true"] else []) ++
               (if v then [] else ["validate=false"])) := by
      intro u v
      cases u <;> cases v <;> rfl
    dsimp only
    rw [hq upsert validate, request_fetches self rt _ _ _ url hu]
    rfl

/-- C7 at the input of the test `should create an application with upsert and validate
options`: `createApplication(app, true, false)` issues
`POST /api/v1/applications?upsert=true&validate=false` with the serialized `app`. -/
theorem C7_createApplication_query_witness :
    (ApplicationService.createApplication (ApplicationService.new testConfig)
        (hostWith (mockResolvedValue
          (jsonResponse true 200 (JSVal.obj [("metadata", JSVal.obj [("name", JSVal.str "test-app")])]))))
        (JSVal.obj [("metadata", JSVal.obj [("name", JSVal.str "test-app")])])
        (JSVal.bool true) (JSVal.bool false)).fetches =
      [{ url := "https://argocd.example.com/api/v1/applications?upsert=true&validate=false",
         init := [("method", JSVal.str "POST"), ("headers", defaultHeaders "test-token"),
                  ("body", JSON_stringify
                    (JSVal.obj [("metadata", JSVal.obj [("name", JSVal.str "test-app")])]))] }] :=
  (C7_createApplication_query (ApplicationService.new testConfig)
      (hostWith (mockResolvedValue
        (jsonResponse true 200 (JSVal.obj [("metadata", JSVal.obj [("name", JSVal.str "test-app")])]))))
      (JSVal.obj [("metadata", JSVal.obj [("name", JSVal.str "test-app")])])
      true false).2
    "https://argocd.example.com/api/v1/applications?upsert=true&validate=false" (by decide)

/-- C8, the code at the inputs of the tests `should list applications with default
parameters`, `should get an application by name` and `should create an application`:
the path handed to `_request` ends in `?`, and so does the URL given to `fetch`. -/
theorem C8_trailing_question_mark :
    ApplicationService.listApplications (ApplicationService.new testConfig)
        (hostWith (mockResolvedValue (jsonResponse true 200 (JSVal.obj [("items", JSVal.arr [])]))))
        none =
      { requests := [{ method := "GET", path := "/api/v1/applications?", options := none }],
        fetches :=
          [{ url := "https://argocd.example.com/api/v1/applications?",
             init := [("method", JSVal.str "GET"), ("headers", defaultHeaders "test-token")] }],
        result := Settled.fulfilled (JSVal.obj [("items", JSVal.arr [])]) } ∧
    ApplicationService.getApplication (ApplicationService.new testConfig)
        (hostWith (mockResolvedValue (jsonResponse true 200 (JSVal.obj [("items", JSVal.arr [])]))))
        "test-app" none =
      { requests :=
          [{ method := "GET", path := "/api/v1/applications/test-app?", options := none }],
        fetches :=
          [{ url := "https://argocd.example.com/api/v1/applications/test-app?",
             init := [("method", JSVal.str "GET"), ("headers", defaultHeaders "test-token")] }],
        result := Settled.fulfilled (JSVal.obj [("items", JSVal.arr [])]) } ∧
    ApplicationService.createApplication (ApplicationService.new testConfig)
        (hostWith (mockResolvedValue (jsonResponse true 200 (JSVal.obj [("items", JSVal.arr [])]))))
        (JSVal.obj [("metadata", JSVal.obj [("name", JSVal.str "test-app")])])
        JSVal.undefined JSVal.undefined =
      { requests :=
          [{ method := "POST", path := "/api/v1/applications?",
             options := some
               [("body", JSVal.str "\x7b\"metadata\":\x7b\"name\":\"test-app\"\x7d\x7d")] }],
        fetches :=
          [{ url := "https://argocd.example.com/api/v1/applications?",
             init := [("method", JSVal.str "POST"), ("headers", defaultHeaders "test-token"),
                      ("body", JSVal.str "\x7b\"metadata\":\x7b\"name\":\"test-app\"\x7d\x7d")] }],
        result := Settled.fulfilled (JSVal.obj [("items", JSVal.arr [])]) } := by
  decide

/-- C9: when `projects` (in `listApplications`) or `resources` (in `syncApplication`)
holds the list `xs`, the query is built from the entries of the scalar parameters in
their fixed order followed by one entry per element of `xs`, in input order, all under
the key of the list; the pieces of the query string between `&` are exactly these
entries serialized as `key=value`; and the entries under the key of the list are
exactly the `xs.length` pairs `(key, String(x))`. -/
theorem C9_list_parameters_repeat_key (self : BaseService) (rt : Runtime) (params : Obj)
    (xs : List JSVal) :
    (Obj.get params "projects" = JSVal.arr xs →
      (ApplicationService.listApplications self rt (some params)).requests =
        [{ method := "GET",
           path := "/api/v1/applications?" ++
             (URLSearchParams.mk
               (presentEntry params "name" ++ presentEntry params "refresh" ++
                 listEntries "projects" xs)).toString,
           options := none }] ∧
      components
          (URLSearchParams.mk
            (presentEntry params "name" ++ presentEntry params "refresh" ++
              listEntries "projects" xs)).toString =
        (presentEntry params "name" ++ presentEntry params "refresh" ++
          listEntries "projects" xs).map serializePair ∧
      (presentEntry params "name" ++ presentEntry params "refresh" ++
          listEntries "projects" xs).filter (fun e => e.1 == "projects") =
        xs.map (fun x => ("projects", x.ToString))) ∧
    (∀ name : String, Obj.get params "resources" = JSVal.arr xs →
      (ApplicationService.syncApplication self rt name (some params)).requests =
        [{ method := "POST",
           path := "/api/v1/applications/" ++ name ++ "/sync?" ++
             (URLSearchParams.mk
               (flagEntry params "dryRun" ++ flagEntry params "prune" ++
                 presentEntry params "strategy" ++ listEntries "resources" xs)).toString,
           options := none }] ∧
      components
          (URLSearchParams.mk
            (flagEntry params "dryRun" ++ flagEntry params "prune" ++
              presentEntry params "strategy" ++ listEntries "resources" xs)).toString =
        (flagEntry params "dryRun" ++ flagEntry params "prune" ++
          presentEntry params "strategy" ++ listEntries "resources" xs).map serializePair ∧
      (flagEntry params "dryRun" ++ flagEntry params "prune" ++
          presentEntry params "strategy" ++ listEntries "resources" xs).filter
            (fun e => e.1 == "resources") =
        xs.map (fun x => ("resources", x.ToString))) := by
  constructor
  · intro h
    refine ⟨?_, components_toString _, ?_⟩
    · unfold ApplicationService.listApplications
      simp only [Option.getD_some, append_if_present, forEach_array _ _ _ _ h,
        request_requests, URLSearchParams.new, List.nil_append]
    · simp only [List.filter_append, listEntries_filter,
        presentEntry_filter_ne params "name" "projects" (by decide),
        presentEntry_filter_ne params "refresh" "projects" (by decide), List.nil_append]
      rfl
  · intro name h
    refine ⟨?_, components_toString _, ?_⟩
    · unfold ApplicationService.syncApplication
      simp only [Option.getD_some, append_if_present, append_if_flag,
        forEach_array _ _ _ _ h, request_requests, URLSearchParams.new, List.nil_append]
    · simp only [List.filter_append, listEntries_filter,
        flagEntry_filter_ne params "dryRun" "resources" (by decide),
        flagEntry_filter_ne params "prune" "resources" (by decide),
        presentEntry_filter_ne params "strategy" "resources" (by decide), List.nil_append]
      rfl

/-- C9 at the input of the test `should list applications with query parameters`,
with the keys of `params` in another order: the query string is
`name=test-app&refresh=hard&projects=default&projects=test`. -/
theorem C9_list_parameters_repeat_key_witness :
    (ApplicationService.listApplications (ApplicationService.new testConfig)
        (hostWith (mockResolvedValue (jsonResponse true 200 (JSVal.obj [("items", JSVal.arr [])]))))
        (some [("projects", JSVal.arr [JSVal.str "default", JSVal.str "test"]),
               ("refresh", JSVal.str "hard"), ("name", JSVal.str "test-app")])).requests =
      [{ method := "GET",
         path := "/api/v1/applications?name=test-app&refresh=hard&projects=default&projects=test",
         options := none }] :=
  ((C9_list_parameters_repeat_key (ApplicationService.new testConfig)
      (hostWith (mockResolvedValue (jsonResponse true 200 (JSVal.obj [("items", JSVal.arr [])]))))
      [("projects", JSVal.arr [JSVal.str "default", JSVal.str "test"]),
       ("refresh", JSVal.str "hard"), ("name", JSVal.str "test-app")]
      [JSVal.str "default", JSVal.str "test"]).1 (by decide)).1

/-- C10, refuted as stated: in `listApplications({ name: '' })` the parameter `name` is
present in `params`, and the query string is empty: there is no entry for it. -/
theorem C10_present_but_falsy_omitted :
    List.lookup "name" [("name", JSVal.str "")] = some (JSVal.str "") ∧
    (ApplicationService.listApplications (ApplicationService.new testConfig)
        (hostWith (mockResolvedValue (jsonResponse true 200 (JSVal.obj [("items", JSVal.arr [])]))))
        (some [("name", JSVal.str "")])).requests =
      [{ method := "GET", path := "/api/v1/applications?", options := none }] := by
  decide

/-- C10, amended: for the operations with optional scalar parameters and every
`params` object, the query is built from one entry per documented parameter whose
value in `params` is truthy, in the documented order and under the documented key
(valued `String(params.k)`, or `'true'` for the flags `cascade` and `forceRefresh`),
and from no entry for a parameter that is absent or falsy; in `listApplications` the
entries of an array `projects` follow, and a truthy `projects` that is not an array
makes the call throw before any request; the pieces of the query string between `&`
are exactly these entries serialized as `key=value`. -/
theorem C10_truthy_parameters_one_entry (self : BaseService) (rt : Runtime) (params : Obj) :
    ((Obj.get params "projects").truthy = false →
      (ApplicationService.listApplications self rt (some params)).requests =
        [{ method := "GET",
           path := "/api/v1/applications?" ++
             (URLSearchParams.mk
               (presentEntry params "name" ++ presentEntry params "refresh")).toString,
           options := none }]) ∧
    (∀ xs : List JSVal, Obj.get params "projects" = JSVal.arr xs →
      (ApplicationService.listApplications self rt (some params)).requests =
        [{ method := "GET",
           path := "/api/v1/applications?" ++
             (URLSearchParams.mk
               (presentEntry params "name" ++ presentEntry params "refresh" ++
                 listEntries "projects" xs)).toString,
           options := none }]) ∧
    ((Obj.get params "projects").truthy = true →
      (∀ xs : List JSVal, Obj.get params "projects" ≠ JSVal.arr xs) →
      ApplicationService.listApplications self rt (some params) =
        { requests := [], fetches := [],
          result := Settled.rejected
            (Thrown.TypeError "params.projects.forEach is not a function") }) ∧
    (∀ name : String,
      (ApplicationService.getApplication self rt name (some params)).requests =
        [{ method := "GET",
           path := "/api/v1/applications/" ++ name ++ "?" ++
             (URLSearchParams.mk
               (presentEntry params "refresh" ++ presentEntry params "project")).toString,
           options := none }]) ∧
    (∀ name : String,
      (ApplicationService.deleteApplication self rt name (some params)).requests =
        [{ method := "DELETE",
           path := "/api/v1/applications/" ++ name ++ "?" ++
             (URLSearchParams.mk
               (flagEntry params "cascade" ++
                 presentEntry params "propagationPolicy")).toString,
           options := none }]) ∧
    (∀ name : String,
      (ApplicationService.listApplicationEvents self rt name (some params)).requests =
        [{ method := "GET",
           path := "/api/v1/applications/" ++ name ++ "/events?" ++
             (URLSearchParams.mk
               (presentEntry params "resourceNamespace" ++
                 presentEntry params "resourceName" ++
                 presentEntry params "resourceUID")).toString,
           options := none }]) ∧
    (ClusterService.listClusters self rt (some params)).requests =
        [{ method := "GET",
           path := "/api/v1/clusters?" ++
             (URLSearchParams.mk
               (presentEntry params "server" ++ presentEntry params "name")).toString,
           options := none }] ∧
    (CertificateService.listCertificates self rt (some params)).requests =
        [{ method := "GET",
           path := "/api/v1/certificates?" ++
             (URLSearchParams.mk
               (presentEntry params "hostNamePattern" ++ presentEntry params "certType" ++
                 presentEntry params "certSubType")).toString,
           options := none }] ∧
    (GPGKeyService.listGPGKeys self rt (some params)).requests =
        [{ method := "GET",
           path := "/api/v1/gpgkeys?" ++
             (URLSearchParams.mk (presentEntry params "keyID")).toString,
           options := none }] ∧
    (ProjectService.listProjects self rt (some params)).requests =
        [{ method := "GET",
           path := "/api/v1/projects?" ++
             (URLSearchParams.mk (presentEntry params "name")).toString,
           options := none }] ∧
    (RepositoryService.listRepositories self rt (some params)).requests =
        [{ method := "GET",
           path := "/api/v1/repositories?" ++
             (URLSearchParams.mk
               (presentEntry params "repo" ++ flagEntry params "forceRefresh")).toString,
           options := none }] ∧
    (∀ repo : String,
      (RepositoryService.listApps self rt repo (some params)).requests =
        [{ method := "GET",
           path := "/api/v1/repositories/" ++ repo ++ "/apps?" ++
             (URLSearchParams.mk (presentEntry params "revision")).toString,
           options := none }]) ∧
    (∀ k : String, (Obj.get params k).truthy = true →
      presentEntry params k = [(k, (Obj.get params k).ToString)] ∧
        flagEntry params k = [(k, "true")]) ∧
    (∀ k : String, (Obj.get params k).truthy = false →
      presentEntry params k = [] ∧ flagEntry params k = []) ∧
    (∀ entries : List (String × String),
      components (URLSearchParams.mk entries).toString = entries.map serializePair) := by
  refine ⟨?_, ?_, ?_, ?_, ?_, ?_, ?_, ?_, ?_, ?_, ?_, ?_, ?_, ?_, ?_⟩
  · intro h
    unfold ApplicationService.listApplications
    simp only [Option.getD_some, append_if_present, forEach_falsy _ _ _ h,
      request_requests, URLSearchParams.new, List.nil_append]
  · intro xs h
    unfold ApplicationService.listApplications
    simp only [Option.getD_some, append_if_present, forEach_array _ _ _ _ h,
      request_requests, URLSearchParams.new, List.nil_append]
  · intro ht hn
    unfold ApplicationService.listApplications
    simp only [Option.getD_some, append_if_present, forEach_not_array _ _ _ ht hn]
    rfl
  · intro name
    unfold ApplicationService.getApplication
    simp only [Option.getD_some, append_if_present, request_requests,
      URLSearchParams.new, List.nil_append]
  · intro name
    unfold ApplicationService.deleteApplication
    simp only [Option.getD_some, append_if_present, append_if_flag, request_requests,
      URLSearchParams.new, List.nil_append]
  · intro name
    unfold ApplicationService.listApplicationEvents
    simp only [Option.getD_some, append_if_present, request_requests,
      URLSearchParams.new, List.nil_append]
  · unfold ClusterService.listClusters
    simp only [Option.getD_some, append_if_present, request_requests,
      URLSearchParams.new, List.nil_append]
  · unfold CertificateService.listCertificates
    simp only [Option.getD_some, append_if_present, request_requests,
      URLSearchParams.new, List.nil_append]
  · unfold GPGKeyService.listGPGKeys
    simp only [Option.getD_some, append_if_present, request_requests,
      URLSearchParams.new, List.nil_append]
  · unfold ProjectService.listProjects
    simp only [Option.getD_some, append_if_present, request_requests,
      URLSearchParams.new, List.nil_append]
  · unfold RepositoryService.listRepositories
    simp only [Option.getD_some, append_if_present, append_if_flag, request_requests,
      URLSearchParams.new, List.nil_append]
  · intro repo
    unfold RepositoryService.listApps
    simp only [Option.getD_some, append_if_present, request_requests,
      URLSearchParams.new, List.nil_append]
  · intro k h
    simp [presentEntry, flagEntry, h]
  · intro k h
    simp [presentEntry, flagEntry, h]
  · intro entries
    exact components_toString _

/-- C10 amended, at the input of the test `should get an application with refresh and
project parameters`: the path is
`/api/v1/applications/test-app?refresh=hard&project=default`. -/
theorem C10_truthy_parameters_one_entry_witness :
    (ApplicationService.getApplication (ApplicationService.new testConfig)
        (hostWith (mockResolvedValue (jsonResponse true 200 JSVal.null)))
        "test-app"
        (some [("refresh", JSVal.str "hard"), ("project", JSVal.str "default")])).requests =
      [{ method := "GET",
         path := "/api/v1/applications/test-app?refresh=hard&project=default",
         options := none }] :=
  (C10_truthy_parameters_one_entry (ApplicationService.new testConfig)
      (hostWith (mockResolvedValue (jsonResponse true 200 JSVal.null)))
      [("refresh", JSVal.str "hard"), ("project", JSVal.str "default")]).2.2.2.1 "test-app"

/-! ## Lemmas on the entries of a query string -/

/-- Two lists cut at a separator that occurs in neither head have equal heads and
equal tails. -/
theorem append_sep_inj (sep : Char) (a a2 b b2 : List Char) (ha : sep ∉ a) (ha2 : sep ∉ a2)
    (h : a ++ sep :: b = a2 ++ sep :: b2) : a = a2 ∧ b = b2 := by
  induction a generalizing a2 with
  | nil =>
    cases a2 with
    | nil => simpa using h
    | cons c rest =>
      simp only [List.nil_append, List.cons_append, List.cons.injEq] at h
      simp only [List.mem_cons, not_or] at ha2
      exact absurd h.1 ha2.1
  | cons c rest ih =>
    cases a2 with
    | nil =>
      simp only [List.nil_append, List.cons_append, List.cons.injEq] at h
      simp only [List.mem_cons, not_or] at ha
      exact absurd h.1.symm ha.1
    | cons c2 rest2 =>
      simp only [List.cons_append, List.cons.injEq] at h
      simp only [List.mem_cons, not_or] at ha ha2
      obtain ⟨h1, h2⟩ := ih rest2 ha.2 ha2.2 h.2
      exact ⟨by rw [h.1, h1], h2⟩

/-- A serialized name or value contains no `=`. -/
theorem urlencoded_no_eq (s : String) : '=' ∉ (urlencoded s).data := by
  intro h
  exact (urlencodedChars_ne _ _ h).2 (by decide)

/-- Serialized pairs are equal only if their serialized names are equal and their
serialized values are equal. -/
theorem serializePair_inj (kv kv2 : String × String)
    (h : serializePair kv = serializePair kv2) :
    urlencoded kv.1 = urlencoded kv2.1 ∧ urlencoded kv.2 = urlencoded kv2.2 := by
  have hd : (serializePair kv).data = (serializePair kv2).data := by rw [h]
  simp only [serializePair, String.data_append] at hd
  have hd2 : (urlencoded kv.1).data ++ '=' :: (urlencoded kv.2).data =
      (urlencoded kv2.1).data ++ '=' :: (urlencoded kv2.2).data := by
    simpa using hd
  obtain ⟨h1, h2⟩ := append_sep_inj '=' _ _ _ _ (urlencoded_no_eq _) (urlencoded_no_eq _) hd2
  exact ⟨String.ext h1, String.ext h2⟩

/-- The entries `k=v` of a serialized query are the pairs of the list whose serialized
name and value are those of `k` and `v`. -/
theorem hasEntry_iff (entries : List (String × String)) (k v : String) :
    hasEntry (URLSearchParams.mk entries).toString k v ↔
      ∃ kv ∈ entries, urlencoded kv.1 = urlencoded k ∧ urlencoded kv.2 = urlencoded v := by
  unfold hasEntry
  rw [components_toString]
  simp only [List.mem_map]
  constructor
  · rintro ⟨kv, hm, he⟩
    exact ⟨kv, hm, serializePair_inj kv (k, v) he⟩
  · rintro ⟨kv, hm, h1, h2⟩
    refine ⟨kv, hm, ?_⟩
    simp only [serializePair, h1, h2]

/-- A flag whose only possible entry is `(k, "true")`, sent exactly when `t` holds: the
query string has the entry `k=true` exactly when `t` holds, and never `k=false`. -/
theorem hasEntry_flag (entries : List (String × String)) (k : String) (t : Bool)
    (hL : ∀ kv ∈ entries, urlencoded kv.1 = urlencoded k → kv = (k, "true") ∧ t = true)
    (hT : t = true → (k, "true") ∈ entries) :
    (hasEntry (URLSearchParams.mk entries).toString k "true" ↔ t = true) ∧
      ¬ hasEntry (URLSearchParams.mk entries).toString k "false" := by
  constructor
  · rw [hasEntry_iff]
    constructor
    · rintro ⟨kv, hm, h1, _⟩
      exact (hL kv hm h1).2
    · intro ht
      exact ⟨(k, "true"), hT ht, rfl, rfl⟩
  · rw [hasEntry_iff]
    rintro ⟨kv, hm, h1, h2⟩
    have hkv := (hL kv hm h1).1
    rw [hkv] at h2
    have hne : urlencoded "true" ≠ urlencoded "false" := by decide
    exact hne h2

/-- Members of the entry of an optional parameter. -/
theorem mem_presentEntry (params : Obj) (k : String) (kv : String × String)
    (h : kv ∈ presentEntry params k) : kv.1 = k := by
  unfold presentEntry at h
  split at h
  · simp only [List.mem_singleton] at h
    rw [h]
  · simp at h

/-- Members of the entry of an optional flag. -/
theorem mem_flagEntry (params : Obj) (k : String) (kv : String × String)
    (h : kv ∈ flagEntry params k) : kv = (k, "true") ∧ (Obj.get params k).truthy = true := by
  unfold flagEntry at h
  split at h
  · rename_i ht
    simp only [List.mem_singleton] at h
    exact ⟨h, ht⟩
  · simp at h

/-- Members of the entry of a positional flag. -/
theorem mem_positionalFlag (k : String) (v : JSVal) (kv : String × String)
    (h : kv ∈ positionalFlag k v) : kv = (k, "true") ∧ v.truthy = true := by
  unfold positionalFlag at h
  split at h
  · rename_i ht
    simp only [List.mem_singleton] at h
    exact ⟨h, ht⟩
  · simp at h

/-- Members of the entries of a list-valued parameter. -/
theorem mem_listEntries (k : String) (xs : List JSVal) (kv : String × String)
    (h : kv ∈ listEntries k xs) : kv.1 = k := by
  unfold listEntries at h
  simp only [List.mem_map] at h
  rcases h with ⟨x, _, rfl⟩
  rfl

/-- The statement `if (flag) queryParams.append(k, 'true')` on an argument with the
default `false`. -/
theorem append_if_positional (q : URLSearchParams) (k : String) (v : JSVal) :
    (if (defaultTo v (JSVal.bool false)).truthy = true then q.append k (JSVal.str "true")
      else q) = { list := q.list ++ positionalFlag k v } := by
  have hd : (defaultTo v (JSVal.bool false)).truthy = v.truthy := by
    cases v <;> rfl
  rw [hd]
  unfold positionalFlag URLSearchParams.append
  split <;> simp [JSVal.ToString]

/-! ## Lemmas on the wrapper operations -/

/-- Every wrapper either calls `_request` with its HTTP method, its path template
filled in with the identifiers as supplied and followed by the query string if any,
and its options, and returns what that call returns, or throws before making any
request. -/
theorem perform_route (self : BaseService) (rt : Runtime) (op : Op) :
    (∃ q : String,
      op.perform self rt = self._request rt op.method (op.stem ++ q) (op.options rt)) ∨
      (∃ e, op.perform self rt =
        { requests := [], fetches := [], result := Settled.rejected e }) := by
  cases op
  case listApplications params =>
    simp only [Op.perform, ApplicationService.listApplications]
    split
    · right; exact ⟨_, rfl⟩
    · left; exact ⟨_, rfl⟩
  case syncApplication name params =>
    simp only [Op.perform, ApplicationService.syncApplication]
    split
    · right; exact ⟨_, rfl⟩
    · left; exact ⟨_, rfl⟩
  all_goals
    first
    | exact Or.inl ⟨_, rfl⟩
    | exact Or.inl ⟨"", by rw [String.append_empty]; rfl⟩

/-- A `fetch` call made by `_request` carries the `init` object built from the method
and the options. -/
theorem mem_request_fetches (self : BaseService) (rt : Runtime) (method path : String)
    (options : Option Obj) (call : FetchCall)
    (h : call ∈ (self._request rt method path options).fetches) :
    rt.URL path self.baseUrl = Except.ok call.url ∧
      call.init = self.init method (options.getD []) := by
  cases hu : rt.URL path self.baseUrl with
  | error e =>
    unfold BaseService._request at h
    rw [hu] at h
    simp at h
  | ok url =>
    rw [request_fetches self rt method path options url hu] at h
    simp only [List.mem_singleton] at h
    subst h
    exact ⟨rfl, rfl⟩

/-- A filled-in template starts with its accumulated start. -/
theorem weaveFrom_start (pieces ids : List String) (acc : String) :
    ∃ r, weaveFrom acc pieces ids = acc ++ r := by
  induction ids generalizing acc pieces with
  | nil => exact ⟨"", by simp [weaveFrom]⟩
  | cons i rest ih =>
    cases pieces with
    | nil =>
      obtain ⟨r, hr⟩ := ih [] (acc ++ i)
      exact ⟨i ++ r, by rw [weaveFrom, hr, String.append_assoc]⟩
    | cons p ps =>
      obtain ⟨r, hr⟩ := ih ps (acc ++ i ++ p)
      exact ⟨i ++ p ++ r, by rw [weaveFrom, hr]; simp [String.append_assoc]⟩

/-- Every identifier occurs in the filled-in template as supplied. -/
theorem weaveFrom_contains (pieces ids : List String) (acc id : String) (h : id ∈ ids) :
    ∃ pre post, weaveFrom acc pieces ids = pre ++ id ++ post := by
  induction ids generalizing acc pieces with
  | nil => simp at h
  | cons i rest ih =>
    rcases List.mem_cons.mp h with e | hm
    · subst e
      cases pieces with
      | nil =>
        obtain ⟨r, hr⟩ := weaveFrom_start [] rest (acc ++ id)
        exact ⟨acc, r, by rw [weaveFrom, hr]⟩
      | cons p ps =>
        obtain ⟨r, hr⟩ := weaveFrom_start ps rest (acc ++ id ++ p)
        exact ⟨acc, p ++ r, by rw [weaveFrom, hr]; simp [String.append_assoc]⟩
    · cases pieces with
      | nil => exact ih [] (acc ++ i) hm
      | cons p ps => exact ih ps (acc ++ i ++ p) hm

/-- Every identifier occurs in the path stem as supplied. -/
theorem stem_contains (op : Op) (id : String) (h : id ∈ op.identifiers) :
    ∃ pre post, op.stem = pre ++ id ++ post := by
  unfold Op.stem weave
  split
  · exact weaveFrom_contains _ _ _ _ h
  · exact weaveFrom_contains _ _ _ _ h

/-! ## Certificates and flags: claims C11 to C13 -/

/-- C11: for all values of the three arguments, `deleteCertificate` calls `_request`
with method `DELETE` and the path `/api/v1/certificates?` followed by exactly three
entries, keyed `hostNamePattern`, `certType`, `certSubType` in that order and valued
with the arguments converted to strings; none is omitted, also for empty strings. -/
theorem C11_deleteCertificate_three_entries (self : BaseService) (rt : Runtime)
    (hostNamePattern certType certSubType : JSVal) :
    (CertificateService.deleteCertificate self rt hostNamePattern certType
        certSubType).requests =
      [{ method := "DELETE",
         path := "/api/v1/certificates?" ++
           (URLSearchParams.mk
             [("hostNamePattern", hostNamePattern.ToString),
              ("certType", certType.ToString),
              ("certSubType", certSubType.ToString)]).toString,
         options := none }] ∧
    components
        (URLSearchParams.mk
          [("hostNamePattern", hostNamePattern.ToString),
           ("certType", certType.ToString),
           ("certSubType", certSubType.ToString)]).toString =
      ["hostNamePattern=" ++ urlencoded hostNamePattern.ToString,
       "certType=" ++ urlencoded certType.ToString,
       "certSubType=" ++ urlencoded certSubType.ToString] := by
  constructor
  · unfold CertificateService.deleteCertificate
    rw [request_requests]
    rfl
  · rw [components_toString]
    rfl

/-- C11 at empty strings: the three keys are all sent, with empty values. -/
theorem C11_deleteCertificate_three_entries_witness :
    (CertificateService.deleteCertificate (BaseService.new testConfig)
        (hostWith (mockResolvedValue (jsonResponse true 200 (JSVal.obj []))))
        (JSVal.str "") (JSVal.str "") (JSVal.str "")).requests =
      [{ method := "DELETE",
         path := "/api/v1/certificates?hostNamePattern=&certType=&certSubType=",
         options := none }] :=
  (C11_deleteCertificate_three_entries (BaseService.new testConfig)
      (hostWith (mockResolvedValue (jsonResponse true 200 (JSVal.obj []))))
      (JSVal.str "") (JSVal.str "") (JSVal.str "")).1

/-- C12: for every optional boolean flag other than `validate`, the constructed query
string has the entry `<flag>=true` exactly when the flag is truthy (for a boolean:
true; an omitted flag is not), and never an entry `<flag>=false`: `cascade` in
`deleteApplication`, `dryRun` and `prune` in `syncApplication`, `upsert` in
`createCluster`, `upsert` and `credsOnly` in `createRepository`, `forceRefresh` in
`listRepositories` and in `getRepository`. -/
theorem C12_flags_only_when_true (self : BaseService) (rt : Runtime) :
    (∀ (name : String) (params : Obj),
      (ApplicationService.deleteApplication self rt name (some params)).requests =
        [{ method := "DELETE",
           path := "/api/v1/applications/" ++ name ++ "?" ++
             (URLSearchParams.mk
               (flagEntry params "cascade" ++
                 presentEntry params "propagationPolicy")).toString,
           options := none }] ∧
      (hasEntry
          (URLSearchParams.mk
            (flagEntry params "cascade" ++
              presentEntry params "propagationPolicy")).toString "cascade" "true" ↔
        (Obj.get params "cascade").truthy = true) ∧
      ¬ hasEntry
          (URLSearchParams.mk
            (flagEntry params "cascade" ++
              presentEntry params "propagationPolicy")).toString "cascade" "false") ∧
    (∀ (name : String) (params : Obj) (resources : List (String × String)),
      (((Obj.get params "resources").truthy = false ∧ resources = []) ∨
        ∃ xs, Obj.get params "resources" = JSVal.arr xs ∧
          resources = listEntries "resources" xs) →
      (ApplicationService.syncApplication self rt name (some params)).requests =
        [{ method := "POST",
           path := "/api/v1/applications/" ++ name ++ "/sync?" ++
             (URLSearchParams.mk
               (flagEntry params "dryRun" ++ flagEntry params "prune" ++
                 presentEntry params "strategy" ++ resources)).toString,
           options := none }] ∧
      (hasEntry
          (URLSearchParams.mk
            (flagEntry params "dryRun" ++ flagEntry params "prune" ++
              presentEntry params "strategy" ++ resources)).toString "dryRun" "true" ↔
        (Obj.get params "dryRun").truthy = true) ∧
      ¬ hasEntry
          (URLSearchParams.mk
            (flagEntry params "dryRun" ++ flagEntry params "prune" ++
              presentEntry params "strategy" ++ resources)).toString "dryRun" "false" ∧
      (hasEntry
          (URLSearchParams.mk
            (flagEntry params "dryRun" ++ flagEntry params "prune" ++
              presentEntry params "strategy" ++ resources)).toString "prune" "true" ↔
        (Obj.get params "prune").truthy = true) ∧
      ¬ hasEntry
          (URLSearchParams.mk
            (flagEntry params "dryRun" ++ flagEntry params "prune" ++
              presentEntry params "strategy" ++ resources)).toString "prune" "false") ∧
    (∀ cluster upsert : JSVal,
      (ClusterService.createCluster self rt cluster upsert).requests =
        [{ method := "POST",
           path := "/api/v1/clusters?" ++
             (URLSearchParams.mk (positionalFlag "upsert" upsert)).toString,
           options := some [("body", rt.JSON_stringify cluster)] }] ∧
      (hasEntry (URLSearchParams.mk (positionalFlag "upsert" upsert)).toString
          "upsert" "true" ↔ upsert.truthy = true) ∧
      ¬ hasEntry (URLSearchParams.mk (positionalFlag "upsert" upsert)).toString
          "upsert" "false") ∧
    (∀ repository upsert credsOnly : JSVal,
      (RepositoryService.createRepository self rt repository upsert credsOnly).requests =
        [{ method := "POST",
           path := "/api/v1/repositories?" ++
             (URLSearchParams.mk
               (positionalFlag "upsert" upsert ++
                 positionalFlag "credsOnly" credsOnly)).toString,
           options := some [("body", rt.JSON_stringify repository)] }] ∧
      (hasEntry
          (URLSearchParams.mk
            (positionalFlag "upsert" upsert ++
              positionalFlag "credsOnly" credsOnly)).toString "upsert" "true" ↔
        upsert.truthy = true) ∧
      ¬ hasEntry
          (URLSearchParams.mk
            (positionalFlag "upsert" upsert ++
              positionalFlag "credsOnly" credsOnly)).toString "upsert" "false" ∧
      (hasEntry
          (URLSearchParams.mk
            (positionalFlag "upsert" upsert ++
              positionalFlag "credsOnly" credsOnly)).toString "credsOnly" "true" ↔
        credsOnly.truthy = true) ∧
      ¬ hasEntry
          (URLSearchParams.mk
            (positionalFlag "upsert" upsert ++
              positionalFlag "credsOnly" credsOnly)).toString "credsOnly" "false") ∧
    (∀ params : Obj,
      (RepositoryService.listRepositories self rt (some params)).requests =
        [{ method := "GET",
           path := "/api/v1/repositories?" ++
             (URLSearchParams.mk
               (presentEntry params "repo" ++ flagEntry params "forceRefresh")).toString,
           options := none }] ∧
      (hasEntry
          (URLSearchParams.mk
            (presentEntry params "repo" ++ flagEntry params "forceRefresh")).toString
          "forceRefresh" "true" ↔ (Obj.get params "forceRefresh").truthy = true) ∧
      ¬ hasEntry
          (URLSearchParams.mk
            (presentEntry params "repo" ++ flagEntry params "forceRefresh")).toString
          "forceRefresh" "false") ∧
    (∀ (repo : String) (forceRefresh : JSVal),
      (RepositoryService.getRepository self rt repo forceRefresh).requests =
        [{ method := "GET",
           path := "/api/v1/repositories/" ++ repo ++ "?" ++
             (URLSearchParams.mk (positionalFlag "forceRefresh" forceRefresh)).toString,
           options := none }] ∧
      (hasEntry (URLSearchParams.mk (positionalFlag "forceRefresh" forceRefresh)).toString
          "forceRefresh" "true" ↔ forceRefresh.truthy = true) ∧
      ¬ hasEntry (URLSearchParams.mk (positionalFlag "forceRefresh" forceRefresh)).toString
          "forceRefresh" "false") ∧
    (∀ b : Bool, (JSVal.bool b).truthy = b) ∧ JSVal.undefined.truthy = false ∧
    (∀ k ∈ ["cascade", "dryRun", "prune", "upsert", "credsOnly", "forceRefresh"],
      serializePair (k, "true") = k ++ "=true" ∧
        serializePair (k, "false") = k ++ "=false") := by
  refine ⟨?_, ?_, ?_, ?_, ?_, ?_, fun b => rfl, rfl, by decide⟩
  · intro name params
    refine ⟨?_, ?_⟩
    · unfold ApplicationService.deleteApplication
      simp only [Option.getD_some, append_if_present, append_if_flag, request_requests,
        URLSearchParams.new, List.nil_append]
    · apply hasEntry_flag
      · intro kv hm he
        rcases List.mem_append.mp hm with h | h
        · exact mem_flagEntry _ _ _ h
        · rw [mem_presentEntry _ _ _ h] at he
          exact absurd he (by decide)
      · intro ht
        simp [flagEntry, ht]
  · intro name params resources hres
    have hkeys : ∀ kv ∈ resources, kv.1 = "resources" := by
      rcases hres with ⟨_, rfl⟩ | ⟨xs, _, rfl⟩
      · simp
      · exact fun kv h => mem_listEntries _ _ _ h
    refine ⟨?_, and_assoc.mp ⟨?_, ?_⟩⟩
    · unfold ApplicationService.syncApplication
      rcases hres with ⟨hf, rfl⟩ | ⟨xs, hx, rfl⟩
      · simp only [Option.getD_some, append_if_present, append_if_flag,
          forEach_falsy _ _ _ hf, request_requests, URLSearchParams.new, List.nil_append,
          List.append_nil]
      · simp only [Option.getD_some, append_if_present, append_if_flag,
          forEach_array _ _ _ _ hx, request_requests, URLSearchParams.new, List.nil_append]
    · apply hasEntry_flag
      · intro kv hm he
        simp only [List.mem_append] at hm
        rcases hm with ((h | h) | h) | h
        · exact mem_flagEntry _ _ _ h
        · rw [(mem_flagEntry _ _ _ h).1] at he
          exact absurd he (by decide)
        · rw [mem_presentEntry _ _ _ h] at he
          exact absurd he (by decide)
        · rw [hkeys kv h] at he
          exact absurd he (by decide)
      · intro ht
        simp [flagEntry, ht]
    · apply hasEntry_flag
      · intro kv hm he
        simp only [List.mem_append] at hm
        rcases hm with ((h | h) | h) | h
        · rw [(mem_flagEntry _ _ _ h).1] at he
          exact absurd he (by decide)
        · exact mem_flagEntry _ _ _ h
        · rw [mem_presentEntry _ _ _ h] at he
          exact absurd he (by decide)
        · rw [hkeys kv h] at he
          exact absurd he (by decide)
      · intro ht
        simp [flagEntry, ht]
  · intro cluster upsert
    refine ⟨?_, ?_⟩
    · unfold ClusterService.createCluster
      simp only [append_if_positional, request_requests, URLSearchParams.new,
        List.nil_append]
    · apply hasEntry_flag
      · intro kv hm _
        exact mem_positionalFlag _ _ _ hm
      · intro ht
        simp [positionalFlag, ht]
  · intro repository upsert credsOnly
    refine ⟨?_, and_assoc.mp ⟨?_, ?_⟩⟩
    · unfold RepositoryService.createRepository
      simp only [append_if_positional, request_requests, URLSearchParams.new,
        List.nil_append]
    · apply hasEntry_flag
      · intro kv hm he
        rcases List.mem_append.mp hm with h | h
        · exact mem_positionalFlag _ _ _ h
        · rw [(mem_positionalFlag _ _ _ h).1] at he
          exact absurd he (by decide)
      · intro ht
        simp [positionalFlag, ht]
    · apply hasEntry_flag
      · intro kv hm he
        rcases List.mem_append.mp hm with h | h
        · rw [(mem_positionalFlag _ _ _ h).1] at he
          exact absurd he (by decide)
        · exact mem_positionalFlag _ _ _ h
      · intro ht
        simp [positionalFlag, ht]
  · intro params
    refine ⟨?_, ?_⟩
    · unfold RepositoryService.listRepositories
      simp only [Option.getD_some, append_if_present, append_if_flag, request_requests,
        URLSearchParams.new, List.nil_append]
    · apply hasEntry_flag
      · intro kv hm he
        rcases List.mem_append.mp hm with h | h
        · rw [mem_presentEntry _ _ _ h] at he
          exact absurd he (by decide)
        · exact mem_flagEntry _ _ _ h
      · intro ht
        simp [flagEntry, ht]
  · intro repo forceRefresh
    refine ⟨?_, ?_⟩
    · unfold RepositoryService.getRepository
      simp only [append_if_positional, request_requests, URLSearchParams.new,
        List.nil_append]
    · apply hasEntry_flag
      · intro kv hm _
        exact mem_positionalFlag _ _ _ hm
      · intro ht
        simp [positionalFlag, ht]

/-- C12 at a concrete input: `syncApplication('app', { dryRun: true, prune: false,
resources: ['a'] })` sends `dryRun=true`, and nothing for `prune`. -/
theorem C12_flags_only_when_true_witness :
    (ApplicationService.syncApplication (ApplicationService.new testConfig)
        (hostWith (mockResolvedValue (jsonResponse true 200 (JSVal.obj []))))
        "app"
        (some [("dryRun", JSVal.bool true), ("prune", JSVal.bool false),
               ("resources", JSVal.arr [JSVal.str "a"])])).requests =
      [{ method := "POST",
         path := "/api/v1/applications/app/sync?dryRun=true&resources=a",
         options := none }] :=
  ((C12_flags_only_when_true (ApplicationService.new testConfig)
      (hostWith (mockResolvedValue (jsonResponse true 200 (JSVal.obj []))))).2.1
    "app"
    [("dryRun", JSVal.bool true), ("prune", JSVal.bool false),
     ("resources", JSVal.arr [JSVal.str "a"])]
    (listEntries "resources" [JSVal.str "a"])
    (Or.inr ⟨[JSVal.str "a"], by decide, rfl⟩)).1
/-- C13: `updateApplication` calls `_request` with method `PUT`, the path
`/api/v1/applications/<name>?` followed by `validate=false` when `validate` is false
and by nothing when `validate` is true or omitted, and the body
`JSON.stringify(application)`; the `fetch` call carries that method and body. -/
theorem C13_updateApplication_validate (self : BaseService) (rt : Runtime)
    (name : String) (application : JSVal) (validate : Option Bool) :
    (ApplicationService.updateApplication self rt name application
        (optionalBool validate)).requests =
      [{ method := "PUT",
         path := "/api/v1/applications/" ++ name ++ "?" ++
           (if validate = some false then "validate=false" else ""),
         options := some [("body", rt.JSON_stringify application)] }] ∧
    (∀ url : String,
      rt.URL ("/api/v1/applications/" ++ name ++ "?" ++
          (if validate = some false then "validate=false" else "")) self.baseUrl =
        Except.ok url →
      (ApplicationService.updateApplication self rt name application
          (optionalBool validate)).fetches =
        [{ url := url,
           init := [("method", JSVal.str "PUT"), ("headers", defaultHeaders self.token),
                    ("body", rt.JSON_stringify application)] }]) := by
  have hp : ApplicationService.updateApplication self rt name application
        (optionalBool validate) =
      self._request rt "PUT"
        ("/api/v1/applications/" ++ name ++ "?" ++
          (if validate = some false then "validate=false" else ""))
        (some [("body", rt.JSON_stringify application)]) := by
    unfold ApplicationService.updateApplication
    rcases validate with _ | b
    · rfl
    · cases b <;> rfl
  rw [hp]
  constructor
  · rw [request_requests]
  · intro url hu
    rw [request_fetches self rt _ _ _ url hu]
    rfl

/-- C13 at a concrete input: `updateApplication('test-app', app, false)` issues
`PUT /api/v1/applications/test-app?validate=false` with the serialized `app`. -/
theorem C13_updateApplication_validate_witness :
    (ApplicationService.updateApplication (ApplicationService.new testConfig)
        (hostWith (mockResolvedValue (jsonResponse true 200 (JSVal.obj []))))
        "test-app" (JSVal.obj [("spec", JSVal.obj [("project", JSVal.str "default")])])
        (JSVal.bool false)).fetches =
      [{ url := "https://argocd.example.com/api/v1/applications/test-app?validate=false",
         init := [("method", JSVal.str "PUT"), ("headers", defaultHeaders "test-token"),
                  ("body", JSVal.str "\x7b\"spec\":\x7b\"project\":\"default\"\x7d\x7d")] }] :=
  (C13_updateApplication_validate (ApplicationService.new testConfig)
      (hostWith (mockResolvedValue (jsonResponse true 200 (JSVal.obj []))))
      "test-app" (JSVal.obj [("spec", JSVal.obj [("project", JSVal.str "default")])])
      (some false)).2
    "https://argocd.example.com/api/v1/applications/test-app?validate=false" (by decide)
/-! ## Bodies and identifiers: claims C14 and C15 -/

/-- C14: the operations that pass a body are the fifteen create and update
operations; each passes to `_request` the options `{ body: JSON.stringify(o) }` for
the object `o` it was given, and its `fetch` call carries that body and the header
`Content-Type: application/json`; every other operation passes no options, and its
`fetch` call has no `body` key. -/
theorem C14_bodies_of_mutating_operations (self : BaseService) (rt : Runtime) (op : Op) :
    (∀ a ∈ (op.perform self rt).requests,
      a.options = op.bodyArg.map fun o => [("body", rt.JSON_stringify o)]) ∧
    (∀ call ∈ (op.perform self rt).fetches,
      call.init =
          [("method", JSVal.str op.method), ("headers", defaultHeaders self.token)] ++
            (match op.bodyArg with
              | some o => [("body", rt.JSON_stringify o)]
              | none => []) ∧
        headerOf call.init "Content-Type" = JSVal.str "application/json") ∧
    (op.bodyArg.isSome = true ↔
      op.name ∈
        ["createApplication", "updateApplication", "createCluster", "updateCluster",
         "createProject", "updateProject", "createRepository", "updateRepository",
         "createCertificate", "createGPGKey", "createSession", "createUser", "updateUser",
         "updatePassword", "createToken"]) := by
  refine ⟨?_, ?_, ?_⟩
  · intro a ha
    rcases perform_route self rt op with ⟨q, hp⟩ | ⟨e, hp⟩
    · rw [hp, request_requests] at ha
      simp only [List.mem_singleton] at ha
      subst ha
      rfl
    · rw [hp] at ha
      simp at ha
  · intro call hc
    rcases perform_route self rt op with ⟨q, hp⟩ | ⟨e, hp⟩
    · rw [hp] at hc
      obtain ⟨_, hi⟩ := mem_request_fetches self rt _ _ _ call hc
      rw [hi]
      unfold Op.options
      cases op.bodyArg with
      | none => exact ⟨rfl, rfl⟩
      | some o => exact ⟨rfl, rfl⟩
    · rw [hp] at hc
      simp at hc
  · cases op <;> simp [Op.bodyArg, Op.name]

/-- C14 at a concrete input: `createProject(project)` sends the serialized project
with `Content-Type: application/json`. -/
theorem C14_bodies_of_mutating_operations_witness :
    ({ url := "https://argocd.example.com/api/v1/projects",
       init := [("method", JSVal.str "POST"), ("headers", defaultHeaders "test-token"),
                ("body", JSVal.str "\x7b\"metadata\":\x7b\"name\":\"p\"\x7d\x7d")] } :
        FetchCall).init =
        [("method", JSVal.str "POST"), ("headers", defaultHeaders "test-token")] ++
          [("body", JSON_stringify
            (JSVal.obj [("metadata", JSVal.obj [("name", JSVal.str "p")])]))] ∧
      headerOf
          ({ url := "https://argocd.example.com/api/v1/projects",
             init := [("method", JSVal.str "POST"), ("headers", defaultHeaders "test-token"),
                      ("body", JSVal.str "\x7b\"metadata\":\x7b\"name\":\"p\"\x7d\x7d")] } :
            FetchCall).init "Content-Type" = JSVal.str "application/json" :=
  (C14_bodies_of_mutating_operations (BaseService.new testConfig)
      (hostWith (mockResolvedValue (jsonResponse true 200 (JSVal.obj []))))
      (Op.createProject (JSVal.obj [("metadata", JSVal.obj [("name", JSVal.str "p")])]))).2.1
    { url := "https://argocd.example.com/api/v1/projects",
      init := [("method", JSVal.str "POST"), ("headers", defaultHeaders "test-token"),
               ("body", JSVal.str "\x7b\"metadata\":\x7b\"name\":\"p\"\x7d\x7d")] }
    (by decide)

/-- C15: the path that a wrapper hands to `_request` starts with its path template
filled in with the identifiers exactly as supplied (what follows is the query string,
if any), so each identifier occurs in the path unchanged, character for character;
for `getApplication` the filled-in template is `'/api/v1/applications/' ++ name ++ '?'`. -/
theorem C15_identifiers_verbatim (self : BaseService) (rt : Runtime) (op : Op)
    (a : RequestArgs) (ha : a ∈ (op.perform self rt).requests) :
    (weave op.pieces op.identifiers).data <+: a.path.data ∧
      (∀ id ∈ op.identifiers, id.data <:+: a.path.data) ∧
      (∀ (name : String) (params : Option Obj),
        weave (Op.getApplication name params).pieces
            (Op.getApplication name params).identifiers =
          "/api/v1/applications/" ++ name ++ "?") := by
  rcases perform_route self rt op with ⟨q, hp⟩ | ⟨e, hp⟩
  · rw [hp, request_requests] at ha
    simp only [List.mem_singleton] at ha
    subst ha
    refine ⟨⟨q.data, ?_⟩, ?_, fun name params => rfl⟩
    · show (weave op.pieces op.identifiers).data ++ q.data = (op.stem ++ q).data
      rw [String.data_append]
      rfl
    · intro id hid
      obtain ⟨pre, post, hs⟩ := stem_contains op id hid
      refine ⟨pre.data, post.data ++ q.data, ?_⟩
      show pre.data ++ id.data ++ (post.data ++ q.data) = (op.stem ++ q).data
      rw [hs]
      simp only [String.data_append, List.append_assoc]
  · rw [hp] at ha
    simp at ha

/-- C15 at a concrete input: `getApplication` with a name made of characters that are
special in URLs passes a path in which the name stands unchanged. -/
theorem C15_identifiers_verbatim_witness :
    "a b/../c?d#e%".data <:+: "/api/v1/applications/a b/../c?d#e%?".data :=
  (C15_identifiers_verbatim (BaseService.new testConfig)
      (hostWith (mockResolvedValue (jsonResponse true 200 (JSVal.obj []))))
      (Op.getApplication "a b/../c?d#e%" none)
      { method := "GET", path := "/api/v1/applications/a b/../c?d#e%?", options := none }
      (by decide)).2.1 "a b/../c?d#e%" (by decide)

/-! ## Lemmas on the calls made -/

/-- A call of `_request` whose URL cannot be constructed does not invoke `fetch`. -/
theorem request_fetches_error (self : BaseService) (rt : Runtime) (method path : String)
    (options : Option Obj) (e : Thrown) (hu : rt.URL path self.baseUrl = Except.error e) :
    (self._request rt method path options).fetches = [] := by
  unfold BaseService._request
  rw [hu]

/-- The invocations of `_request` and of `fetch` made by `_request` do not depend on
what `fetch` answers. -/
theorem request_calls_congr (self : BaseService) (rt : Runtime)
    (fetch2 : String → Obj → Settled Response) (method path : String)
    (options : Option Obj) :
    (self._request rt method path options).requests =
        (self._request { rt with fetch := fetch2 } method path options).requests ∧
      (self._request rt method path options).fetches =
        (self._request { rt with fetch := fetch2 } method path options).fetches := by
  constructor
  · rw [request_requests, request_requests]
  · cases hu : rt.URL path self.baseUrl with
    | error e =>
      rw [request_fetches_error self rt method path options e hu,
        request_fetches_error self { rt with fetch := fetch2 } method path options e hu]
    | ok url =>
      rw [request_fetches self rt method path options url hu,
        request_fetches self { rt with fetch := fetch2 } method path options url hu]

/-- The invocations of `_request` and of `fetch` made by a wrapper do not depend on
what `fetch` answers. -/
theorem perform_calls_congr (self : BaseService) (rt : Runtime)
    (fetch2 : String → Obj → Settled Response) (op : Op) :
    (op.perform self rt).requests = (op.perform self { rt with fetch := fetch2 }).requests ∧
      (op.perform self rt).fetches =
        (op.perform self { rt with fetch := fetch2 }).fetches := by
  cases op
  case listApplications params =>
    simp only [Op.perform, ApplicationService.listApplications]
    split
    · exact ⟨rfl, rfl⟩
    · exact request_calls_congr self rt fetch2 _ _ _
  case syncApplication name params =>
    simp only [Op.perform, ApplicationService.syncApplication]
    split
    · exact ⟨rfl, rfl⟩
    · exact request_calls_congr self rt fetch2 _ _ _
  all_goals exact request_calls_congr self rt fetch2 _ _ _

/-- The result of `_request` when `fetch` rejects: the same rejection. -/
theorem request_result_rejected (self : BaseService) (rt : Runtime) (method path : String)
    (options : Option Obj) (url : String) (e : Thrown)
    (hu : rt.URL path self.baseUrl = Except.ok url)
    (hf : rt.fetch url (self.init method (options.getD [])) = Settled.rejected e) :
    (self._request rt method path options).result = Settled.rejected e := by
  unfold BaseService._request
  rw [hu]
  dsimp only
  rw [hf]

/-! ## Lemmas on the modelled URL parser -/

/-- Percent-encoding a list of characters that are all outside the set changes
nothing. -/
theorem percentEncode_fixed (inSet : Nat → Bool) (cs : List Char)
    (h : cs.all (fun c => !inSet c.toNat) = true) :
    (cs.map (percentEncodeChar inSet)).flatten = cs := by
  induction cs with
  | nil => rfl
  | cons c rest ih =>
    simp only [List.all_cons, Bool.and_eq_true, Bool.not_eq_true'] at h
    simp only [List.map_cons, List.flatten_cons, percentEncodeChar, h.1]
    rw [ih h.2]
    rfl

/-- A list read up to the first `#` and from it on. -/
theorem takeWhile_dropWhile_hash (cs : List Char) :
    (cs.dropWhile (fun c => c != '#') = [] ∧ cs.takeWhile (fun c => c != '#') = cs) ∨
      ∃ frag, cs.dropWhile (fun c => c != '#') = '#' :: frag ∧
        cs = cs.takeWhile (fun c => c != '#') ++ '#' :: frag := by
  induction cs with
  | nil => left; exact ⟨rfl, rfl⟩
  | cons c rest ih =>
    by_cases hc : c = '#'
    · subst hc
      right
      exact ⟨rest, by simp [List.dropWhile], by simp [List.takeWhile]⟩
    · have hb : (c != '#') = true := by simpa using hc
      rcases ih with ⟨h1, h2⟩ | ⟨frag, h1, h2⟩
      · left
        simp only [List.dropWhile, List.takeWhile, hb, h1, h2, and_self]
      · right
        refine ⟨frag, by simp only [List.dropWhile, hb, h1], ?_⟩
        simp only [List.takeWhile, hb, List.cons_append]
        rw [← h2]

/-- A stable query and fragment is serialized as it was written. -/
theorem queryAndFragment_stable (c : Char) (cs : List Char) (hc : c = '?' ∨ c = '#')
    (h : stableTail (c :: cs) = true) : queryAndFragment (c :: cs) = c :: cs := by
  rcases hc with hq | hq
  · subst hq
    simp only [stableTail, Bool.and_eq_true] at h
    simp only [queryAndFragment]
    rw [percentEncode_fixed _ _ h.1]
    rcases takeWhile_dropWhile_hash cs with ⟨h1, h2⟩ | ⟨frag, h1, h2⟩
    · rw [h1, h2]
      simp
    · rw [h1] at h ⊢
      dsimp only at h ⊢
      rw [percentEncode_fixed _ _ h.2]
      simp only [List.cons_append, List.cons.injEq, true_and]
      exact h2.symm
  · subst hq
    have h2 : cs.all (fun c => !inFragmentSet c.toNat) = true := h
    show '#' :: (cs.map (percentEncodeChar inFragmentSet)).flatten = '#' :: cs
    rw [percentEncode_fixed _ _ h2]

/-- Serialization of path segments. -/
theorem segments_append (path : List (List Char)) (buffer : List Char) :
    ((path ++ [buffer]).map (fun seg => '/' :: seg)).flatten =
      (path.map (fun seg => '/' :: seg)).flatten ++ '/' :: buffer := by
  simp

/-- The end of a segment that is not a dot segment adds it to the path. -/
theorem endSegment_plain (path : List (List Char)) (buffer : List Char) (slash : Bool)
    (h : notDotSegment buffer = true) : endSegment path buffer slash = path ++ [buffer] := by
  simp only [notDotSegment, Bool.and_eq_true, Bool.not_eq_true'] at h
  simp [endSegment, h.1, h.2]

/-- The path state on a stable input: the segments, followed by the query and
fragment, serialize to the input. -/
theorem pathState_stable (cs : List Char) (path : List (List Char)) (buffer : List Char)
    (h : stablePath cs buffer = true) :
    ((pathState cs path buffer).1.map (fun seg => '/' :: seg)).flatten ++
        queryAndFragment (pathState cs path buffer).2 =
      (path.map (fun seg => '/' :: seg)).flatten ++ '/' :: buffer ++ cs := by
  induction cs generalizing path buffer with
  | nil =>
    simp only [stablePath] at h
    simp only [pathState, endSegment_plain path buffer false h, segments_append]
    simp [queryAndFragment]
  | cons c rest ih =>
    unfold stablePath at h
    by_cases h1 : c = '/'
    · subst h1
      simp only [if_true, Bool.and_eq_true] at h
      have hp : pathState ('/' :: rest) path buffer =
          pathState rest (endSegment path buffer true) [] := by
        simp [pathState]
      rw [hp, endSegment_plain path buffer true h.1, ih _ _ h.2, segments_append]
      simp
    · simp only [h1, if_false] at h
      by_cases h2 : c = '?' ∨ c = '#'
      · simp only [h2, if_true, Bool.and_eq_true] at h
        have hne : ¬ (c = '/' ∨ c = '\\') := by
          rcases h2 with rfl | rfl <;> decide
        have hp : pathState (c :: rest) path buffer =
            (endSegment path buffer false, c :: rest) := by
          simp [pathState, hne, h2]
        rw [hp, endSegment_plain path buffer false h.1]
        dsimp only
        rw [queryAndFragment_stable c rest h2 h.2, segments_append]
      · simp only [h2, if_false, Bool.and_eq_true, bne_iff_ne, ne_eq,
          Bool.not_eq_true'] at h
        obtain ⟨⟨hb, hs⟩, hr⟩ := h
        have hne : ¬ (c = '/' ∨ c = '\\') := by
          rintro (e | e)
          · exact h1 e
          · exact hb e
        have hp : pathState (c :: rest) path buffer = pathState rest path (buffer ++ [c]) := by
          simp [pathState, hne, h2, percentEncodeChar, hs]
        rw [hp, ih _ _ hr]
        simp

/-- Preprocessing leaves a list without controls and spaces unchanged. -/
theorem stripInput_fixed (cs : List Char) (h : ∀ c ∈ cs, isC0OrSpace c = false) :
    stripInput cs = cs := by
  have hd : ∀ l : List Char, (∀ c ∈ l, isC0OrSpace c = false) →
      l.dropWhile isC0OrSpace = l := by
    intro l hl
    cases l with
    | nil => rfl
    | cons c rest => simp [List.dropWhile, hl c (by simp)]
  have hf : cs.filter (fun c => !isTabOrNewline c) = cs := by
    rw [List.filter_eq_self]
    intro c hc
    have h0 := h c hc
    simp only [isC0OrSpace, decide_eq_false_iff_not, not_le] at h0
    simp only [isTabOrNewline, Bool.not_eq_true', Bool.or_eq_false_iff, beq_eq_false_iff_ne]
    omega
  unfold stripInput
  rw [hd cs h, hd cs.reverse (fun c hc => h c (List.mem_reverse.mp hc)), List.reverse_reverse, hf]

/-- A character outside the fragment percent-encode set is no control and no space. -/
theorem visible_of_not_inFragmentSet (c : Char) (h : inFragmentSet c.toNat = false) :
    isC0OrSpace c = false := by
  simp only [inFragmentSet, inC0ControlSet, Bool.or_eq_false_iff, decide_eq_false_iff_not,
    beq_eq_false_iff_ne] at h
  simp only [isC0OrSpace, decide_eq_false_iff_not]
  omega

/-- A character outside the query percent-encode set is no control and no space. -/
theorem visible_of_not_inQuerySet (c : Char) (h : inQuerySet c.toNat = false) :
    isC0OrSpace c = false := by
  simp only [inQuerySet, inC0ControlSet, Bool.or_eq_false_iff, decide_eq_false_iff_not,
    beq_eq_false_iff_ne] at h
  simp only [isC0OrSpace, decide_eq_false_iff_not]
  omega

/-- A stable query and fragment has no control and no space. -/
theorem stableTail_visible (c : Char) (cs : List Char) (hc : c = '?' ∨ c = '#')
    (h : stableTail (c :: cs) = true) : ∀ x ∈ c :: cs, isC0OrSpace x = false := by
  have hfrag : ∀ l : List Char, l.all (fun c => !inFragmentSet c.toNat) = true →
      ∀ x ∈ l, isC0OrSpace x = false := by
    intro l hl x hx
    simp only [List.all_eq_true, Bool.not_eq_true'] at hl
    exact visible_of_not_inFragmentSet x (hl x hx)
  have hquery : ∀ l : List Char, l.all (fun c => !inSpecialQuerySet c.toNat) = true →
      ∀ x ∈ l, isC0OrSpace x = false := by
    intro l hl x hx
    simp only [List.all_eq_true, Bool.not_eq_true'] at hl
    have := hl x hx
    simp only [inSpecialQuerySet, Bool.or_eq_false_iff] at this
    exact visible_of_not_inQuerySet x this.1
  intro x hx
  rcases List.mem_cons.mp hx with e | hx2
  · subst e
    rcases hc with rfl | rfl <;> decide
  · rcases hc with hq | hq
    · subst hq
      simp only [stableTail, Bool.and_eq_true] at h
      rcases takeWhile_dropWhile_hash cs with ⟨h1, h2⟩ | ⟨frag, h1, h2⟩
      · rw [h2] at h
        exact hquery cs h.1 x hx2
      · rw [h1] at h
        dsimp only at h
        rw [h2] at hx2
        rcases List.mem_append.mp hx2 with hx3 | hx3
        · exact hquery _ h.1 x hx3
        · rcases List.mem_cons.mp hx3 with e | hx4
          · subst e; decide
          · exact hfrag frag h.2 x hx4
    · subst hq
      exact hfrag cs h x hx2

/-- A stable path has no control and no space. -/
theorem stablePath_visible (cs buffer : List Char) (h : stablePath cs buffer = true) :
    ∀ x ∈ cs, isC0OrSpace x = false := by
  induction cs generalizing buffer with
  | nil => simp
  | cons c rest ih =>
    unfold stablePath at h
    by_cases h1 : c = '/'
    · subst h1
      simp only [if_true, Bool.and_eq_true] at h
      intro x hx
      rcases List.mem_cons.mp hx with e | hx
      · subst e; decide
      · exact ih [] h.2 x hx
    · simp only [h1, if_false] at h
      by_cases h2 : c = '?' ∨ c = '#'
      · simp only [h2, if_true, Bool.and_eq_true] at h
        exact stableTail_visible c rest h2 h.2
      · simp only [h2, if_false, Bool.and_eq_true, bne_iff_ne, ne_eq,
          Bool.not_eq_true'] at h
        obtain ⟨⟨_, hs⟩, hr⟩ := h
        intro x hx
        rcases List.mem_cons.mp hx with e | hx
        · subst e
          simp only [inPathSet, Bool.or_eq_false_iff] at hs
          exact visible_of_not_inQuerySet x hs.1.1.1.1.1
        · exact ih _ hr x hx

/-- On a bare origin and a stable path, the modelled URL constructor gives the base
URL followed by the path. -/
theorem URL_href_stable (path base : String) (hb : isBareOrigin base = true)
    (hp : stableInput path = true) : URL_href path base = Except.ok (base ++ path) := by
  have ho : originOf base.data = some base.data := by
    simpa [isBareOrigin] using hb
  unfold stableInput at hp
  cases hd : path.data with
  | nil => rw [hd] at hp; simp at hp
  | cons c rest =>
    rw [hd] at hp
    by_cases hc : c = '/'
    · subst hc
      simp only [Bool.and_eq_true, bne_iff_ne, ne_eq] at hp
      obtain ⟨hhead, hstable⟩ := hp
      have hstrip : stripInput path.data = '/' :: rest := by
        rw [hd]
        apply stripInput_fixed
        intro x hx
        rcases List.mem_cons.mp hx with e | hx
        · subst e; decide
        · exact stablePath_visible rest [] hstable x hx
      have hser := pathState_stable rest [] [] hstable
      simp only [List.map_nil, List.flatten_nil, List.nil_append] at hser
      have hdata : (base ++ path).data = base.data ++ '/' :: rest := by
        rw [String.data_append, hd]
      unfold URL_href
      rw [ho, hstrip]
      simp only []
      split
      · rename_i heq
        simp at hhead
      · rename_i heq
        simp [stablePath] at hstable
      · apply congrArg Except.ok
        apply String.ext
        rw [hdata]
        simp only [List.append_assoc, List.append_cancel_left_eq]
        exact hser
    · exfalso
      revert hp
      split
      · rename_i heq
        simp only [List.cons.injEq] at heq
        exact absurd heq.1 hc
      · simp
/-! ## URL resolution: claim C17 -/

/-- C17, the code at paths that the URL parser rewrites: with the bare origin
`https://argocd.example.com` as base, the path `/api/v1/applications/../clusters`
starts with `/`, and `fetch` is called with the URL
`https://argocd.example.com/api/v1/clusters`, which is not the base URL followed by the
path; likewise `/api/v1/projects/a b` is requested as `/api/v1/projects/a%20b`. The
first argument of `fetch` is the `URL` object built by `new URL(path, baseUrl)`,
represented here by its `href`, and not the string `baseUrl + path`. -/
theorem C17_path_normalized :
    ((BaseService.new testConfig)._request
        (hostWith (mockResolvedValue (jsonResponse true 200 JSVal.null)))
        "GET" "/api/v1/applications/../clusters" none).fetches.map (fun call => call.url) =
      ["https://argocd.example.com/api/v1/clusters"] ∧
    "https://argocd.example.com/api/v1/clusters" ≠
      testConfig.baseUrl ++ "/api/v1/applications/../clusters" ∧
    ((BaseService.new testConfig)._request
        (hostWith (mockResolvedValue (jsonResponse true 200 JSVal.null)))
        "GET" "/api/v1/projects/a b" none).fetches.map (fun call => call.url) =
      ["https://argocd.example.com/api/v1/projects/a%20b"] ∧
    "https://argocd.example.com/api/v1/projects/a%20b" ≠
      testConfig.baseUrl ++ "/api/v1/projects/a b" := by
  decide

/-! ## Transport failures: claim C18 -/

/-- C18: when `fetch` rejects with `e`, `_request` is rejected with the same `e`,
after that one `fetch` call: it returns no value, and it is rejected with a status
error `HTTP error! status: <s>` only if `e` itself is that error; every wrapper
operation whose `fetch` call was rejected with `e` is rejected with `e` too. -/
theorem C18_transport_failure_propagates (self : BaseService) (rt : Runtime) (e : Thrown) :
    (∀ (method path : String) (options : Option Obj) (url : String),
      rt.URL path self.baseUrl = Except.ok url →
      rt.fetch url (self.init method (options.getD [])) = Settled.rejected e →
      (self._request rt method path options).result = Settled.rejected e ∧
        (self._request rt method path options).fetches =
          [{ url := url, init := self.init method (options.getD []) }] ∧
        (∀ v : JSVal,
          (self._request rt method path options).result ≠ Settled.fulfilled v) ∧
        (∀ status : Nat,
          e ≠ Thrown.Error ("HTTP error! status: " ++ Nat.repr status) →
          (self._request rt method path options).result ≠
            Settled.rejected (Thrown.Error ("HTTP error! status: " ++ Nat.repr status)))) ∧
    (∀ (op : Op) (call : FetchCall),
      (op.perform self rt).fetches = [call] →
      rt.fetch call.url call.init = Settled.rejected e →
      (op.perform self rt).result = Settled.rejected e) := by
  have core : ∀ (method path : String) (options : Option Obj) (url : String),
      rt.URL path self.baseUrl = Except.ok url →
      rt.fetch url (self.init method (options.getD [])) = Settled.rejected e →
      (self._request rt method path options).result = Settled.rejected e :=
    fun method path options url hu hf =>
      request_result_rejected self rt method path options url e hu hf
  constructor
  · intro method path options url hu hf
    have hr := core method path options url hu hf
    refine ⟨hr, request_fetches self rt method path options url hu, ?_, ?_⟩
    · intro v
      rw [hr]
      exact fun h => nomatch h
    · intro status hne
      rw [hr]
      intro h
      exact hne (Settled.rejected.inj h)
  · intro op call hc hf
    rcases perform_cases self rt op with ⟨m, p, o, hp⟩ | ⟨e2, hp⟩
    · rw [hp] at hc ⊢
      obtain ⟨hu, hi⟩ := request_fetches_inv self rt m p o call hc
      rw [hi] at hf
      exact core m p o call.url hu hf
    · rw [hp] at hc
      simp at hc

/-- C18 at a concrete input: a `fetch` that rejects with `TypeError: fetch failed`
makes `_request` reject with that `TypeError`. -/
theorem C18_transport_failure_propagates_witness :
    ((BaseService.new testConfig)._request
        (hostWith (mockRejectedValue (Thrown.TypeError "fetch failed")))
        "GET" "/api/v1/test" none).result =
      Settled.rejected (Thrown.TypeError "fetch failed") :=
  ((C18_transport_failure_propagates (BaseService.new testConfig)
      (hostWith (mockRejectedValue (Thrown.TypeError "fetch failed")))
      (Thrown.TypeError "fetch failed")).1
    "GET" "/api/v1/test" none "https://argocd.example.com/api/v1/test"
    (by decide) (by decide)).1

/-! ## Resource parameters: claim C19 -/

/-- C19, refuted as stated: in `getApplicationResource('app', { namespace: 'ns',
resourceName: 'r', version: 'v1', kind: 'Pod', group: '' })` the parameter `group` is
supplied, and the query string has no `group` entry. -/
theorem C19_group_supplied_but_empty :
    List.lookup "group"
        [("namespace", JSVal.str "ns"), ("resourceName", JSVal.str "r"),
         ("version", JSVal.str "v1"), ("kind", JSVal.str "Pod"), ("group", JSVal.str "")] =
      some (JSVal.str "") ∧
    (ApplicationService.getApplicationResource (ApplicationService.new testConfig)
        (hostWith (mockResolvedValue (jsonResponse true 200 (JSVal.obj []))))
        "app"
        [("namespace", JSVal.str "ns"), ("resourceName", JSVal.str "r"),
         ("version", JSVal.str "v1"), ("kind", JSVal.str "Pod"),
         ("group", JSVal.str "")]).requests =
      [{ method := "GET",
         path := "/api/v1/applications/app/resource?namespace=ns&resourceName=r&version=v1&kind=Pod",
         options := none }] := by
  decide

/-- C19, amended: for `getApplicationResource` and `listApplicationResourceActions` and
every `params` object, the query is built from the entries `namespace`,
`resourceName`, `version`, `kind`, always and in that order, followed by a `group`
entry exactly when `params.group` is truthy; `runApplicationResourceAction` has in
addition an `action` entry, always, after `kind` and before `group`; the pieces of the
query string between `&` are exactly these entries serialized as `key=value`. -/
theorem C19_resource_parameters (self : BaseService) (rt : Runtime) (name : String)
    (params : Obj) :
    (ApplicationService.getApplicationResource self rt name params).requests =
      [{ method := "GET",
         path := "/api/v1/applications/" ++ name ++ "/resource?" ++
           (URLSearchParams.mk
             (requiredEntry params "namespace" ++ requiredEntry params "resourceName" ++
               requiredEntry params "version" ++ requiredEntry params "kind" ++
               presentEntry params "group")).toString,
         options := none }] ∧
    (ApplicationService.listApplicationResourceActions self rt name params).requests =
      [{ method := "GET",
         path := "/api/v1/applications/" ++ name ++ "/resource/actions?" ++
           (URLSearchParams.mk
             (requiredEntry params "namespace" ++ requiredEntry params "resourceName" ++
               requiredEntry params "version" ++ requiredEntry params "kind" ++
               presentEntry params "group")).toString,
         options := none }] ∧
    (ApplicationService.runApplicationResourceAction self rt name params).requests =
      [{ method := "POST",
         path := "/api/v1/applications/" ++ name ++ "/resource/actions?" ++
           (URLSearchParams.mk
             (requiredEntry params "namespace" ++ requiredEntry params "resourceName" ++
               requiredEntry params "version" ++ requiredEntry params "kind" ++
               requiredEntry params "action" ++ presentEntry params "group")).toString,
         options := none }] ∧
    (∀ k : String, requiredEntry params k = [(k, (Obj.get params k).ToString)]) ∧
    ((Obj.get params "group").truthy = true →
      presentEntry params "group" = [("group", (Obj.get params "group").ToString)]) ∧
    ((Obj.get params "group").truthy = false → presentEntry params "group" = []) ∧
    (∀ entries : List (String × String),
      components (URLSearchParams.mk entries).toString = entries.map serializePair) := by
  refine ⟨?_, ?_, ?_, fun k => rfl, ?_, ?_, fun entries => components_toString _⟩
  · unfold ApplicationService.getApplicationResource
    simp only [append_if_present]
    simp only [append_required, request_requests, URLSearchParams.new, List.nil_append]
  · unfold ApplicationService.listApplicationResourceActions
    simp only [append_if_present]
    simp only [append_required, request_requests, URLSearchParams.new, List.nil_append]
  · unfold ApplicationService.runApplicationResourceAction
    simp only [append_if_present]
    simp only [append_required, request_requests, URLSearchParams.new, List.nil_append]
  · intro h
    simp [presentEntry, h]
  · intro h
    simp [presentEntry, h]

/-- C19 amended, at a concrete input: `runApplicationResourceAction` with a group. -/
theorem C19_resource_parameters_witness :
    presentEntry
        [("group", JSVal.str "apps"), ("action", JSVal.str "restart"),
         ("kind", JSVal.str "Deployment"), ("version", JSVal.str "v1"),
         ("resourceName", JSVal.str "web"), ("namespace", JSVal.str "prod")] "group" =
      [("group", "apps")] :=
  (C19_resource_parameters (ApplicationService.new testConfig)
      (hostWith (mockResolvedValue (jsonResponse true 200 (JSVal.obj []))))
      "app"
      [("group", JSVal.str "apps"), ("action", JSVal.str "restart"),
       ("kind", JSVal.str "Deployment"), ("version", JSVal.str "v1"),
       ("resourceName", JSVal.str "web"), ("namespace", JSVal.str "prod")]).2.2.2.2.1
    (by decide)

/-! ## Lemmas for claims C21 to C26 -/

/-- A filled-in template starts with what its first piece starts with. -/
theorem weave_head (p0 : String) (pieces ids : List String) (start : String)
    (h : start.data <+: p0.data) : start.data <+: (weave (p0 :: pieces) ids).data := by
  obtain ⟨r, hr⟩ := weaveFrom_start pieces ids p0
  obtain ⟨t, ht⟩ := h
  refine ⟨t ++ r.data, ?_⟩
  show start.data ++ (t ++ r.data) = (weaveFrom p0 pieces ids).data
  rw [hr, String.data_append, ← ht, List.append_assoc]

/-- The path stem of every operation starts with `/api/v1/` and the resource root of
its service. -/
theorem stem_root (op : Op) :
    ("/api/v1/" ++ resourceRoot op.service).data <+: op.stem.data := by
  cases op <;> exact weave_head _ _ _ _ (by simp only [Op.service]; decide)

/-- The HTTP method of every operation is one of the four. -/
theorem method_known (op : Op) : op.method ∈ ["GET", "POST", "PUT", "DELETE"] := by
  cases op <;> simp only [Op.method] <;> decide

/-! ## Methods and paths: claim C21 -/

/-- C21: every call that a wrapper operation makes to `_request` has a method among
`GET`, `POST`, `PUT`, `DELETE` (the method of the operation) and a path that starts
with `/api/v1/` followed by the resource root of the service of the operation:
`applications`, `clusters`, `projects`, `repositories`, `certificates`, `gpgkeys`,
`notifications/`, `session`, `settings`, `users`, `version` or `account`; the `fetch`
call carries the same method. -/
theorem C21_methods_and_resource_roots (self : BaseService) (rt : Runtime) (op : Op)
    (a : RequestArgs) (ha : a ∈ (op.perform self rt).requests) :
    a.method = op.method ∧
      a.method ∈ ["GET", "POST", "PUT", "DELETE"] ∧
      ("/api/v1/" ++ resourceRoot op.service).data <+: a.path.data ∧
      resourceRoot op.service ∈
        ["applications", "clusters", "projects", "repositories", "certificates", "gpgkeys",
         "notifications/", "session", "settings", "users", "version", "account"] ∧
      (∀ call ∈ (op.perform self rt).fetches,
        Obj.get call.init "method" = JSVal.str op.method) := by
  rcases perform_route self rt op with ⟨q, hp⟩ | ⟨e, hp⟩
  · rw [hp] at ha ⊢
    rw [request_requests] at ha
    simp only [List.mem_singleton] at ha
    subst ha
    refine ⟨rfl, method_known op, ?_, ?_, ?_⟩
    · obtain ⟨t, ht⟩ := stem_root op
      refine ⟨t ++ q.data, ?_⟩
      show _ = (op.stem ++ q).data
      rw [String.data_append (op.stem) q, ← ht, List.append_assoc]
    · cases op <;> simp only [Op.service] <;> decide
    · intro call hc
      obtain ⟨_, hi⟩ := mem_request_fetches self rt _ _ _ call hc
      rw [hi]
      unfold Op.options
      cases op.bodyArg with
      | none => rfl
      | some o => rfl
  · rw [hp] at ha
    simp at ha

/-- C21 at a concrete input: `listTemplates()` issues `GET` on a path that starts
with `/api/v1/notifications/`. -/
theorem C21_methods_and_resource_roots_witness :
    ("GET" : String) ∈ ["GET", "POST", "PUT", "DELETE"] ∧
      "/api/v1/notifications/".data <+: "/api/v1/notifications/templates".data :=
  ⟨(C21_methods_and_resource_roots (BaseService.new testConfig)
      (hostWith (mockResolvedValue (jsonResponse true 200 (JSVal.obj []))))
      Op.listTemplates
      { method := "GET", path := "/api/v1/notifications/templates", options := none }
      (by decide)).2.1,
   (C21_methods_and_resource_roots (BaseService.new testConfig)
      (hostWith (mockResolvedValue (jsonResponse true 200 (JSVal.obj []))))
      Op.listTemplates
      { method := "GET", path := "/api/v1/notifications/templates", options := none }
      (by decide)).2.2.1⟩

/-! ## Colliding project requests: claim C23 -/

/-- C23: the mapping from operation and arguments to request is not injective. For
every project name `n`, `getProject(n + "/detailed")` gives the same outcome (the same
call to `_request` with method `GET` and the same path, hence the same `fetch` calls
and the same result) as `getDetailedProject(n)`; `getProject(n + "/events")` gives the
same as `getProjectEvents(n)`; and `getProject("global")` the same as
`getGlobalProjects()`. The common requests are `GET /api/v1/projects/<n>/detailed`,
`GET /api/v1/projects/<n>/events` and `GET /api/v1/projects/global`. -/
theorem C23_project_requests_collide (self : BaseService) (rt : Runtime) (n : String) :
    ProjectService.getProject self rt (n ++ "/detailed")
        = ProjectService.getDetailedProject self rt n ∧
      ProjectService.getProject self rt (n ++ "/events")
        = ProjectService.getProjectEvents self rt n ∧
      ProjectService.getProject self rt "global"
        = ProjectService.getGlobalProjects self rt ∧
      (ProjectService.getDetailedProject self rt n).requests
        = [{ method := "GET", path := "/api/v1/projects/" ++ n ++ "/detailed",
             options := none }] ∧
      (ProjectService.getProjectEvents self rt n).requests
        = [{ method := "GET", path := "/api/v1/projects/" ++ n ++ "/events",
             options := none }] ∧
      (ProjectService.getGlobalProjects self rt).requests
        = [{ method := "GET", path := "/api/v1/projects/global", options := none }] ∧
      Op.perform self rt (Op.getProject (n ++ "/detailed"))
        = Op.perform self rt (Op.getDetailedProject n) ∧
      Op.getProject (n ++ "/detailed") ≠ Op.getDetailedProject n := by
  refine ⟨?_, ?_, ?_, ?_, ?_, ?_, ?_, ?_⟩
  · unfold ProjectService.getProject ProjectService.getDetailedProject
    rw [String.append_assoc]
  · unfold ProjectService.getProject ProjectService.getProjectEvents
    rw [String.append_assoc]
  · rfl
  · unfold ProjectService.getDetailedProject
    rw [request_requests]
  · unfold ProjectService.getProjectEvents
    rw [request_requests]
  · unfold ProjectService.getGlobalProjects
    rw [request_requests]
  · show ProjectService.getProject self rt (n ++ "/detailed")
      = ProjectService.getDetailedProject self rt n
    unfold ProjectService.getProject ProjectService.getDetailedProject
    rw [String.append_assoc]
  · intro h
    cases h

/-! ## The facade and the services: claim C24 -/

/-- C24: for a client `new ArgoCD(config)`, the method `_request` of the facade gives,
for every method, path, options and host, the same outcome as `_request` of a
`BaseService` built from the same configuration (the same URL, the same `fetch` init,
the same result or the same error), and each of the seventeen application and account
methods defined on the facade gives the same outcome (the same call to `_request`:
method, path and body; hence the same `fetch` calls and result) as the same-named
method of its `application` or `account` service. -/
theorem C24_facade_matches_services (config : ClientConfig) (rt : Runtime) :
    (∀ (method path : String) (options : Option Obj),
        (ArgoCD.new config)._request rt method path options
          = (BaseService.new config)._request rt method path options) ∧
      (ArgoCD.new config).listAccounts rt
        = AccountService.listAccounts (ArgoCD.new config).account rt ∧
      (∀ resource action subresource : String,
        (ArgoCD.new config).canI rt resource action subresource
          = AccountService.canI (ArgoCD.new config).account rt resource action subresource) ∧
      (∀ request : JSVal,
        (ArgoCD.new config).updatePassword rt request
          = AccountService.updatePassword (ArgoCD.new config).account rt request) ∧
      (∀ name : String,
        (ArgoCD.new config).getAccount rt name
          = AccountService.getAccount (ArgoCD.new config).account rt name) ∧
      (∀ (name : String) (request : JSVal),
        (ArgoCD.new config).createToken rt name request
          = AccountService.createToken (ArgoCD.new config).account rt name request) ∧
      (∀ name id : String,
        (ArgoCD.new config).deleteToken rt name id
          = AccountService.deleteToken (ArgoCD.new config).account rt name id) ∧
      (∀ params : Option Obj,
        (ArgoCD.new config).listApplications rt params
          = ApplicationService.listApplications (ArgoCD.new config).application rt params) ∧
      (∀ (name : String) (params : Option Obj),
        (ArgoCD.new config).getApplication rt name params
          = ApplicationService.getApplication (ArgoCD.new config).application rt name
              params) ∧
      (∀ application upsert validate : JSVal,
        (ArgoCD.new config).createApplication rt application upsert validate
          = ApplicationService.createApplication (ArgoCD.new config).application rt
              application upsert validate) ∧
      (∀ (name : String) (params : Option Obj),
        (ArgoCD.new config).deleteApplication rt name params
          = ApplicationService.deleteApplication (ArgoCD.new config).application rt name
              params) ∧
      (∀ (name : String) (application validate : JSVal),
        (ArgoCD.new config).updateApplication rt name application validate
          = ApplicationService.updateApplication (ArgoCD.new config).application rt name
              application validate) ∧
      (∀ (name : String) (params : Option Obj),
        (ArgoCD.new config).syncApplication rt name params
          = ApplicationService.syncApplication (ArgoCD.new config).application rt name
              params) ∧
      (∀ (name : String) (params : Option Obj),
        (ArgoCD.new config).getApplicationManifests rt name params
          = ApplicationService.getApplicationManifests (ArgoCD.new config).application rt
              name params) ∧
      (∀ (name : String) (params : Obj),
        (ArgoCD.new config).getApplicationResource rt name params
          = ApplicationService.getApplicationResource (ArgoCD.new config).application rt
              name params) ∧
      (∀ (name : String) (params : Option Obj),
        (ArgoCD.new config).listApplicationEvents rt name params
          = ApplicationService.listApplicationEvents (ArgoCD.new config).application rt
              name params) ∧
      (∀ (name : String) (params : Obj),
        (ArgoCD.new config).listApplicationResourceActions rt name params
          = ApplicationService.listApplicationResourceActions
              (ArgoCD.new config).application rt name params) ∧
      (∀ (name : String) (params : Obj),
        (ArgoCD.new config).runApplicationResourceAction rt name params
          = ApplicationService.runApplicationResourceAction
              (ArgoCD.new config).application rt name params) := by
  refine ⟨fun _ _ _ => rfl, rfl, fun _ _ _ => rfl, fun _ => rfl, fun _ => rfl,
    fun _ _ => rfl, fun _ _ => rfl, fun _ => rfl, fun _ _ => rfl, fun _ _ _ => rfl,
    fun _ _ => rfl, fun _ _ _ => rfl, fun _ _ => rfl, fun _ _ => rfl, fun _ _ => rfl,
    fun _ _ => rfl, fun _ _ => rfl, fun _ _ => rfl⟩

/-! ## The `updatedFields` parameter: claim C25 -/

/-- The string conversion of an array of strings is its comma-join. -/
theorem join_strings (fs : List String) :
    JSVal.join (fs.map JSVal.str) = ",".intercalate fs := by
  induction fs with
  | nil => rfl
  | cons a rest ih =>
    cases rest with
    | nil =>
      apply String.ext
      simp [JSVal.join, JSVal.ToString, String.intercalate, String.intercalate.go,
        String.data_append]
    | cons b r =>
      have step : JSVal.join (JSVal.str a :: JSVal.str b :: r.map JSVal.str)
          = a ++ "," ++ JSVal.join (JSVal.str b :: r.map JSVal.str) := rfl
      rw [List.map_cons, List.map_cons, step, ← List.map_cons, ih]
      apply String.ext
      simp [String.intercalate, String.intercalate.go, intercalate_go_data,
        String.data_append]

/-- C25: `updateCluster` appends at most one `updatedFields` entry. The request is
`PUT /api/v1/clusters/<server>?<query>` where the query string serializes the entries
of `updatedFields`, of which there is at most one. When `params.updatedFields` is
truthy, the query string is the single pair `updatedFields=<v>` with `<v>` the string
conversion of the supplied value; for a list of strings `[f1, ..., fn]` that value is
the comma-join `f1,...,fn`, one entry and not `n` entries. When `params.updatedFields`
is absent or falsy, the query string is empty. -/
theorem C25_updatedFields_single_entry (self : BaseService) (rt : Runtime)
    (server : String) (cluster : JSVal) (params : Option Obj) :
    (ClusterService.updateCluster self rt server cluster params).requests =
        [{ method := "PUT",
           path := "/api/v1/clusters/" ++ server ++ "?" ++
             (URLSearchParams.mk (presentEntry (params.getD []) "updatedFields")).toString,
           options := some [("body", rt.JSON_stringify cluster)] }] ∧
      (presentEntry (params.getD []) "updatedFields").length ≤ 1 ∧
      ((Obj.get (params.getD []) "updatedFields").truthy = true →
        (ClusterService.updateCluster self rt server cluster params).requests =
          [{ method := "PUT",
             path := "/api/v1/clusters/" ++ server ++ "?" ++
               serializePair
                 ("updatedFields", (Obj.get (params.getD []) "updatedFields").ToString),
             options := some [("body", rt.JSON_stringify cluster)] }]) ∧
      (∀ fs : List String,
        Obj.get (params.getD []) "updatedFields" = JSVal.arr (fs.map JSVal.str) →
        (ClusterService.updateCluster self rt server cluster params).requests =
          [{ method := "PUT",
             path := "/api/v1/clusters/" ++ server ++ "?" ++
               serializePair ("updatedFields", ",".intercalate fs),
             options := some [("body", rt.JSON_stringify cluster)] }]) ∧
      ((Obj.get (params.getD []) "updatedFields").truthy = false →
        (ClusterService.updateCluster self rt server cluster params).requests =
          [{ method := "PUT", path := "/api/v1/clusters/" ++ server ++ "?",
             options := some [("body", rt.JSON_stringify cluster)] }]) := by
  have hreq : (ClusterService.updateCluster self rt server cluster params).requests =
      [{ method := "PUT",
         path := "/api/v1/clusters/" ++ server ++ "?" ++
           (URLSearchParams.mk (presentEntry (params.getD []) "updatedFields")).toString,
         options := some [("body", rt.JSON_stringify cluster)] }] := by
    unfold ClusterService.updateCluster
    simp only [append_if_present, request_requests, URLSearchParams.new, List.nil_append]
  refine ⟨hreq, ?_, ?_, ?_, ?_⟩
  · unfold presentEntry
    split <;> simp
  · intro ht
    rw [hreq]
    unfold presentEntry
    rw [if_pos ht]
    rfl
  · intro fs hfs
    rw [hreq]
    unfold presentEntry
    rw [hfs, if_pos (show (JSVal.arr (fs.map JSVal.str)).truthy = true from rfl)]
    show _ = [{ method := "PUT",
                path := "/api/v1/clusters/" ++ server ++ "?" ++
                  serializePair ("updatedFields", ",".intercalate fs),
                options := some [("body", rt.JSON_stringify cluster)] }]
    rw [← join_strings fs]
    rfl
  · intro hf
    rw [hreq]
    unfold presentEntry
    rw [hf]
    simp [URLSearchParams.toString, String.intercalate]

/-- C25 at a concrete input: `updateCluster("in-cluster", {}, {updatedFields: ["name",
"labels"]})` sends the single entry `updatedFields=name%2Clabels`. -/
theorem C25_updatedFields_single_entry_witness :
    (ClusterService.updateCluster (BaseService.new testConfig)
        (hostWith (mockResolvedValue (jsonResponse true 200 (JSVal.obj []))))
        "in-cluster" (JSVal.obj [])
        (some [("updatedFields", JSVal.arr [JSVal.str "name", JSVal.str "labels"])])).requests
      = [{ method := "PUT",
           path := "/api/v1/clusters/in-cluster?updatedFields=name%2Clabels",
           options := some [("body", JSVal.str "\x7b\x7d")] }] :=
  ((C25_updatedFields_single_entry (BaseService.new testConfig)
      (hostWith (mockResolvedValue (jsonResponse true 200 (JSVal.obj []))))
      "in-cluster" (JSVal.obj [])
      (some [("updatedFields", JSVal.arr [JSVal.str "name", JSVal.str "labels"])])).2.2.2.1
    ["name", "labels"] (by decide)).trans (by decide)

/-! ## Falsy optional parameters: claim C22 -/

/-- C22: optional parameters are tested by truthiness. Let `p` and `q` be two `params`
objects that agree on every property other than `k`, where `q.k` is absent or falsy
(`undefined`, `null`, `false`, `0` or the empty string) and `p.k` is falsy too, or is the
empty list with `k` being `projects` or `resources`. Then every method with optional
parameters gives the same outcome (the same call to `_request`, hence the same path)
on `p` and on `q`: supplying a falsy value, or an empty list for `projects` or
`resources`, is the same as omitting the parameter. For the four methods whose `params`
also hold required entries, this is stated for their optional parameter (`group`,
`revision`). -/
theorem C22_falsy_parameter_as_omitted (self : BaseService) (rt : Runtime) (p q : Obj)
    (k : String) (hagree : ∀ j : String, j ≠ k → Obj.get p j = Obj.get q j)
    (hq : (Obj.get q k).truthy = false)
    (hp : (Obj.get p k).truthy = false ∨
      (Obj.get p k = JSVal.arr [] ∧ (k = "projects" ∨ k = "resources"))) :
      (ApplicationService.listApplications self rt (some p)
        = ApplicationService.listApplications self rt (some q)) ∧
      (∀ (name : String),
        ApplicationService.getApplication self rt name (some p)
          = ApplicationService.getApplication self rt name (some q)) ∧
      (∀ (name : String),
        ApplicationService.deleteApplication self rt name (some p)
          = ApplicationService.deleteApplication self rt name (some q)) ∧
      (∀ (name : String),
        ApplicationService.syncApplication self rt name (some p)
          = ApplicationService.syncApplication self rt name (some q)) ∧
      (∀ (name : String),
        ApplicationService.getApplicationManifests self rt name (some p)
          = ApplicationService.getApplicationManifests self rt name (some q)) ∧
      (∀ (name : String),
        ApplicationService.listApplicationEvents self rt name (some p)
          = ApplicationService.listApplicationEvents self rt name (some q)) ∧
      (ClusterService.listClusters self rt (some p)
        = ClusterService.listClusters self rt (some q)) ∧
      (∀ (server : String) (cluster : JSVal),
        ClusterService.updateCluster self rt server cluster (some p)
          = ClusterService.updateCluster self rt server cluster (some q)) ∧
      (∀ (server : String),
        ClusterService.deleteCluster self rt server (some p)
          = ClusterService.deleteCluster self rt server (some q)) ∧
      (GPGKeyService.listGPGKeys self rt (some p)
        = GPGKeyService.listGPGKeys self rt (some q)) ∧
      (ProjectService.listProjects self rt (some p)
        = ProjectService.listProjects self rt (some q)) ∧
      (RepositoryService.listRepositories self rt (some p)
        = RepositoryService.listRepositories self rt (some q)) ∧
      (∀ (repo : String),
        RepositoryService.listApps self rt repo (some p)
          = RepositoryService.listApps self rt repo (some q)) ∧
      (CertificateService.listCertificates self rt (some p)
        = CertificateService.listCertificates self rt (some q)) ∧
      (k = "group" → ∀ (name : String),
        ApplicationService.getApplicationResource self rt name p
          = ApplicationService.getApplicationResource self rt name q) ∧
      (k = "group" → ∀ (name : String),
        ApplicationService.listApplicationResourceActions self rt name p
          = ApplicationService.listApplicationResourceActions self rt name q) ∧
      (k = "group" → ∀ (name : String),
        ApplicationService.runApplicationResourceAction self rt name p
          = ApplicationService.runApplicationResourceAction self rt name q) ∧
      (k = "revision" → ∀ (repo : String),
        RepositoryService.getAppDetails self rt repo p
          = RepositoryService.getAppDetails self rt repo q) := by
  have hE : ∀ x : String, x ≠ "projects" → x ≠ "resources" → ∀ q0 : URLSearchParams,
      (if (Obj.get p x).truthy = true then q0.append x (Obj.get p x) else q0)
        = (if (Obj.get q x).truthy = true then q0.append x (Obj.get q x) else q0) := by
    intro x hx1 hx2 q0
    by_cases hxk : x = k
    · subst hxk
      rcases hp with hp | ⟨_, hk | hk⟩
      · simp [hp, hq]
      · exact absurd hk hx1
      · exact absurd hk hx2
    · rw [hagree x hxk]
  have hF : ∀ x : String, x ≠ "projects" → x ≠ "resources" → ∀ q0 : URLSearchParams,
      (if (Obj.get p x).truthy = true then q0.append x (JSVal.str "true") else q0)
        = (if (Obj.get q x).truthy = true then q0.append x (JSVal.str "true") else q0) := by
    intro x hx1 hx2 q0
    by_cases hxk : x = k
    · subst hxk
      rcases hp with hp | ⟨_, hk | hk⟩
      · simp [hp, hq]
      · exact absurd hk hx1
      · exact absurd hk hx2
    · rw [hagree x hxk]
  have hG : ∀ (x : String) (q0 : URLSearchParams),
      (if (Obj.get p x).truthy = true then forEachAppend q0 x (Obj.get p x)
        else Except.ok q0)
        = (if (Obj.get q x).truthy = true then forEachAppend q0 x (Obj.get q x)
            else Except.ok q0) := by
    intro x q0
    by_cases hxk : x = k
    · subst hxk
      rcases hp with hp | ⟨hp, _⟩
      · simp [hp, hq]
      · rw [forEach_array q0 p x [] hp, forEach_falsy q0 q x hq]
        simp [listEntries]
    · rw [hagree x hxk]
  have e_name := hE "name" (by decide) (by decide)
  have e_refresh := hE "refresh" (by decide) (by decide)
  have e_project := hE "project" (by decide) (by decide)
  have e_propagationPolicy := hE "propagationPolicy" (by decide) (by decide)
  have e_strategy := hE "strategy" (by decide) (by decide)
  have e_revision := hE "revision" (by decide) (by decide)
  have e_group := hE "group" (by decide) (by decide)
  have e_resourceNamespace := hE "resourceNamespace" (by decide) (by decide)
  have e_resourceName := hE "resourceName" (by decide) (by decide)
  have e_resourceUID := hE "resourceUID" (by decide) (by decide)
  have e_server := hE "server" (by decide) (by decide)
  have e_updatedFields := hE "updatedFields" (by decide) (by decide)
  have e_keyID := hE "keyID" (by decide) (by decide)
  have e_repo := hE "repo" (by decide) (by decide)
  have e_hostNamePattern := hE "hostNamePattern" (by decide) (by decide)
  have e_certType := hE "certType" (by decide) (by decide)
  have e_certSubType := hE "certSubType" (by decide) (by decide)
  have f_cascade := hF "cascade" (by decide) (by decide)
  have f_dryRun := hF "dryRun" (by decide) (by decide)
  have f_prune := hF "prune" (by decide) (by decide)
  have f_forceRefresh := hF "forceRefresh" (by decide) (by decide)
  refine ⟨?_, ?_, ?_, ?_, ?_, ?_, ?_, ?_, ?_, ?_, ?_, ?_, ?_, ?_, ?_, ?_, ?_, ?_⟩
  · simp only [ApplicationService.listApplications, Option.getD_some, e_name, e_refresh, e_project, e_propagationPolicy, e_strategy, e_revision, e_group, e_resourceNamespace, e_resourceName, e_resourceUID, e_server, e_updatedFields, e_keyID, e_repo, e_hostNamePattern, e_certType, e_certSubType, f_cascade, f_dryRun, f_prune, f_forceRefresh, hG]
  · intro name
    simp only [ApplicationService.getApplication, Option.getD_some, e_name, e_refresh, e_project, e_propagationPolicy, e_strategy, e_revision, e_group, e_resourceNamespace, e_resourceName, e_resourceUID, e_server, e_updatedFields, e_keyID, e_repo, e_hostNamePattern, e_certType, e_certSubType, f_cascade, f_dryRun, f_prune, f_forceRefresh, hG]
  · intro name
    simp only [ApplicationService.deleteApplication, Option.getD_some, e_name, e_refresh, e_project, e_propagationPolicy, e_strategy, e_revision, e_group, e_resourceNamespace, e_resourceName, e_resourceUID, e_server, e_updatedFields, e_keyID, e_repo, e_hostNamePattern, e_certType, e_certSubType, f_cascade, f_dryRun, f_prune, f_forceRefresh, hG]
  · intro name
    simp only [ApplicationService.syncApplication, Option.getD_some, e_name, e_refresh, e_project, e_propagationPolicy, e_strategy, e_revision, e_group, e_resourceNamespace, e_resourceName, e_resourceUID, e_server, e_updatedFields, e_keyID, e_repo, e_hostNamePattern, e_certType, e_certSubType, f_cascade, f_dryRun, f_prune, f_forceRefresh, hG]
  · intro name
    simp only [ApplicationService.getApplicationManifests, Option.getD_some, e_name, e_refresh, e_project, e_propagationPolicy, e_strategy, e_revision, e_group, e_resourceNamespace, e_resourceName, e_resourceUID, e_server, e_updatedFields, e_keyID, e_repo, e_hostNamePattern, e_certType, e_certSubType, f_cascade, f_dryRun, f_prune, f_forceRefresh, hG]
  · intro name
    simp only [ApplicationService.listApplicationEvents, Option.getD_some, e_name, e_refresh, e_project, e_propagationPolicy, e_strategy, e_revision, e_group, e_resourceNamespace, e_resourceName, e_resourceUID, e_server, e_updatedFields, e_keyID, e_repo, e_hostNamePattern, e_certType, e_certSubType, f_cascade, f_dryRun, f_prune, f_forceRefresh, hG]
  · simp only [ClusterService.listClusters, Option.getD_some, e_name, e_refresh, e_project, e_propagationPolicy, e_strategy, e_revision, e_group, e_resourceNamespace, e_resourceName, e_resourceUID, e_server, e_updatedFields, e_keyID, e_repo, e_hostNamePattern, e_certType, e_certSubType, f_cascade, f_dryRun, f_prune, f_forceRefresh, hG]
  · intro server cluster
    simp only [ClusterService.updateCluster, Option.getD_some, e_name, e_refresh, e_project, e_propagationPolicy, e_strategy, e_revision, e_group, e_resourceNamespace, e_resourceName, e_resourceUID, e_server, e_updatedFields, e_keyID, e_repo, e_hostNamePattern, e_certType, e_certSubType, f_cascade, f_dryRun, f_prune, f_forceRefresh, hG]
  · intro server
    simp only [ClusterService.deleteCluster, Option.getD_some, e_name, e_refresh, e_project, e_propagationPolicy, e_strategy, e_revision, e_group, e_resourceNamespace, e_resourceName, e_resourceUID, e_server, e_updatedFields, e_keyID, e_repo, e_hostNamePattern, e_certType, e_certSubType, f_cascade, f_dryRun, f_prune, f_forceRefresh, hG]
  · simp only [GPGKeyService.listGPGKeys, Option.getD_some, e_name, e_refresh, e_project, e_propagationPolicy, e_strategy, e_revision, e_group, e_resourceNamespace, e_resourceName, e_resourceUID, e_server, e_updatedFields, e_keyID, e_repo, e_hostNamePattern, e_certType, e_certSubType, f_cascade, f_dryRun, f_prune, f_forceRefresh, hG]
  · simp only [ProjectService.listProjects, Option.getD_some, e_name, e_refresh, e_project, e_propagationPolicy, e_strategy, e_revision, e_group, e_resourceNamespace, e_resourceName, e_resourceUID, e_server, e_updatedFields, e_keyID, e_repo, e_hostNamePattern, e_certType, e_certSubType, f_cascade, f_dryRun, f_prune, f_forceRefresh, hG]
  · simp only [RepositoryService.listRepositories, Option.getD_some, e_name, e_refresh, e_project, e_propagationPolicy, e_strategy, e_revision, e_group, e_resourceNamespace, e_resourceName, e_resourceUID, e_server, e_updatedFields, e_keyID, e_repo, e_hostNamePattern, e_certType, e_certSubType, f_cascade, f_dryRun, f_prune, f_forceRefresh, hG]
  · intro repo
    simp only [RepositoryService.listApps, Option.getD_some, e_name, e_refresh, e_project, e_propagationPolicy, e_strategy, e_revision, e_group, e_resourceNamespace, e_resourceName, e_resourceUID, e_server, e_updatedFields, e_keyID, e_repo, e_hostNamePattern, e_certType, e_certSubType, f_cascade, f_dryRun, f_prune, f_forceRefresh, hG]
  · simp only [CertificateService.listCertificates, Option.getD_some, e_name, e_refresh, e_project, e_propagationPolicy, e_strategy, e_revision, e_group, e_resourceNamespace, e_resourceName, e_resourceUID, e_server, e_updatedFields, e_keyID, e_repo, e_hostNamePattern, e_certType, e_certSubType, f_cascade, f_dryRun, f_prune, f_forceRefresh, hG]
  · intro hk name
    subst hk
    have r_namespace := hagree "namespace" (by decide)
    have r_resourceName := hagree "resourceName" (by decide)
    have r_version := hagree "version" (by decide)
    have r_kind := hagree "kind" (by decide)
    simp only [ApplicationService.getApplicationResource, r_namespace, r_resourceName, r_version, r_kind, e_group]
  · intro hk name
    subst hk
    have r_namespace := hagree "namespace" (by decide)
    have r_resourceName := hagree "resourceName" (by decide)
    have r_version := hagree "version" (by decide)
    have r_kind := hagree "kind" (by decide)
    simp only [ApplicationService.listApplicationResourceActions, r_namespace, r_resourceName, r_version, r_kind, e_group]
  · intro hk name
    subst hk
    have r_namespace := hagree "namespace" (by decide)
    have r_resourceName := hagree "resourceName" (by decide)
    have r_version := hagree "version" (by decide)
    have r_kind := hagree "kind" (by decide)
    have r_action := hagree "action" (by decide)
    simp only [ApplicationService.runApplicationResourceAction, r_namespace, r_resourceName, r_version, r_kind, r_action, e_group]
  · intro hk repo
    subst hk
    have r_path := hagree "path" (by decide)
    simp only [RepositoryService.getAppDetails, r_path, e_revision]

/-- C22 at a concrete input: `listApplications({ name: '' })` issues the same
request as `listApplications({})`, on the path `/api/v1/applications?`. -/
theorem C22_falsy_parameter_as_omitted_witness :
    ApplicationService.listApplications (BaseService.new testConfig)
        (hostWith (mockResolvedValue (jsonResponse true 200 (JSVal.obj []))))
        (some [("name", JSVal.str "")])
      = ApplicationService.listApplications (BaseService.new testConfig)
          (hostWith (mockResolvedValue (jsonResponse true 200 (JSVal.obj []))))
          (some []) ∧
    (ApplicationService.listApplications (BaseService.new testConfig)
        (hostWith (mockResolvedValue (jsonResponse true 200 (JSVal.obj []))))
        (some [])).requests
      = [{ method := "GET", path := "/api/v1/applications?", options := none }] :=
  ⟨(C22_falsy_parameter_as_omitted (BaseService.new testConfig)
      (hostWith (mockResolvedValue (jsonResponse true 200 (JSVal.obj []))))
      [("name", JSVal.str "")] [] "name"
      (fun j hj => by simp [Obj.get, List.lookup, beq_false_of_ne hj])
      (by decide) (Or.inl (by decide))).1,
   by decide⟩

/-! ## Lemmas on the origin of a base URL -/

/-- The digit characters of a value below ten. -/
theorem digitChar_decimal :
    ∀ m : Nat, m < 10 → isAuthorityChar (Nat.digitChar m) = true ∧
      (Nat.digitChar m) ≠ ':' := by
  decide

/-- The decimal digits of a number are authority characters other than `:`. -/
theorem toDigitsCore_decimal (fuel n : Nat) (ds : List Char)
    (h : ∀ c ∈ ds, isAuthorityChar c = true ∧ c ≠ ':') :
    ∀ c ∈ Nat.toDigitsCore 10 fuel n ds, isAuthorityChar c = true ∧ c ≠ ':' := by
  induction fuel generalizing n ds with
  | zero => simpa [Nat.toDigitsCore] using h
  | succ f ih =>
    have hcons : ∀ c ∈ Nat.digitChar (n % 10) :: ds, isAuthorityChar c = true ∧ c ≠ ':' := by
      intro c hc
      rcases List.mem_cons.mp hc with e | hc
      · rw [e]
        exact digitChar_decimal _ (Nat.mod_lt _ (by decide))
      · exact h c hc
    unfold Nat.toDigitsCore
    simp only []
    split
    · exact hcons
    · exact ih _ _ hcons

/-- The characters of the decimal representation of a number. -/
theorem toString_decimal (n : Nat) :
    ∀ c ∈ (toString n).data, isAuthorityChar c = true := by
  intro c hc
  have hc2 : c ∈ Nat.toDigitsCore 10 (n + 1) n [] := hc
  exact (toDigitsCore_decimal (n + 1) n [] (by simp) c hc2).1

/-- The characters of a plain host are authority characters other than `:`. -/
theorem plainHost_chars (host : List Char) (h : plainHost host = true) :
    ∀ c ∈ host, isAuthorityChar c = true ∧ c ≠ ':' := by
  unfold plainHost at h
  simp only [Bool.and_eq_true, List.all_eq_true] at h
  intro c hc
  have h1 := h.1.1 c hc
  constructor
  · unfold isAuthorityChar
    rw [Bool.or_eq_true]
    exact Or.inl h1
  · intro e
    subst e
    revert h1
    decide

/-- The serialized origin of a base URL, when there is one, is `https://` or `http://`
followed by authority characters. -/
theorem originOf_shape (b o : List Char) (h : originOf b = some o) :
    ∃ rest : List Char,
      (o = "https://".data ++ rest ∨ o = "http://".data ++ rest) ∧
        ∀ c ∈ rest, isAuthorityChar c = true := by
  unfold originOf at h
  simp only [] at h
  split at h
  · exact absurd h (by simp)
  · rename_i name dfltPort rest hscheme
    have hname : name ++ "://".data = "https://".data ∨ name ++ "://".data = "http://".data := by
      split at hscheme
      · simp only [Option.some.injEq, Prod.mk.injEq] at hscheme
        rw [← hscheme.1]
        exact Or.inl rfl
      · split at hscheme
        · simp only [Option.some.injEq, Prod.mk.injEq] at hscheme
          rw [← hscheme.1]
          exact Or.inr rfl
        · exact absurd hscheme (by simp)
    generalize List.takeWhile (fun c => c != ':')
      (List.takeWhile (fun c => c != '/' && c != '\\' && c != '?' && c != '#') rest) = host at h
    generalize List.drop 1 (List.dropWhile (fun c => c != ':')
      (List.takeWhile (fun c => c != '/' && c != '\\' && c != '?' && c != '#') rest)) = port at h
    split at h
    · rename_i hcond
      simp only [Bool.and_eq_true] at hcond
      have hhost := plainHost_chars _ hcond.1.1
      split at h
      · simp only [Option.some.injEq] at h
        refine ⟨host, ?_, fun c hc => (hhost c hc).1⟩
        rw [← h]
        rcases hname with e | e
        · exact Or.inl (by rw [e])
        · exact Or.inr (by rw [e])
      · simp only [Option.some.injEq] at h
        refine ⟨host ++ ':' :: (toString (decimalValue port)).data, ?_, ?_⟩
        · rw [← h]
          rcases hname with e | e
          · exact Or.inl (by rw [← e, List.append_assoc])
          · exact Or.inr (by rw [← e, List.append_assoc])
        · intro c hc
          rcases List.mem_append.mp hc with hc | hc
          · exact (hhost c hc).1
          · rcases List.mem_cons.mp hc with e | hc
            · subst e; decide
            · exact toString_decimal _ c hc
    · exact absurd h (by simp)

/-- Dropping a prefix of characters stops at the latest at a character that fails the
test. -/
theorem dropWhile_stops (p : Char → Bool) (l : List Char) (x : Char) (r : List Char)
    (hx : p x = false) : ∃ t : List Char, (l ++ x :: r).dropWhile p = t ++ x :: r := by
  induction l with
  | nil => exact ⟨[], by simp [List.dropWhile, hx]⟩
  | cons c rest ih =>
    by_cases hc : p c = true
    · obtain ⟨t, ht⟩ := ih
      exact ⟨t, by simp [List.dropWhile, hc, ht]⟩
    · exact ⟨c :: rest, by simp [List.dropWhile, hc]⟩

/-- Taking a prefix of characters stops at the first character that fails the test. -/
theorem takeWhile_stops (p : Char → Bool) (l : List Char) (x : Char) (r : List Char)
    (hl : ∀ c ∈ l, p c = true) (hx : p x = false) :
    (l ++ x :: r).takeWhile p = l.takeWhile p := by
  induction l with
  | nil => simp [List.takeWhile, hx]
  | cons c rest ih =>
    have hc := hl c (by simp)
    rw [List.cons_append, List.takeWhile_cons, List.takeWhile_cons, hc,
      ih (fun d hd => hl d (by simp [hd]))]

/-- Authority characters are not stripped by the preprocessing of the URL parser and
do not end the authority. -/
theorem authorityChar_kept (c : Char) (h : isAuthorityChar c = true) :
    isC0OrSpace c = false ∧
      (c != '/' && c != '\\' && c != '?' && c != '#') = true := by
  have hn : c.toNat ≠ 0x2F ∧ c.toNat ≠ 0x5C ∧ c.toNat ≠ 0x3F ∧ c.toNat ≠ 0x23 ∧
      0x20 < c.toNat := by
    unfold isAuthorityChar at h
    simp only [Bool.or_eq_true, Bool.and_eq_true, decide_eq_true_eq, beq_iff_eq] at h
    rcases h with (((h | h) | h) | h) | h
    · omega
    · omega
    · subst h; decide
    · subst h; decide
    · subst h; decide
  obtain ⟨h1, h2, h3, h4, h5⟩ := hn
  refine ⟨?_, ?_⟩
  · simp only [isC0OrSpace, decide_eq_false_iff_not, not_le]
    exact h5
  · simp only [Bool.and_eq_true, bne_iff_ne, ne_eq]
    refine ⟨⟨⟨?_, ?_⟩, ?_⟩, ?_⟩
    · intro e; subst e; exact h1 rfl
    · intro e; subst e; exact h2 rfl
    · intro e; subst e; exact h3 rfl
    · intro e; subst e; exact h4 rfl

/-- The preprocessing of the URL parser keeps a prefix of visible characters that is
followed by `/`. -/
theorem stripInput_keeps (o s : List Char) (ho : ∀ c ∈ o, isC0OrSpace c = false) :
    ∃ t : List Char, stripInput (o ++ '/' :: s) = o ++ '/' :: t := by
  have hfront : (o ++ '/' :: s).dropWhile isC0OrSpace = o ++ '/' :: s := by
    cases o with
    | nil => simp [List.dropWhile, isC0OrSpace]
    | cons c rest => simp [List.dropWhile, ho c (by simp)]
  obtain ⟨t, ht⟩ := dropWhile_stops isC0OrSpace s.reverse '/' o.reverse (by decide)
  have hfilter : o.filter (fun c => !isTabOrNewline c) = o := by
    rw [List.filter_eq_self]
    intro c hc
    have h0 := ho c hc
    simp only [isC0OrSpace, decide_eq_false_iff_not, not_le] at h0
    simp only [isTabOrNewline, Bool.not_eq_true', Bool.or_eq_false_iff, beq_eq_false_iff_ne,
      ne_eq]
    omega
  refine ⟨t.reverse.filter (fun c => !isTabOrNewline c), ?_⟩
  unfold stripInput
  rw [hfront]
  have hrev : (o ++ '/' :: s).reverse = s.reverse ++ '/' :: o.reverse := by simp
  have hslash : (['/'] ++ t.reverse).filter (fun c => !isTabOrNewline c)
      = '/' :: t.reverse.filter (fun c => !isTabOrNewline c) := by
    rw [List.singleton_append, List.filter_cons_of_pos (by decide)]
  rw [hrev, ht, List.reverse_append, List.reverse_cons, List.reverse_reverse,
    List.append_assoc, List.filter_append, hfilter, hslash]

/-- A path prefix after a serialized origin is discarded: the origin of the base URL is
that origin. -/
theorem originOf_drops_path (o s : List Char) (h : originOf o = some o) :
    originOf (o ++ '/' :: s) = some o := by
  obtain ⟨rest, hform, hchars⟩ := originOf_shape o o h
  have hs : "https://".data = ['h', 't', 't', 'p', 's', ':', '/', '/'] := rfl
  have hp : "http://".data = ['h', 't', 't', 'p', ':', '/', '/'] := rfl
  rw [hs, hp] at hform
  have hlit : ∀ c ∈ ['h', 't', 't', 'p', 's', ':', '/', '/'], isC0OrSpace c = false := by
    decide
  have hlit2 : ∀ c ∈ ['h', 't', 't', 'p', ':', '/', '/'], isC0OrSpace c = false := by
    decide
  have hsc : ('s' == ':') = false := by decide
  have hvis : ∀ c ∈ o, isC0OrSpace c = false := by
    intro c hc
    rcases hform with e | e
    · rw [e] at hc
      rcases List.mem_append.mp hc with hc | hc
      · exact hlit c hc
      · exact (authorityChar_kept c (hchars c hc)).1
    · rw [e] at hc
      rcases List.mem_append.mp hc with hc | hc
      · exact hlit2 c hc
      · exact (authorityChar_kept c (hchars c hc)).1
  have hauth : ∀ c ∈ rest, (c != '/' && c != '\\' && c != '?' && c != '#') = true :=
    fun c hc => (authorityChar_kept c (hchars c hc)).2
  obtain ⟨t, ht⟩ := stripInput_keeps o s hvis
  have hfix := stripInput_fixed o hvis
  have htake := takeWhile_stops (fun c => c != '/' && c != '\\' && c != '?' && c != '#')
    rest '/' t hauth (by decide)
  unfold originOf at h ⊢
  rw [hfix] at h
  rw [ht]
  rcases hform with e | e
  · have e2 : o ++ '/' :: t
        = 'h' :: 't' :: 't' :: 'p' :: 's' :: ':' :: '/' :: '/' :: (rest ++ '/' :: t) := by
      rw [e]; rfl
    have e1 : o = 'h' :: 't' :: 't' :: 'p' :: 's' :: ':' :: '/' :: '/' :: rest := e
    rw [e2]
    rw [e1] at h
    simp only [List.isPrefixOf, beq_self_eq_true, Bool.and_self, Bool.true_and, if_true,
      List.drop] at h ⊢
    rw [htake, e1]
    exact h
  · have e2 : o ++ '/' :: t
        = 'h' :: 't' :: 't' :: 'p' :: ':' :: '/' :: '/' :: (rest ++ '/' :: t) := by
      rw [e]; rfl
    have e1 : o = 'h' :: 't' :: 't' :: 'p' :: ':' :: '/' :: '/' :: rest := e
    rw [e2]
    rw [e1] at h
    simp only [List.isPrefixOf, beq_self_eq_true, Bool.and_self, Bool.true_and, if_true,
      List.drop, hsc, Bool.false_and, Bool.false_eq_true, if_false] at h ⊢
    rw [htake, e1]
    exact h

/-! ## Lemmas on operations that reach the request core -/

/-- The statement `if (v) v.forEach(...)` either completes with a query, or throws. -/
theorem forEach_completes (q : URLSearchParams) (k : String) (v : JSVal) :
    (forEachCompletes v = true ∧
      ∃ q2, (if v.truthy = true then forEachAppend q k v else Except.ok q) = Except.ok q2) ∨
    (forEachCompletes v = false ∧
      ∃ e, (if v.truthy = true then forEachAppend q k v else Except.ok q) = Except.error e) := by
  cases v with
  | arr xs => exact Or.inl ⟨rfl, _, rfl⟩
  | undefined => exact Or.inl ⟨rfl, _, rfl⟩
  | null => exact Or.inl ⟨rfl, _, rfl⟩
  | bool b => cases b
              · exact Or.inl ⟨rfl, _, rfl⟩
              · exact Or.inr ⟨rfl, _, rfl⟩
  | num n =>
    by_cases hn : (JSVal.num n).truthy = true
    · right
      refine ⟨by simp [forEachCompletes, hn], _, by rw [if_pos hn]; rfl⟩
    · left
      refine ⟨by simp [forEachCompletes, hn], _, by rw [if_neg hn]⟩
  | str s =>
    by_cases hn : (JSVal.str s).truthy = true
    · right
      refine ⟨by simp [forEachCompletes, hn], _, by rw [if_pos hn]; rfl⟩
    · left
      refine ⟨by simp [forEachCompletes, hn], _, by rw [if_neg hn]⟩
  | obj o => exact Or.inr ⟨rfl, _, rfl⟩

/-- An operation that builds its path hands it to `_request`, with a query that depends
on its arguments only; an operation that does not throws before any request. -/
theorem perform_uniform (op : Op) :
    (op.reachesRequest = true ∧ ∃ q : String, ∀ (self : BaseService) (rt : Runtime),
      op.perform self rt = self._request rt op.method (op.stem ++ q) (op.options rt)) ∨
    (op.reachesRequest = false ∧ ∃ e, ∀ (self : BaseService) (rt : Runtime),
      op.perform self rt = { requests := [], fetches := [], result := Settled.rejected e }) := by
  cases op
  case listApplications params =>
    rcases forEach_completes
      (if (Obj.get (params.getD []) "refresh").truthy = true then
        (if (Obj.get (params.getD []) "name").truthy = true then
          URLSearchParams.new.append "name" (Obj.get (params.getD []) "name")
          else URLSearchParams.new).append "refresh" (Obj.get (params.getD []) "refresh")
        else (if (Obj.get (params.getD []) "name").truthy = true then
          URLSearchParams.new.append "name" (Obj.get (params.getD []) "name")
          else URLSearchParams.new))
      "projects" (Obj.get (params.getD []) "projects") with ⟨hc, q2, hq⟩ | ⟨hc, e, he⟩
    · left
      refine ⟨hc, q2.toString, fun self rt => ?_⟩
      simp only [Op.perform, ApplicationService.listApplications, hq]
      rfl
    · right
      refine ⟨hc, e, fun self rt => ?_⟩
      simp only [Op.perform, ApplicationService.listApplications, he]
  case syncApplication name params =>
    rcases forEach_completes
      (if (Obj.get (params.getD []) "strategy").truthy = true then
        (if (Obj.get (params.getD []) "prune").truthy = true then
          (if (Obj.get (params.getD []) "dryRun").truthy = true then
            URLSearchParams.new.append "dryRun" (JSVal.str "true")
            else URLSearchParams.new).append "prune" (JSVal.str "true")
          else (if (Obj.get (params.getD []) "dryRun").truthy = true then
            URLSearchParams.new.append "dryRun" (JSVal.str "true")
            else URLSearchParams.new)).append "strategy" (Obj.get (params.getD []) "strategy")
        else (if (Obj.get (params.getD []) "prune").truthy = true then
          (if (Obj.get (params.getD []) "dryRun").truthy = true then
            URLSearchParams.new.append "dryRun" (JSVal.str "true")
            else URLSearchParams.new).append "prune" (JSVal.str "true")
          else (if (Obj.get (params.getD []) "dryRun").truthy = true then
            URLSearchParams.new.append "dryRun" (JSVal.str "true")
            else URLSearchParams.new)))
      "resources" (Obj.get (params.getD []) "resources") with ⟨hc, q2, hq⟩ | ⟨hc, e, he⟩
    · left
      refine ⟨hc, q2.toString, fun self rt => ?_⟩
      simp only [Op.perform, ApplicationService.syncApplication, hq]
      rfl
    · right
      refine ⟨hc, e, fun self rt => ?_⟩
      simp only [Op.perform, ApplicationService.syncApplication, he]
  all_goals
    first
    | exact Or.inl ⟨rfl, _, fun _ _ => rfl⟩
    | exact Or.inl ⟨rfl, "", fun _ _ => by rw [String.append_empty]; rfl⟩

/-! ## Determinism: claim C16 -/

/-- C16, refuted as stated: `listApplications({ projects: 'default' })` is a GET
operation, and it throws the `TypeError` of `params.projects.forEach` before calling
`_request`: two invocations issue no request and make no `fetch` call, not two.
Likewise, on a client whose base URL `argocd.example.com` has no scheme, the URL cannot
be constructed, and two invocations of `listApplications()` make no `fetch` call. -/
theorem C16_invocation_without_request :
    Op.method (Op.listApplications (some [("projects", JSVal.str "default")])) = "GET" ∧
    Op.perform (ApplicationService.new testConfig)
        (hostWith (mockResolvedValue (jsonResponse true 200 (JSVal.obj []))))
        (Op.listApplications (some [("projects", JSVal.str "default")])) =
      { requests := [], fetches := [],
        result := Settled.rejected
          (Thrown.TypeError "params.projects.forEach is not a function") } ∧
    ((Op.perform (ApplicationService.new testConfig)
        (hostWith (mockResolvedValue (jsonResponse true 200 (JSVal.obj []))))
        (Op.listApplications (some [("projects", JSVal.str "default")]))).fetches ++
      (Op.perform (ApplicationService.new testConfig)
        (hostWith (mockResolvedValue (jsonResponse true 200 (JSVal.obj []))))
        (Op.listApplications (some [("projects", JSVal.str "default")]))).fetches).length
      = 0 ∧
    ((Op.perform (ApplicationService.new { baseUrl := "argocd.example.com", token := "t" })
        (hostWith (mockResolvedValue (jsonResponse true 200 (JSVal.obj []))))
        (Op.listApplications none)).fetches ++
      (Op.perform (ApplicationService.new { baseUrl := "argocd.example.com", token := "t" })
        (hostWith (mockResolvedValue (jsonResponse true 200 (JSVal.obj []))))
        (Op.listApplications none)).fetches).length
      = 0 := by
  decide

/-- C16, amended: two invocations of the same operation with the same arguments on the
same client, the second against a `fetch` that may answer differently, hand the same
arguments to `_request` and make the same `fetch` calls: same method, same URL, same
headers. Nothing is cached. An operation whose list parameter (`projects`, `resources`)
is a truthy value other than an array throws before any request: no call to `_request`
and no `fetch` call. Every other invocation calls `_request` exactly once, with the
method of the operation; it makes exactly one `fetch` call, with the URL constructed for
its path, when that URL can be constructed, so two calls in total for the two
invocations, and none when the URL constructor throws. This holds for every operation,
GET or not. -/
theorem C16_requests_deterministic_uncached (self : BaseService) (rt : Runtime)
    (fetch2 : String → Obj → Settled Response) (op : Op) :
    (op.perform self rt).requests =
        (op.perform self { rt with fetch := fetch2 }).requests ∧
      (op.perform self rt).fetches =
        (op.perform self { rt with fetch := fetch2 }).fetches ∧
      (op.reachesRequest = false →
        (op.perform self rt).requests = [] ∧ (op.perform self rt).fetches = []) ∧
      (op.reachesRequest = true →
        (op.perform self rt).requests.length = 1 ∧
        ∀ a ∈ (op.perform self rt).requests,
          a.method = op.method ∧
          (∀ url : String, rt.URL a.path self.baseUrl = Except.ok url →
            (op.perform self rt).fetches =
                [{ url := url, init := self.init a.method (a.options.getD []) }] ∧
              (op.perform self { rt with fetch := fetch2 }).fetches =
                [{ url := url, init := self.init a.method (a.options.getD []) }] ∧
              ((op.perform self rt).fetches ++
                (op.perform self { rt with fetch := fetch2 }).fetches).length = 2) ∧
          (∀ e : Thrown, rt.URL a.path self.baseUrl = Except.error e →
            (op.perform self rt).fetches = [] ∧
              (op.perform self { rt with fetch := fetch2 }).fetches = [])) := by
  obtain ⟨hreq, hfet⟩ := perform_calls_congr self rt fetch2 op
  refine ⟨hreq, hfet, ?_, ?_⟩
  · intro hno
    rcases perform_uniform op with ⟨hc, _⟩ | ⟨_, e, hp⟩
    · rw [hc] at hno
      exact absurd hno (by decide)
    · rw [hp self rt]
      exact ⟨rfl, rfl⟩
  · intro hyes
    rcases perform_uniform op with ⟨_, q, hp⟩ | ⟨hc, _⟩
    · rw [← hfet, hp self rt, request_requests]
      refine ⟨rfl, ?_⟩
      intro a ha
      simp only [List.mem_singleton] at ha
      subst ha
      refine ⟨rfl, ?_, ?_⟩
      · intro url hu
        have h1 := request_fetches self rt op.method (op.stem ++ q) (op.options rt) url hu
        refine ⟨h1, h1, ?_⟩
        rw [h1]
        rfl
      · intro e he
        have h1 := request_fetches_error self rt op.method (op.stem ++ q) (op.options rt) e he
        exact ⟨h1, h1⟩
    · rw [hc] at hyes
      exact absurd hyes (by decide)

/-- C16 amended, at a concrete input: `listApplications()` issued twice, the server
answering 200 the first time and 500 the second, makes the same `fetch` call both
times. -/
theorem C16_requests_deterministic_uncached_witness :
    (Op.perform (ApplicationService.new testConfig)
        (hostWith (mockResolvedValue (jsonResponse true 200 (JSVal.obj []))))
        (Op.listApplications none)).fetches =
      [{ url := "https://argocd.example.com/api/v1/applications?",
         init := (ApplicationService.new testConfig).init "GET" ((none : Option Obj).getD []) }] ∧
    (Op.perform (ApplicationService.new testConfig)
        { hostWith (mockResolvedValue (jsonResponse true 200 (JSVal.obj []))) with
          fetch := mockResolvedValue (jsonResponse false 500 JSVal.null) }
        (Op.listApplications none)).fetches =
      [{ url := "https://argocd.example.com/api/v1/applications?",
         init := (ApplicationService.new testConfig).init "GET" ((none : Option Obj).getD []) }] ∧
    ((Op.perform (ApplicationService.new testConfig)
        (hostWith (mockResolvedValue (jsonResponse true 200 (JSVal.obj []))))
        (Op.listApplications none)).fetches ++
      (Op.perform (ApplicationService.new testConfig)
        { hostWith (mockResolvedValue (jsonResponse true 200 (JSVal.obj []))) with
          fetch := mockResolvedValue (jsonResponse false 500 JSVal.null) }
        (Op.listApplications none)).fetches).length = 2 :=
  (((C16_requests_deterministic_uncached (ApplicationService.new testConfig)
      (hostWith (mockResolvedValue (jsonResponse true 200 (JSVal.obj []))))
      (mockResolvedValue (jsonResponse false 500 JSVal.null))
      (Op.listApplications none)).2.2.2 (by decide)).2
    { method := "GET", path := "/api/v1/applications?", options := none } (by decide)).2.1
    "https://argocd.example.com/api/v1/applications?" (by decide)

/-! ## Lemmas on the URL constructor on any host -/

/-- On the modelled fragment, the general constructor agrees with the modelled one at
the inputs of the tests. -/
theorem resolve_modelled_examples :
    resolve modelledURL "/api/v1/test" "https://argocd.example.com"
        = URL_href "/api/v1/test" "https://argocd.example.com" ∧
      resolve modelledURL "/api/v1/projects/a b" "https://argocd.example.com/argocd"
        = URL_href "/api/v1/projects/a b" "https://argocd.example.com/argocd" ∧
      resolve modelledURL "/api/v1/applications/../clusters?x=1#f" "http://localhost:8080/x/"
        = Except.ok "http://localhost:8080/api/v1/clusters?x=1#f" := by
  decide

/-- Dropping a prefix of characters that pass the test stops at the first one that
fails it. -/
theorem dropWhile_stops_at (p : Char → Bool) (l : List Char) (x : Char) (r : List Char)
    (hl : ∀ c ∈ l, p c = true) (hx : p x = false) :
    (l ++ x :: r).dropWhile p = x :: r := by
  induction l with
  | nil => simp [List.dropWhile, hx]
  | cons c rest ih =>
    have hc := hl c (by simp)
    rw [List.cons_append, List.dropWhile_cons, hc]
    exact ih (fun d hd => hl d (by simp [hd]))

/-- The shape of a text `scheme://authority`. -/
theorem originText_shape (origin : String) (h : isOriginText origin = true) :
    ∃ scheme rest : List Char,
      origin.data = scheme ++ ':' :: '/' :: '/' :: rest ∧
        (∀ c ∈ scheme, (c != ':') = true) ∧
        (∀ c ∈ origin.data, isC0OrSpace c = false) ∧
        rest ≠ [] ∧
        (∀ c ∈ rest, (c != '/' && c != '\\' && c != '?' && c != '#') = true) ∧
        (asciiLower scheme == "file".data) = false := by
  unfold isOriginText at h
  split at h
  · rename_i rest heq
    simp only [Bool.and_eq_true, List.all_eq_true, Bool.not_eq_true', bne_iff_ne, ne_eq]
      at h
    obtain ⟨⟨⟨hvis, hne⟩, hrest⟩, hfile⟩ := h
    refine ⟨origin.data.takeWhile (fun c => c != ':'), rest, ?_, ?_, hvis, ?_, ?_, ?_⟩
    · rw [← heq]
      exact (List.takeWhile_append_dropWhile _ _).symm
    · intro c hc
      exact @List.mem_takeWhile_imp _ (fun c => c != ':') _ _ hc
    · intro e
      rw [e] at hne
      simp at hne
    · intro c hc
      have := hrest c hc
      simp only [Bool.and_eq_true, bne_iff_ne, ne_eq]
      exact this
    · simpa using hfile
  · exact absurd h (by simp)

/-- A path prefix after `scheme://authority` is not read: an input that starts with a
single `/` resolves against the base URL with the prefix as against the base URL
without it, on every host. -/
theorem resolve_drops_path (host : URLHost) (input origin suffix : String)
    (tail : List Char) (ho : isOriginText origin = true)
    (hs : suffix.data.head? = some '/')
    (hi : stripInput input.data = '/' :: tail)
    (ht : (tail.head? == some '/' || tail.head? == some '\\') = false) :
    resolve host input (origin ++ suffix) = resolve host input origin := by
  obtain ⟨scheme, rest, hform, hscheme, hvis, hne, hrest, hfile⟩ := originText_shape origin ho
  cases hd : suffix.data with
  | nil => rw [hd] at hs; simp at hs
  | cons c s =>
    rw [hd] at hs
    simp only [List.head?_cons, Option.some.injEq] at hs
    subst hs
    obtain ⟨t, hstrip⟩ := stripInput_keeps origin.data s hvis
    have hfix := stripInput_fixed origin.data hvis
    have e1 : origin.data ++ '/' :: t
        = scheme ++ ':' :: '/' :: '/' :: (rest ++ '/' :: t) := by
      rw [hform]; simp
    have hcolon : ((fun c : Char => c != ':') ':') = false := by decide
    have htake1 := takeWhile_stops (fun c => c != ':') scheme ':'
      ('/' :: '/' :: (rest ++ '/' :: t)) hscheme hcolon
    have htake2 := takeWhile_stops (fun c => c != ':') scheme ':'
      ('/' :: '/' :: rest) hscheme hcolon
    have hdrop1 := dropWhile_stops_at (fun c => c != ':') scheme ':'
      ('/' :: '/' :: (rest ++ '/' :: t)) hscheme hcolon
    have hdrop2 := dropWhile_stops_at (fun c => c != ':') scheme ':'
      ('/' :: '/' :: rest) hscheme hcolon
    have hauth : ∀ special : Bool,
        (rest ++ '/' :: t).takeWhile (fun c => !endsAuthority special c)
          = rest.takeWhile (fun c => !endsAuthority special c) := by
      intro special
      apply takeWhile_stops
      · intro c hc
        have h4 := hrest c hc
        simp only [Bool.and_eq_true, bne_iff_ne, ne_eq] at h4
        obtain ⟨⟨⟨h1, h2⟩, h3⟩, h4⟩ := h4
        simp [endsAuthority, h1, h2, h3, h4]
      · simp [endsAuthority]
    have hself : scheme.takeWhile (fun c => c != ':') = scheme :=
      List.takeWhile_eq_self_iff.mpr hscheme
    have hfile2 : (asciiLower scheme == ['f', 'i', 'l', 'e']) = false := hfile
    have hhead : (rest ++ '/' :: t).head? = rest.head? :=
      List.head?_append_of_ne_nil rest hne
    unfold resolve
    simp only []
    rw [String.data_append, hd, hstrip, hfix, e1, hform, htake1, htake2, hdrop1, hdrop2, hi,
      hself]
    simp only [hhead, hauth]
    split
    · rename_i hcond
      exfalso
      cases hr : rest with
      | nil => exact hne hr
      | cons r0 rs =>
        have h4 := hrest r0 (by rw [hr]; simp)
        simp only [Bool.and_eq_true, bne_iff_ne, ne_eq] at h4
        obtain ⟨⟨⟨h1, h2⟩, _⟩, _⟩ := h4
        rw [hr] at hcond
        simp only [Bool.or_eq_true] at hcond ht
        simp only [Bool.or_eq_false_iff] at ht
        rcases hcond with (((hc | hc) | hc) | hc) | hc
        · rw [hfile2] at hc; exact absurd hc (by decide)
        · simp at hc; exact h1 hc
        · simp at hc; exact h2 hc
        · rw [ht.1] at hc; exact absurd hc (by decide)
        · rw [ht.2] at hc; exact absurd hc (by decide)
    · rfl

/-- A path that starts with `/api/v1/` starts, after the preprocessing of the URL
parser, with a single `/`. -/
theorem wrapperPath_absolute (path : String) (h : "/api/v1/".data <+: path.data) :
    ∃ tail : List Char, stripInput path.data = '/' :: tail ∧
      (tail.head? == some '/' || tail.head? == some '\\') = false := by
  obtain ⟨r, hr⟩ := h
  have hvis : ∀ c ∈ "/api/v1".data, isC0OrSpace c = false := by decide
  obtain ⟨t, ht⟩ := stripInput_keeps "/api/v1".data r hvis
  have e : path.data = "/api/v1".data ++ '/' :: r := by
    rw [← hr]; rfl
  refine ⟨"api/v1".data ++ '/' :: t, ?_, rfl⟩
  rw [e, ht]
  rfl

/-- An input that starts with a single `/` resolves against `scheme://authority` to the
serialized scheme and authority followed by the serialized path of the input. -/
theorem resolve_origin (host : URLHost) (input origin : String) (tail serialized : List Char)
    (ho : isOriginText origin = true) (hi : stripInput input.data = '/' :: tail)
    (ht : (tail.head? == some '/' || tail.head? == some '\\') = false)
    (ha : host.authority (schemeText origin) (authorityText host origin) = some serialized) :
    resolve host input origin
      = Except.ok (String.mk
          (serialized ++ host.path (schemeText origin) (stripInput input.data))) := by
  obtain ⟨scheme, rest, hform, hscheme, hvis, hne, hrest, hfile⟩ := originText_shape origin ho
  have hfix := stripInput_fixed origin.data hvis
  have hcolon : ((fun c : Char => c != ':') ':') = false := by decide
  have htake := takeWhile_stops (fun c => c != ':') scheme ':'
    ('/' :: '/' :: rest) hscheme hcolon
  have hdrop := dropWhile_stops_at (fun c => c != ':') scheme ':'
    ('/' :: '/' :: rest) hscheme hcolon
  have hself : scheme.takeWhile (fun c => c != ':') = scheme :=
    List.takeWhile_eq_self_iff.mpr hscheme
  have hfile2 : (asciiLower scheme == ['f', 'i', 'l', 'e']) = false := hfile
  have hst : schemeText origin = scheme := by
    unfold schemeText
    rw [hfix, hform, htake, hself]
  have hat : authorityText host origin
      = rest.takeWhile (fun c => !endsAuthority (host.isSpecial scheme) c) := by
    unfold authorityText
    rw [hst, hfix, hform, hdrop]
    rfl
  rw [hst, hat] at ha
  unfold resolve
  simp only []
  rw [hfix, hform, htake, hdrop, hi, hself, hst]
  simp only []
  split
  · rename_i hcond
    exfalso
    cases hr : rest with
    | nil => exact hne hr
    | cons r0 rs =>
      have h4 := hrest r0 (by rw [hr]; simp)
      simp only [Bool.and_eq_true, bne_iff_ne, ne_eq] at h4
      obtain ⟨⟨⟨h1, h2⟩, _⟩, _⟩ := h4
      rw [hr] at hcond
      simp only [Bool.or_eq_true] at hcond
      simp only [Bool.or_eq_false_iff] at ht
      rcases hcond with (((hc | hc) | hc) | hc) | hc
      · rw [hfile2] at hc; exact absurd hc (by decide)
      · simp at hc; exact h1 hc
      · simp at hc; exact h2 hc
      · rw [ht.1] at hc; exact absurd hc (by decide)
      · rw [ht.2] at hc; exact absurd hc (by decide)
  · rw [ha]

/-- The request core depends on the base URL only through the URL constructed for the
path. -/
theorem request_base_congr (self : BaseService) (rt : Runtime) (b1 b2 : String)
    (method path : String) (options : Option Obj)
    (h : rt.URL path b1 = rt.URL path b2) :
    BaseService._request { self with baseUrl := b1 } rt method path options
      = BaseService._request { self with baseUrl := b2 } rt method path options := by
  unfold BaseService._request
  simp only [h]
  rfl

/-! ## Base URLs with a path prefix: claim C26 -/

/-- C26, refuted as stated: with the base URL `https://argocd.example.com/argocd`,
`getProject("a b")` builds the path `/api/v1/projects/a b`, and `fetch` is called with
`https://argocd.example.com/api/v1/projects/a%20b`: the prefix `/argocd` is discarded,
but the URL is not the origin followed by the path. -/
theorem C26_prefixed_path_normalized :
    (ProjectService.getProject
        { BaseService.new testConfig with baseUrl := "https://argocd.example.com/argocd" }
        (hostWith (mockResolvedValue (jsonResponse true 200 JSVal.null)))
        "a b").requests =
      [{ method := "GET", path := "/api/v1/projects/a b", options := none }] ∧
    (ProjectService.getProject
        { BaseService.new testConfig with baseUrl := "https://argocd.example.com/argocd" }
        (hostWith (mockResolvedValue (jsonResponse true 200 JSVal.null)))
        "a b").fetches.map (fun call => call.url) =
      ["https://argocd.example.com/api/v1/projects/a%20b"] ∧
    "https://argocd.example.com/api/v1/projects/a%20b" ≠
      "https://argocd.example.com" ++ "/api/v1/projects/a b" := by
  decide

/-- C26, amended: every path built by a wrapper starts with `/api/v1/`, and for every
base URL `scheme://authority` followed by a path prefix that starts with `/`, on every
host, the prefix is discarded: every operation has the same outcome (the same `fetch`
calls, to the same URLs) as on a client whose base URL is `scheme://authority` alone,
and so has the request core of the facade on such paths. The URL requested is the
serialization of the scheme and authority of the base URL followed by the path as the
URL parser serializes it. -/
theorem C26_path_prefix_discarded (self : BaseService) (rt : Runtime) (host : URLHost)
    (origin suffix : String) (op : Op) (hrt : rt.URL = resolve host)
    (ho : isOriginText origin = true) (hs : suffix.data.head? = some '/') :
    op.perform { self with baseUrl := origin ++ suffix } rt
        = op.perform { self with baseUrl := origin } rt ∧
      (∀ a ∈ (op.perform { self with baseUrl := origin ++ suffix } rt).requests,
        "/api/v1/".data <+: a.path.data ∧
          ∀ serialized : List Char,
            host.authority (schemeText origin) (authorityText host origin)
              = some serialized →
            (op.perform { self with baseUrl := origin ++ suffix } rt).fetches.map
                (fun call => call.url)
              = [String.mk (serialized ++
                  host.path (schemeText origin) (stripInput a.path.data))]) ∧
      ∀ (method path : String) (options : Option Obj), "/api/v1/".data <+: path.data →
        (ArgoCD.new { baseUrl := origin ++ suffix, token := self.token })._request
            rt method path options
          = (ArgoCD.new { baseUrl := origin, token := self.token })._request
              rt method path options := by
  have hcongr : ∀ path : String, "/api/v1/".data <+: path.data →
      rt.URL path (origin ++ suffix) = rt.URL path origin := by
    intro path hp
    obtain ⟨tail, hi, ht⟩ := wrapperPath_absolute path hp
    rw [hrt]
    exact resolve_drops_path host path origin suffix tail ho hs hi ht
  have hstem : ∀ q : String, "/api/v1/".data <+: (op.stem ++ q).data := by
    intro q
    obtain ⟨t, ht⟩ := stem_root op
    refine ⟨(resourceRoot op.service).data ++ t ++ q.data, ?_⟩
    rw [String.data_append (op.stem) q, ← ht, String.data_append]
    simp only [List.append_assoc]
  have hsame : op.perform { self with baseUrl := origin ++ suffix } rt
      = op.perform { self with baseUrl := origin } rt := by
    rcases perform_uniform op with ⟨_, q, hp⟩ | ⟨_, e, hp⟩
    · rw [hp, hp]
      exact request_base_congr self rt _ _ _ _ _ (hcongr _ (hstem q))
    · rw [hp, hp]
  refine ⟨hsame, ?_, fun method path options hp =>
    request_base_congr self rt (origin ++ suffix) origin method path options
      (hcongr path hp)⟩
  rw [hsame]
  intro a ha
  rcases perform_uniform op with ⟨_, q, hp⟩ | ⟨_, e, hp⟩
  · rw [hp] at ha ⊢
    rw [request_requests] at ha
    simp only [List.mem_singleton] at ha
    subst ha
    refine ⟨hstem q, ?_⟩
    intro serialized hser
    obtain ⟨tail, hi, ht⟩ := wrapperPath_absolute (op.stem ++ q) (hstem q)
    have hu : rt.URL (op.stem ++ q) origin
        = Except.ok (String.mk (serialized ++
            host.path (schemeText origin) (stripInput (op.stem ++ q).data))) := by
      rw [hrt]
      exact resolve_origin host (op.stem ++ q) origin tail serialized ho hi ht hser
    rw [request_fetches { self with baseUrl := origin } rt op.method
      (op.stem ++ q) (op.options rt) _ hu]
    rfl
  · rw [hp] at ha
    simp at ha

/-- C26 amended, at a concrete input: on a client with the base URL
`https://argocd.example.com/argocd/`, `getProject("default")` calls `fetch` with
`https://argocd.example.com/api/v1/projects/default`. -/
theorem C26_path_prefix_discarded_witness :
    (Op.perform
        { BaseService.new testConfig with
            baseUrl := "https://argocd.example.com" ++ "/argocd/" }
        (hostOn modelledURL (mockResolvedValue (jsonResponse true 200 JSVal.null)))
        (Op.getProject "default")).fetches.map (fun call => call.url)
      = ["https://argocd.example.com/api/v1/projects/default"] :=
  (((C26_path_prefix_discarded (BaseService.new testConfig)
      (hostOn modelledURL (mockResolvedValue (jsonResponse true 200 JSVal.null)))
      modelledURL "https://argocd.example.com" "/argocd/" (Op.getProject "default")
      rfl (by decide) (by decide)).2.1
    { method := "GET", path := "/api/v1/projects/default", options := none }
    (by decide)).2 "https://argocd.example.com".data (by decide)).trans (by decide)

/-! ## Lemmas on the methods as programs -/

/-- The statement `const url = new URL(path, this.baseUrl)`. -/
theorem exec_constURL (self : BaseService) (rt : Runtime) (m : Machine) (path : String)
    (h1 : m.this = self.fields) (h2 : Obj.get m.vars "path" = JSVal.str path) :
    Stmt.exec rt m (Stmt.constURL "url" (Atom.var "path") (Atom.thisProp "baseUrl"))
      = match rt.URL path self.baseUrl with
        | Except.ok url => Step.next { m with vars := Obj.set m.vars "url" (JSVal.str url) }
        | Except.error e => throwIn m e := by
  simp only [Stmt.exec, evalAtom, h1, h2]
  rfl

/-- The statement `const headers = ...`, with the defaults and the spread of
`options.headers`. -/
theorem exec_headers (self : BaseService) (rt : Runtime) (m : Machine) (o : Obj)
    (h1 : m.this = self.fields) (h2 : Obj.get m.vars "options" = JSVal.obj o) :
    Stmt.exec rt m
        (Stmt.constObject "headers"
          { props :=
              [("Authorization",
                 Value.template [Piece.text "Bearer ", Piece.hole (Atom.thisProp "token")]),
               ("Content-Type", Value.atom (Atom.str "application/json"))],
            rest := some (Atom.prop "options" "headers") })
      = Step.next { m with vars := Obj.set m.vars "headers" (JSVal.obj (self.headers o)) } := by
  simp only [Stmt.exec, evalObject, evalProps, evalValue, evalTemplate, evalPiece, evalAtom,
    List.foldl, h1, h2]
  rfl

/-- The statement `const response = await fetch(url, ...)`, with the `init` object. -/
theorem exec_fetch (rt : Runtime) (m : Machine) (method url : String) (headers o : Obj)
    (h1 : Obj.get m.vars "url" = JSVal.str url)
    (h2 : Obj.get m.vars "method" = JSVal.str method)
    (h3 : Obj.get m.vars "headers" = JSVal.obj headers)
    (h4 : Obj.get m.vars "options" = JSVal.obj o) :
    Stmt.exec rt m
        (Stmt.awaitFetch "response" "url"
          { props :=
              [("method", Value.atom (Atom.var "method")),
               ("headers", Value.atom (Atom.var "headers"))],
            rest := some (Atom.var "options") })
      = match rt.fetch url
            (spread [("method", JSVal.str method), ("headers", JSVal.obj headers)]
              (JSVal.obj o)) with
        | Settled.rejected e =>
          throwIn { m with fetches := m.fetches ++
            [{ url := url,
               init := spread [("method", JSVal.str method), ("headers", JSVal.obj headers)]
                 (JSVal.obj o) }] } e
        | Settled.fulfilled r =>
          Step.next { m with
            response := some ("response", r),
            fetches := m.fetches ++
              [{ url := url,
                 init := spread [("method", JSVal.str method), ("headers", JSVal.obj headers)]
                   (JSVal.obj o) }] } := by
  simp only [Stmt.exec, evalObject, evalProps, evalValue, evalAtom, h1, h2, h3, h4]
  rfl

/-- The program of `_request` does what the method `_request` does. -/
theorem invokeRequest_outcome (self : BaseService) (rt : Runtime) (m : Machine)
    (method path : String) (options : Option Obj)
    (hthis : m.this = self.fields) (hreq : m.requests = []) (hfet : m.fetches = []) :
    outcomeOf (invokeRequest rt m method path options)
      = self._request rt method path options := by
  obtain ⟨this, vars, query, response, requests, fetches⟩ := m
  simp only at hthis hreq hfet
  subst hthis hreq hfet
  have hopt : defaultTo (optionalObj options) (JSVal.obj []) = JSVal.obj (options.getD []) := by
    cases options <;> rfl
  unfold BaseService._request invokeRequest requestBody
  simp only [hopt]
  rw [execBody, exec_constURL self rt _ path]
  rotate_left
  · rfl
  · rfl
  cases hu : rt.URL path self.baseUrl with
  | error e => rfl
  | ok url =>
    simp only []
    rw [execBody, exec_headers self rt _ (options.getD [])]
    rotate_left
    · rfl
    · rfl
    simp only []
    rw [execBody, exec_fetch rt _ method url (self.headers (options.getD [])) (options.getD [])]
    rotate_left
    · rfl
    · rfl
    · rfl
    · rfl
    have hinit : spread [("method", JSVal.str method),
          ("headers", JSVal.obj (self.headers (options.getD [])))]
        (JSVal.obj (options.getD [])) = self.init method (options.getD []) := rfl
    rw [hinit]
    cases hf : rt.fetch url (self.init method (options.getD [])) with
    | rejected e => rfl
    | fulfilled r =>
      simp only []
      cases hok : r.ok with
      | false =>
        simp only [execBody, Stmt.exec, hok]
        rfl
      | true =>
        simp only [execBody, Stmt.exec, hok]
        rfl

/-- The statement `if (params.k) params.k.forEach(x => queryParams.append(k, x))`. -/
theorem exec_ifForEach (rt : Runtime) (m : Machine) (o : Obj) (k : String)
    (h : Obj.get m.vars "params" = JSVal.obj o) :
    Stmt.exec rt m (Stmt.ifForEach (Atom.prop "params" k) (Atom.prop "params" k) k)
      = match (if (Obj.get o k).truthy = true then forEachAppend m.query k (Obj.get o k)
            else Except.ok m.query) with
        | Except.ok q => Step.next { m with query := q }
        | Except.error e => throwIn m e := by
  simp only [Stmt.exec, evalAtom, h]

/-- The program of `listApplications` does what the wrapper does. -/
theorem program_listApplications (self : BaseService) (rt : Runtime) (params : Option Obj) :
    outcomeOf (invoke rt (Op.listApplications params).program self.fields
        (Op.listApplications params).arguments)
      = ApplicationService.listApplications self rt params := by
  have h : invoke rt (Op.listApplications params).program self.fields
        (Op.listApplications params).arguments
      = execTop rt
          [Top.stmt (Stmt.ifForEach (Atom.prop "params" "projects")
              (Atom.prop "params" "projects") "projects"),
           Top.returnRequest "GET"
             [Piece.text "/api/v1/applications?", Piece.hole Atom.queryString] none]
          { this := self.fields, vars := [("params", JSVal.obj (params.getD []))],
            query :=
              if (Obj.get (params.getD []) "refresh").truthy = true then
                (if (Obj.get (params.getD []) "name").truthy = true then
                  URLSearchParams.new.append "name" (Obj.get (params.getD []) "name")
                  else URLSearchParams.new).append "refresh"
                    (Obj.get (params.getD []) "refresh")
              else (if (Obj.get (params.getD []) "name").truthy = true then
                URLSearchParams.new.append "name" (Obj.get (params.getD []) "name")
                else URLSearchParams.new),
            response := none, requests := [], fetches := [] } := by
    cases params <;> rfl
  rw [h, execTop]
  simp only [Top.exec]
  rw [exec_ifForEach rt _ (params.getD []) "projects"]
  rotate_left
  · rfl
  simp only [ApplicationService.listApplications]
  rcases forEach_completes
      (if (Obj.get (params.getD []) "refresh").truthy = true then
        (if (Obj.get (params.getD []) "name").truthy = true then
          URLSearchParams.new.append "name" (Obj.get (params.getD []) "name")
          else URLSearchParams.new).append "refresh" (Obj.get (params.getD []) "refresh")
        else (if (Obj.get (params.getD []) "name").truthy = true then
          URLSearchParams.new.append "name" (Obj.get (params.getD []) "name")
          else URLSearchParams.new))
      "projects" (Obj.get (params.getD []) "projects") with ⟨_, q2, hq⟩ | ⟨_, e, he⟩
  · simp only [hq]
    show outcomeOf (invokeRequest rt _ _ _ _) = _
    exact invokeRequest_outcome self rt _ _ _ _ rfl rfl rfl
  · simp only [he]
    rfl

/-- The program of `syncApplication` does what the wrapper does. -/
theorem program_syncApplication (self : BaseService) (rt : Runtime) (name : String)
    (params : Option Obj) :
    outcomeOf (invoke rt (Op.syncApplication name params).program self.fields
        (Op.syncApplication name params).arguments)
      = ApplicationService.syncApplication self rt name params := by
  have h : invoke rt (Op.syncApplication name params).program self.fields
        (Op.syncApplication name params).arguments
      = execTop rt
          [Top.stmt (Stmt.ifForEach (Atom.prop "params" "resources")
              (Atom.prop "params" "resources") "resources"),
           Top.returnRequest "POST"
             [Piece.text "/api/v1/applications/", Piece.hole (Atom.var "name"),
              Piece.text "/sync?", Piece.hole Atom.queryString] none]
          { this := self.fields,
            vars := [("name", JSVal.str name), ("params", JSVal.obj (params.getD []))],
            query :=
              if (Obj.get (params.getD []) "strategy").truthy = true then
                (if (Obj.get (params.getD []) "prune").truthy = true then
                  (if (Obj.get (params.getD []) "dryRun").truthy = true then
                    URLSearchParams.new.append "dryRun" (JSVal.str "true")
                    else URLSearchParams.new).append "prune" (JSVal.str "true")
                  else (if (Obj.get (params.getD []) "dryRun").truthy = true then
                    URLSearchParams.new.append "dryRun" (JSVal.str "true")
                    else URLSearchParams.new)).append "strategy"
                      (Obj.get (params.getD []) "strategy")
              else (if (Obj.get (params.getD []) "prune").truthy = true then
                (if (Obj.get (params.getD []) "dryRun").truthy = true then
                  URLSearchParams.new.append "dryRun" (JSVal.str "true")
                  else URLSearchParams.new).append "prune" (JSVal.str "true")
                else (if (Obj.get (params.getD []) "dryRun").truthy = true then
                  URLSearchParams.new.append "dryRun" (JSVal.str "true")
                  else URLSearchParams.new)),
            response := none, requests := [], fetches := [] } := by
    cases params <;> rfl
  rw [h, execTop]
  simp only [Top.exec]
  rw [exec_ifForEach rt _ (params.getD []) "resources"]
  rotate_left
  · rfl
  simp only [ApplicationService.syncApplication]
  rcases forEach_completes
      (if (Obj.get (params.getD []) "strategy").truthy = true then
        (if (Obj.get (params.getD []) "prune").truthy = true then
          (if (Obj.get (params.getD []) "dryRun").truthy = true then
            URLSearchParams.new.append "dryRun" (JSVal.str "true")
            else URLSearchParams.new).append "prune" (JSVal.str "true")
          else (if (Obj.get (params.getD []) "dryRun").truthy = true then
            URLSearchParams.new.append "dryRun" (JSVal.str "true")
            else URLSearchParams.new)).append "strategy" (Obj.get (params.getD []) "strategy")
        else (if (Obj.get (params.getD []) "prune").truthy = true then
          (if (Obj.get (params.getD []) "dryRun").truthy = true then
            URLSearchParams.new.append "dryRun" (JSVal.str "true")
            else URLSearchParams.new).append "prune" (JSVal.str "true")
          else (if (Obj.get (params.getD []) "dryRun").truthy = true then
            URLSearchParams.new.append "dryRun" (JSVal.str "true")
            else URLSearchParams.new)))
      "resources" (Obj.get (params.getD []) "resources") with ⟨_, q2, hq⟩ | ⟨_, e, he⟩
  · simp only [hq]
    show outcomeOf (invokeRequest rt _ _ _ _) = _
    exact invokeRequest_outcome self rt _ _ _ _ rfl rfl rfl
  · simp only [he]
    rfl

set_option maxHeartbeats 4000000 in
/-- The program of a wrapper does what the wrapper does. -/
theorem program_outcome (self : BaseService) (rt : Runtime) (op : Op) :
    outcomeOf (invoke rt op.program self.fields op.arguments) = op.perform self rt := by
  cases op
  case listApplications params => exact program_listApplications self rt params
  case getApplication name params =>
    cases params
    · show outcomeOf (invokeRequest rt _ _ _ _) = _
      exact invokeRequest_outcome self rt _ _ _ _ rfl rfl rfl
    · show outcomeOf (invokeRequest rt _ _ _ _) = _
      exact invokeRequest_outcome self rt _ _ _ _ rfl rfl rfl
  case createApplication application upsert validate =>
    show outcomeOf (invokeRequest rt _ _ _ _) = _
    exact invokeRequest_outcome self rt _ _ _ _ rfl rfl rfl
  case deleteApplication name params =>
    cases params
    · show outcomeOf (invokeRequest rt _ _ _ _) = _
      exact invokeRequest_outcome self rt _ _ _ _ rfl rfl rfl
    · show outcomeOf (invokeRequest rt _ _ _ _) = _
      exact invokeRequest_outcome self rt _ _ _ _ rfl rfl rfl
  case updateApplication name application validate =>
    show outcomeOf (invokeRequest rt _ _ _ _) = _
    exact invokeRequest_outcome self rt _ _ _ _ rfl rfl rfl
  case syncApplication name params => exact program_syncApplication self rt name params
  case getApplicationManifests name params =>
    cases params
    · show outcomeOf (invokeRequest rt _ _ _ _) = _
      exact invokeRequest_outcome self rt _ _ _ _ rfl rfl rfl
    · show outcomeOf (invokeRequest rt _ _ _ _) = _
      exact invokeRequest_outcome self rt _ _ _ _ rfl rfl rfl
  case getApplicationResource name params =>
    show outcomeOf (invokeRequest rt _ _ _ _) = _
    exact invokeRequest_outcome self rt _ _ _ _ rfl rfl rfl
  case listApplicationEvents name params =>
    cases params
    · show outcomeOf (invokeRequest rt _ _ _ _) = _
      exact invokeRequest_outcome self rt _ _ _ _ rfl rfl rfl
    · show outcomeOf (invokeRequest rt _ _ _ _) = _
      exact invokeRequest_outcome self rt _ _ _ _ rfl rfl rfl
  case listApplicationResourceActions name params =>
    show outcomeOf (invokeRequest rt _ _ _ _) = _
    exact invokeRequest_outcome self rt _ _ _ _ rfl rfl rfl
  case runApplicationResourceAction name params =>
    show outcomeOf (invokeRequest rt _ _ _ _) = _
    exact invokeRequest_outcome self rt _ _ _ _ rfl rfl rfl
  case listClusters params =>
    cases params
    · show outcomeOf (invokeRequest rt _ _ _ _) = _
      exact invokeRequest_outcome self rt _ _ _ _ rfl rfl rfl
    · show outcomeOf (invokeRequest rt _ _ _ _) = _
      exact invokeRequest_outcome self rt _ _ _ _ rfl rfl rfl
  case createCluster cluster upsert =>
    show outcomeOf (invokeRequest rt _ _ _ _) = _
    exact invokeRequest_outcome self rt _ _ _ _ rfl rfl rfl
  case getCluster server =>
    show outcomeOf (invokeRequest rt _ _ _ _) = _
    exact invokeRequest_outcome self rt _ _ _ _ rfl rfl rfl
  case updateCluster server cluster params =>
    cases params
    · show outcomeOf (invokeRequest rt _ _ _ _) = _
      exact invokeRequest_outcome self rt _ _ _ _ rfl rfl rfl
    · show outcomeOf (invokeRequest rt _ _ _ _) = _
      exact invokeRequest_outcome self rt _ _ _ _ rfl rfl rfl
  case deleteCluster server params =>
    cases params
    · show outcomeOf (invokeRequest rt _ _ _ _) = _
      exact invokeRequest_outcome self rt _ _ _ _ rfl rfl rfl
    · show outcomeOf (invokeRequest rt _ _ _ _) = _
      exact invokeRequest_outcome self rt _ _ _ _ rfl rfl rfl
  case rotateAuth server =>
    show outcomeOf (invokeRequest rt _ _ _ _) = _
    exact invokeRequest_outcome self rt _ _ _ _ rfl rfl rfl
  case invalidateCache server =>
    show outcomeOf (invokeRequest rt _ _ _ _) = _
    exact invokeRequest_outcome self rt _ _ _ _ rfl rfl rfl
  case listGPGKeys params =>
    cases params
    · show outcomeOf (invokeRequest rt _ _ _ _) = _
      exact invokeRequest_outcome self rt _ _ _ _ rfl rfl rfl
    · show outcomeOf (invokeRequest rt _ _ _ _) = _
      exact invokeRequest_outcome self rt _ _ _ _ rfl rfl rfl
  case createGPGKey key =>
    show outcomeOf (invokeRequest rt _ _ _ _) = _
    exact invokeRequest_outcome self rt _ _ _ _ rfl rfl rfl
  case deleteGPGKey keyID =>
    show outcomeOf (invokeRequest rt _ _ _ _) = _
    exact invokeRequest_outcome self rt _ _ _ _ rfl rfl rfl
  case getGPGKey keyID =>
    show outcomeOf (invokeRequest rt _ _ _ _) = _
    exact invokeRequest_outcome self rt _ _ _ _ rfl rfl rfl
  case listProjects params =>
    cases params
    · show outcomeOf (invokeRequest rt _ _ _ _) = _
      exact invokeRequest_outcome self rt _ _ _ _ rfl rfl rfl
    · show outcomeOf (invokeRequest rt _ _ _ _) = _
      exact invokeRequest_outcome self rt _ _ _ _ rfl rfl rfl
  case createProject project =>
    show outcomeOf (invokeRequest rt _ _ _ _) = _
    exact invokeRequest_outcome self rt _ _ _ _ rfl rfl rfl
  case getProject name =>
    show outcomeOf (invokeRequest rt _ _ _ _) = _
    exact invokeRequest_outcome self rt _ _ _ _ rfl rfl rfl
  case updateProject name project =>
    show outcomeOf (invokeRequest rt _ _ _ _) = _
    exact invokeRequest_outcome self rt _ _ _ _ rfl rfl rfl
  case deleteProject name =>
    show outcomeOf (invokeRequest rt _ _ _ _) = _
    exact invokeRequest_outcome self rt _ _ _ _ rfl rfl rfl
  case getDetailedProject name =>
    show outcomeOf (invokeRequest rt _ _ _ _) = _
    exact invokeRequest_outcome self rt _ _ _ _ rfl rfl rfl
  case getSyncWindowsState name =>
    show outcomeOf (invokeRequest rt _ _ _ _) = _
    exact invokeRequest_outcome self rt _ _ _ _ rfl rfl rfl
  case getGlobalProjects  =>
    show outcomeOf (invokeRequest rt _ _ _ _) = _
    exact invokeRequest_outcome self rt _ _ _ _ rfl rfl rfl
  case getProjectEvents name =>
    show outcomeOf (invokeRequest rt _ _ _ _) = _
    exact invokeRequest_outcome self rt _ _ _ _ rfl rfl rfl
  case listRepositories params =>
    cases params
    · show outcomeOf (invokeRequest rt _ _ _ _) = _
      exact invokeRequest_outcome self rt _ _ _ _ rfl rfl rfl
    · show outcomeOf (invokeRequest rt _ _ _ _) = _
      exact invokeRequest_outcome self rt _ _ _ _ rfl rfl rfl
  case createRepository repository upsert credsOnly =>
    show outcomeOf (invokeRequest rt _ _ _ _) = _
    exact invokeRequest_outcome self rt _ _ _ _ rfl rfl rfl
  case getRepository repo forceRefresh =>
    show outcomeOf (invokeRequest rt _ _ _ _) = _
    exact invokeRequest_outcome self rt _ _ _ _ rfl rfl rfl
  case updateRepository repo repository =>
    show outcomeOf (invokeRequest rt _ _ _ _) = _
    exact invokeRequest_outcome self rt _ _ _ _ rfl rfl rfl
  case deleteRepository repo =>
    show outcomeOf (invokeRequest rt _ _ _ _) = _
    exact invokeRequest_outcome self rt _ _ _ _ rfl rfl rfl
  case listApps repo params =>
    cases params
    · show outcomeOf (invokeRequest rt _ _ _ _) = _
      exact invokeRequest_outcome self rt _ _ _ _ rfl rfl rfl
    · show outcomeOf (invokeRequest rt _ _ _ _) = _
      exact invokeRequest_outcome self rt _ _ _ _ rfl rfl rfl
  case getAppDetails repo params =>
    show outcomeOf (invokeRequest rt _ _ _ _) = _
    exact invokeRequest_outcome self rt _ _ _ _ rfl rfl rfl
  case getHelmCharts repo =>
    show outcomeOf (invokeRequest rt _ _ _ _) = _
    exact invokeRequest_outcome self rt _ _ _ _ rfl rfl rfl
  case listRefs repo =>
    show outcomeOf (invokeRequest rt _ _ _ _) = _
    exact invokeRequest_outcome self rt _ _ _ _ rfl rfl rfl
  case listAccounts  =>
    show outcomeOf (invokeRequest rt _ _ _ _) = _
    exact invokeRequest_outcome self rt _ _ _ _ rfl rfl rfl
  case canI resource action subresource =>
    show outcomeOf (invokeRequest rt _ _ _ _) = _
    exact invokeRequest_outcome self rt _ _ _ _ rfl rfl rfl
  case updatePassword request =>
    show outcomeOf (invokeRequest rt _ _ _ _) = _
    exact invokeRequest_outcome self rt _ _ _ _ rfl rfl rfl
  case getAccount name =>
    show outcomeOf (invokeRequest rt _ _ _ _) = _
    exact invokeRequest_outcome self rt _ _ _ _ rfl rfl rfl
  case createToken name request =>
    show outcomeOf (invokeRequest rt _ _ _ _) = _
    exact invokeRequest_outcome self rt _ _ _ _ rfl rfl rfl
  case deleteToken name id =>
    show outcomeOf (invokeRequest rt _ _ _ _) = _
    exact invokeRequest_outcome self rt _ _ _ _ rfl rfl rfl
  case listUsers  =>
    show outcomeOf (invokeRequest rt _ _ _ _) = _
    exact invokeRequest_outcome self rt _ _ _ _ rfl rfl rfl
  case getUser name =>
    show outcomeOf (invokeRequest rt _ _ _ _) = _
    exact invokeRequest_outcome self rt _ _ _ _ rfl rfl rfl
  case createUser user =>
    show outcomeOf (invokeRequest rt _ _ _ _) = _
    exact invokeRequest_outcome self rt _ _ _ _ rfl rfl rfl
  case updateUser name user =>
    show outcomeOf (invokeRequest rt _ _ _ _) = _
    exact invokeRequest_outcome self rt _ _ _ _ rfl rfl rfl
  case deleteUser name =>
    show outcomeOf (invokeRequest rt _ _ _ _) = _
    exact invokeRequest_outcome self rt _ _ _ _ rfl rfl rfl
  case listServices  =>
    show outcomeOf (invokeRequest rt _ _ _ _) = _
    exact invokeRequest_outcome self rt _ _ _ _ rfl rfl rfl
  case listTemplates  =>
    show outcomeOf (invokeRequest rt _ _ _ _) = _
    exact invokeRequest_outcome self rt _ _ _ _ rfl rfl rfl
  case listTriggers  =>
    show outcomeOf (invokeRequest rt _ _ _ _) = _
    exact invokeRequest_outcome self rt _ _ _ _ rfl rfl rfl
  case getSettings  =>
    show outcomeOf (invokeRequest rt _ _ _ _) = _
    exact invokeRequest_outcome self rt _ _ _ _ rfl rfl rfl
  case getVersion  =>
    show outcomeOf (invokeRequest rt _ _ _ _) = _
    exact invokeRequest_outcome self rt _ _ _ _ rfl rfl rfl
  case createSession session =>
    show outcomeOf (invokeRequest rt _ _ _ _) = _
    exact invokeRequest_outcome self rt _ _ _ _ rfl rfl rfl
  case deleteSession  =>
    show outcomeOf (invokeRequest rt _ _ _ _) = _
    exact invokeRequest_outcome self rt _ _ _ _ rfl rfl rfl
  case getUserInfo  =>
    show outcomeOf (invokeRequest rt _ _ _ _) = _
    exact invokeRequest_outcome self rt _ _ _ _ rfl rfl rfl
  case listCertificates params =>
    cases params
    · show outcomeOf (invokeRequest rt _ _ _ _) = _
      exact invokeRequest_outcome self rt _ _ _ _ rfl rfl rfl
    · show outcomeOf (invokeRequest rt _ _ _ _) = _
      exact invokeRequest_outcome self rt _ _ _ _ rfl rfl rfl
  case createCertificate certificate =>
    show outcomeOf (invokeRequest rt _ _ _ _) = _
    exact invokeRequest_outcome self rt _ _ _ _ rfl rfl rfl
  case deleteCertificate hostNamePattern certType certSubType =>
    show outcomeOf (invokeRequest rt _ _ _ _) = _
    exact invokeRequest_outcome self rt _ _ _ _ rfl rfl rfl

/-- A statement other than an assignment to a field of `this` leaves the fields of
`this` as they are, whether it completes, returns or throws. -/
theorem exec_this (rt : Runtime) (m : Machine) (s : Stmt) (h : s.assigns = false) :
    (s.exec rt m).machine.this = m.this := by
  cases s
  case assignThis k v => exact absurd h (by simp [Stmt.assigns])
  all_goals
    simp only [Stmt.exec, throwIn]
    (repeat' split) <;> rfl

/-- A list of statements without an assignment to a field of `this` leaves the fields
of `this` as they are. -/
theorem execBody_this (rt : Runtime) (body : List Stmt) (m : Machine)
    (h : body.all (fun s => !s.assigns) = true) : (execBody rt body m).1.this = m.this := by
  induction body generalizing m with
  | nil => rfl
  | cons s rest ih =>
    simp only [List.all_cons, Bool.and_eq_true, Bool.not_eq_true'] at h
    have hs := exec_this rt m s h.1
    unfold execBody
    split
    · rename_i m2 heq
      rw [heq] at hs
      rw [ih m2 h.2]
      exact hs
    · rename_i m2 r heq
      rw [heq] at hs
      exact hs

/-- A call of `_request` leaves the fields of `this` as they are. -/
theorem invokeRequest_this (rt : Runtime) (m : Machine) (method path : String)
    (options : Option Obj) : (invokeRequest rt m method path options).1.this = m.this := by
  unfold invokeRequest
  exact execBody_this rt requestBody _ (by decide)

/-- A statement of a method that is neither an assignment nor a constructor call leaves
the fields of `this` as they are. -/
theorem execTop_step_this (rt : Runtime) (m : Machine) (t : Top) (h : t.assigns = false) :
    (t.exec rt m).machine.this = m.this := by
  cases t with
  | stmt s => exact exec_this rt m s h
  | superCall arg => simp [Top.assigns] at h
  | returnRequest method path body =>
    simp only [Top.exec, throwIn]
    split
    · rfl
    · exact invokeRequest_this rt m _ _ _

/-- A method body without an assignment and without a constructor call leaves the
fields of `this` as they are. -/
theorem execTop_this (rt : Runtime) (body : List Top) (m : Machine)
    (h : body.all (fun t => !t.assigns) = true) : (execTop rt body m).1.this = m.this := by
  induction body generalizing m with
  | nil => rfl
  | cons t rest ih =>
    simp only [List.all_cons, Bool.and_eq_true, Bool.not_eq_true'] at h
    have hs := execTop_step_this rt m t h.1
    unfold execTop
    split
    · rename_i m2 heq
      rw [heq] at hs
      rw [ih m2 h.2]
      exact hs
    · rename_i m2 r heq
      rw [heq] at hs
      exact hs

/-- No wrapper has an assignment to a field of `this` in its body. -/
theorem program_assigns (op : Op) : op.program.body.all (fun t => !t.assigns) = true := by
  cases op <;> rfl

/-- One call leaves the fields of `this` as they are. -/
theorem run_this (rt : Runtime) (this : Obj) (call : Call) : (call.run rt this).1 = this := by
  cases call with
  | wrapper op => exact execTop_this rt op.program.body _ (program_assigns op)
  | request method path options => exact invokeRequest_this rt _ method path options

/-- A sequence of calls leaves the fields of `this` as they are, and each call is made
on these fields. -/
theorem runCalls_frame (this : Obj) (calls : List (Runtime × Call)) :
    (runCalls this calls).1 = this ∧
      (runCalls this calls).2 = calls.map fun rc => (rc.2.run rc.1 this).2 := by
  induction calls with
  | nil => exact ⟨rfl, rfl⟩
  | cons rc rest ih =>
    obtain ⟨rt, call⟩ := rc
    simp only [runCalls, run_this, List.map_cons]
    exact ⟨ih.1, by rw [ih.2]⟩

/-! ## Client configuration: claim C20 -/

/-- C20: the constructor of `BaseService`, and the constructors of `ApplicationService`
and `AccountService` (which call it and assign both fields again), executed on
`config`, leave an instance whose fields are `baseUrl = config.baseUrl` and
`token = config.token`. The body of every wrapper and the body of `_request`, executed
statement by statement on an instance with any fields, leave these fields as they were,
whatever the outcome of the call; so does every sequence of calls. The programs
executed are the wrappers and the `_request` of the services: they make the same calls
and return the same results. Every `fetch` call of a wrapper carries
`Authorization: Bearer <config.token>` and a URL constructed against `config.baseUrl`. -/
theorem C20_configuration_immutable (config : ClientConfig) :
    (∀ rt : Runtime,
      construct rt baseServiceClass config.toJS =
          [("baseUrl", JSVal.str config.baseUrl), ("token", JSVal.str config.token)] ∧
        construct rt derivedServiceClass config.toJS =
          [("baseUrl", JSVal.str config.baseUrl), ("token", JSVal.str config.token)]) ∧
    ((BaseService.new config).fields =
        [("baseUrl", JSVal.str config.baseUrl), ("token", JSVal.str config.token)] ∧
      (ApplicationService.new config).fields =
        [("baseUrl", JSVal.str config.baseUrl), ("token", JSVal.str config.token)] ∧
      (AccountService.new config).fields =
        [("baseUrl", JSVal.str config.baseUrl), ("token", JSVal.str config.token)]) ∧
    (∀ (rt : Runtime) (this : Obj) (op : Op),
      (invoke rt op.program this op.arguments).1.this = this) ∧
    (∀ (rt : Runtime) (m : Machine) (method path : String) (options : Option Obj),
      (invokeRequest rt m method path options).1.this = m.this) ∧
    (∀ (this : Obj) (calls : List (Runtime × Call)),
      (runCalls this calls).1 = this ∧
        (runCalls this calls).2 = calls.map fun rc => (rc.2.run rc.1 this).2) ∧
    (∀ (rt : Runtime) (self : BaseService) (op : Op),
      outcomeOf (invoke rt op.program self.fields op.arguments) = op.perform self rt) ∧
    (∀ (rt : Runtime) (self : BaseService) (method path : String) (options : Option Obj),
      (Call.run rt self.fields (Call.request method path options)).2
        = self._request rt method path options) ∧
    (∀ (rt : Runtime) (op : Op),
      ∀ call ∈ (op.perform (BaseService.new config) rt).fetches,
        headerOf call.init "Authorization" = JSVal.str ("Bearer " ++ config.token) ∧
          ∃ a ∈ (op.perform (BaseService.new config) rt).requests,
            rt.URL a.path config.baseUrl = Except.ok call.url) := by
  refine ⟨fun rt => ⟨rfl, rfl⟩, ⟨rfl, rfl, rfl⟩, ?_, ?_, ?_, ?_, ?_, ?_⟩
  · intro rt this op
    exact execTop_this rt op.program.body _ (program_assigns op)
  · intro rt m method path options
    exact invokeRequest_this rt m method path options
  · intro this calls
    exact runCalls_frame this calls
  · intro rt self op
    exact program_outcome self rt op
  · intro rt self method path options
    exact invokeRequest_outcome self rt _ method path options rfl rfl rfl
  · intro rt op call hc
    rcases perform_route (BaseService.new config) rt op with ⟨q, hp⟩ | ⟨e, hp⟩
    · rw [hp] at hc ⊢
      obtain ⟨hu, hi⟩ := mem_request_fetches _ rt _ _ _ call hc
      refine ⟨?_, ⟨_, by rw [request_requests]; exact List.mem_singleton.mpr rfl, hu⟩⟩
      rw [hi]
      unfold Op.options
      cases op.bodyArg with
      | none => rfl
      | some o => rfl
    · rw [hp] at hc
      simp at hc

/-- C20 at a concrete input: a service is constructed from the test configuration;
after a failing `getProject` and a succeeding `listClusters`, its fields are still
those that the constructor set. -/
theorem C20_configuration_immutable_witness :
    (runCalls
        (construct (hostWith (mockResolvedValue (jsonResponse true 200 JSVal.null)))
          derivedServiceClass testConfig.toJS)
        [(hostWith (mockResolvedValue (jsonResponse false 404 JSVal.null)),
            Call.wrapper (Op.getProject "p")),
         (hostWith (mockResolvedValue (jsonResponse true 200 (JSVal.obj []))),
            Call.wrapper (Op.listClusters none))]).1 =
      [("baseUrl", JSVal.str "https://argocd.example.com"),
       ("token", JSVal.str "test-token")] :=
  (((C20_configuration_immutable testConfig).2.2.2.2.1
    (construct (hostWith (mockResolvedValue (jsonResponse true 200 JSVal.null)))
      derivedServiceClass testConfig.toJS)
    [(hostWith (mockResolvedValue (jsonResponse false 404 JSVal.null)),
        Call.wrapper (Op.getProject "p")),
     (hostWith (mockResolvedValue (jsonResponse true 200 (JSVal.obj []))),
        Call.wrapper (Op.listClusters none))]).1).trans
    ((C20_configuration_immutable testConfig).1
      (hostWith (mockResolvedValue (jsonResponse true 200 JSVal.null)))).2

end ArgoSDK
